import Mathlib

/-!
# Keeto: X.509 to SSH key derivation, certificate store and validation

A shallow embedding of `src/keeto-x509.c` and `src/keeto-x509.h`.

Conventions of the embedding.

* A byte is a natural number; a byte buffer is a `List Nat`; a C string is a
  `List Char` (its characters without the terminating NUL), so `strlen` is
  `List.length`.
* A `BIGNUM` of an RSA public key is a natural number.
* A pointer that the C code receives and checks against `NULL` with `fatal`
  is modelled by the value it points to; out-parameters (`*ret`,
  `*ret_length`, `*key`) are passed in with their value before the call and
  returned with their value after it.
* Outcomes of the allocator and of the OpenSSL library that the C code
  branches on are explicit inputs of the functions.
-/

namespace Keeto

/-! ## Status codes and digests -/

/-- Modelled from the spec: the status codes of `keeto-error.h` (the header is
not among the sources), under the names `keeto-x509.c` uses for them.
`KEETO_OTHER` stands for the codes of the header that `keeto-x509.c` never
names. -/
inductive keeto_error where
  | KEETO_OK
  | KEETO_NO_MEMORY
  | KEETO_OPENSSL_ERR
  | KEETO_X509_ERR
  | KEETO_UNKNOWN_DIGEST_ALGO
  | KEETO_UNSUPPORTED_KEY_TYPE
  | KEETO_UNKNOWN_ERR
  | KEETO_OTHER (code : Nat)
  deriving DecidableEq, Repr

open keeto_error

/-- The enumeration `keeto_digests` of `keeto-x509.h`: a C enumeration is an
integer, `KEETO_DIGEST_MD5` is its first enumerator. -/
def KEETO_DIGEST_MD5 : Int := 0

/-- The second enumerator of `keeto_digests`. -/
def KEETO_DIGEST_SHA256 : Int := 1

/-! ## OpenSSL big numbers -/

/-- The base-256 digits of `a`, least significant first, without leading
zeroes; `fuel` bounds the number of digits produced. -/
def leBytes : Nat → Nat → List Nat
  | 0, _ => []
  | fuel + 1, a => if a = 0 then [] else (a % 256) :: leBytes fuel (a / 256)

/-- The bytes `BN_bn2bin` produces: the minimal big-endian encoding of `a`
(empty for zero). -/
def BN_bytes (a : Nat) : List Nat := (leBytes a a).reverse

/-- OpenSSL `BN_num_bytes`: the size of the minimal big-endian encoding. -/
def BN_num_bytes (a : Nat) : Nat := (leBytes a a).length

/-- OpenSSL `BN_bn2bin(a, buf)`: writes the `BN_num_bytes a` bytes of `a` at
the start of the buffer `buf` and leaves the rest of the buffer as it was. -/
def BN_bn2bin (a : Nat) (buf : List Nat) : List Nat :=
  BN_bytes a ++ buf.drop (BN_num_bytes a)

/-- An RSA public key as `RSA_get0_key` shows it: modulus `n`, exponent `e`. -/
structure RSA where
  n : Nat
  e : Nat
  deriving DecidableEq, Repr

/-! ## The SSH key blob -/

/-- The string literal "ssh-rsa" of `add_key_data_from_x509`. -/
def ssh_rsa : List Char := "ssh-rsa".toList

/-- The function `msb_set` of `keeto-x509.c`. -/
def msb_set (byte : Nat) : Bool :=
  if (byte &&& 0x80) ≠ 0 then true else false

/-- The macro `PUT_32BIT` of `keeto-x509.h`: the four bytes it stores at
`cp[0..3]`; the cast to `unsigned char` keeps the low eight bits. -/
def PUT_32BIT (value : Nat) : List Nat :=
  [(value >>> 24) % 256, (value >>> 16) % 256, (value >>> 8) % 256, value % 256]

/-- The size `pre_length_blob` that `get_ssh_key_blob_from_rsa` allocates. -/
def pre_length_blob (length_keytype length_exponent length_modulus : Nat) : Nat :=
  4 + length_keytype + 4 + 1 + length_exponent + 4 + 1 + length_modulus

/-- The size `length_tmp_buffer` of the temporary buffer. -/
def length_tmp_buffer (length_modulus length_exponent : Nat) : Nat :=
  if length_modulus > length_exponent then length_modulus else length_exponent

/-- What `get_ssh_key_blob_from_rsa` leaves behind: the returned status and
the values of `*ret` (the written bytes of the blob, `none` for an unset
pointer) and `*ret_length`. -/
structure blob_result where
  status : keeto_error
  ret : Option (List Nat)
  ret_length : Nat
  deriving DecidableEq, Repr

/-- The function `get_ssh_key_blob_from_rsa` of `keeto-x509.c`.

`malloc_ok` tells whether `malloc(pre_length_blob)` succeeds. `stack` gives
the indeterminate bytes the variable-length array `tmp_buffer` starts with
(`stack 0` is also what a read of `tmp_buffer[0]` sees when the array has
length zero). `blob` collects the bytes written through `blob_p`, and `blob_p`
is the offset `blob_p - blob`. -/
def get_ssh_key_blob_from_rsa (malloc_ok : Bool) (stack : Nat → Nat)
    (ssh_keytype : List Char) (rsa : RSA) (ret : Option (List Nat)) (ret_length : Nat) :
    blob_result :=
  /- get modulus and exponent -/
  let modulus := rsa.n
  let exponent := rsa.e
  /- length of keytype WITHOUT terminating null byte -/
  let length_keytype := ssh_keytype.length
  let length_modulus := BN_num_bytes modulus
  let length_exponent := BN_num_bytes exponent
  let _size := pre_length_blob length_keytype length_exponent length_modulus
  if malloc_ok = false then
    ⟨KEETO_NO_MEMORY, ret, ret_length⟩
  else
    let tmp_buffer : List Nat :=
      (List.range (length_tmp_buffer length_modulus length_exponent)).map stack
    let blob : List Nat := []
    let blob_p : Nat := 0
    /- put length of keytype -/
    let blob := blob ++ PUT_32BIT length_keytype
    let blob_p := blob_p + 4
    /- put keytype -/
    let blob := blob ++ ssh_keytype.map Char.toNat
    let blob_p := blob_p + length_keytype
    /- put length of exponent -/
    let tmp_buffer := BN_bn2bin exponent tmp_buffer
    let (blob, blob_p) :=
      if msb_set (tmp_buffer.headD (stack 0)) then
        (blob ++ PUT_32BIT (length_exponent + 1) ++ [0], blob_p + 4 + 1)
      else
        (blob ++ PUT_32BIT length_exponent, blob_p + 4)
    /- put exponent -/
    let blob := blob ++ tmp_buffer.take length_exponent
    let blob_p := blob_p + length_exponent
    /- put length of modulus -/
    let tmp_buffer := BN_bn2bin modulus tmp_buffer
    let (blob, blob_p) :=
      if msb_set (tmp_buffer.headD (stack 0)) then
        (blob ++ PUT_32BIT (length_modulus + 1) ++ [0], blob_p + 4 + 1)
      else
        (blob ++ PUT_32BIT length_modulus, blob_p + 4)
    /- put modulus -/
    let blob := blob ++ tmp_buffer.take length_modulus
    let blob_p := blob_p + length_modulus
    ⟨KEETO_OK, some blob, blob_p⟩

/-! ## The wire format in the words of the specification

The definitions of this section do not come from the C code: they say what
the specification and OpenSSH mean by a four-byte big-endian length, by a
padded integer field and by decoding a blob, and the code is compared with
them. -/

/-- Specification side: the four-byte big-endian encoding of a length. -/
def be32 (v : Nat) : List Nat :=
  [v / 2 ^ 24 % 256, v / 2 ^ 16 % 256, v / 2 ^ 8 % 256, v % 256]

/-- Specification side: the number a big-endian byte string denotes. -/
def be_value (bytes : List Nat) : Nat :=
  bytes.foldl (fun acc b => acc * 256 + b) 0

/-- Specification side: whether the first byte of a byte string exists and has
bit 0x80 set. -/
def top_bit_set (bytes : List Nat) : Bool :=
  match bytes with
  | [] => false
  | b :: _ => decide (128 ≤ b)

/-- Specification side: the pad count, 1 if the top byte of the minimal
big-endian encoding of `a` has its high bit set, else 0. -/
def pad (a : Nat) : Nat :=
  if top_bit_set (BN_bytes a) then 1 else 0

/-- Specification side: the bytes of an integer field after its length, one
zero byte when the minimal encoding has its top bit set, then the minimal
encoding. -/
def mpint_body (a : Nat) : List Nat :=
  (if top_bit_set (BN_bytes a) then [0] else []) ++ BN_bytes a

/-- Specification side: a length-counted integer field, the four-byte
big-endian length of the body, then the body. -/
def mpint_field (a : Nat) : List Nat :=
  be32 (mpint_body a).length ++ mpint_body a

/-- Specification side: the integer a big-endian two's-complement byte string
denotes. -/
def twos_complement (bytes : List Nat) : Int :=
  if top_bit_set bytes then (be_value bytes : Int) - (256 : Int) ^ bytes.length
  else (be_value bytes : Int)

/-- Specification side: reads one field of the wire format, a 32-bit
big-endian length, then that many bytes. Gives the bytes of the field and the
rest of the input; `none` when the input is too short. -/
def read_field (input : List Nat) : Option (List Nat × List Nat) :=
  if input.length < 4 then none
  else
    let len := be_value (input.take 4)
    let rest := input.drop 4
    if rest.length < len then none
    else some (rest.take len, rest.drop len)

/-- Specification side: an OpenSSH-style decoder of an RSA public key blob:
three fields, the second and the third read as two's-complement integers, and
nothing after them. Gives the key type, the exponent and the modulus. -/
def decode_rsa_blob (blob : List Nat) : Option (List Nat × Int × Int) :=
  match read_field blob with
  | none => none
  | some (keytype, rest1) =>
    match read_field rest1 with
    | none => none
    | some (e, rest2) =>
      match read_field rest2 with
      | none => none
      | some (n, rest3) =>
        if rest3 = [] then some (keytype, twos_complement e, twos_complement n)
        else none

/-- Specification side: the blob length the specification states,
`4 + |keytype| + 4 + |exponent| + pad_e + 4 + |modulus| + pad_m`. -/
def stated_blob_length (ssh_keytype : List Char) (rsa : RSA) : Nat :=
  4 + ssh_keytype.length + 4 + BN_num_bytes rsa.e + pad rsa.e + 4 +
    BN_num_bytes rsa.n + pad rsa.n

/-- A 128-byte modulus whose encoding starts with the bytes 0x7F 0x11. -/
def modulus_7F11 : Nat := 0x7F11 * 256 ^ 126 + 0xABCDEF

/-- A 256-byte modulus whose encoding starts with the byte 0xC3. -/
def modulus_C3 : Nat := 0xC3 * 256 ^ 255 + 0x010203

/-! ## Helpers of keeto-util.c and of the OpenSSL library -/

/-- The alphabet of the standard base64 encoding. -/
def b64_alphabet : List Char :=
  "ABCDEFGHIJKLMNOPQRSTUVWXYZabcdefghijklmnopqrstuvwxyz0123456789+/".toList

/-- The base64 character of a six-bit value. -/
def b64_char (i : Nat) : Char := b64_alphabet.getD (i % 64) 'A'

/-- Modelled from the spec: the standard base64 encoding with the padding
retained ("base64 of the blob, padding retained"), which `blob_to_base64` of
keeto-util.c (not among the sources) produces. -/
def base64 : List Nat → List Char
  | [] => []
  | [a] => [b64_char (a / 4), b64_char (a % 4 * 16), '=', '=']
  | [a, b] => [b64_char (a / 4), b64_char (a % 4 * 16 + b / 16), b64_char (b % 16 * 4), '=']
  | a :: b :: c :: rest =>
    b64_char (a / 4) :: b64_char (a % 4 * 16 + b / 16) :: b64_char (b % 16 * 4 + c / 64) ::
      b64_char (c % 64) :: base64 rest

/-- Modelled from the spec: the call `blob_to_base64(blob, length, &ret)` of
keeto-util.c (not among the sources). `fail` is the status the call fails
with, if it fails (the spec names NoMemory and CryptoError); on success the
string is the padded base64 encoding of the first `length` bytes. -/
def blob_to_base64 (fail : Option keeto_error) (blob : List Nat) (length : Nat) :
    Except keeto_error (List Char) :=
  match fail with
  | none => .ok (base64 (blob.take length))
  | some rc => if rc = KEETO_OK then .ok (base64 (blob.take length)) else .error rc

/-- The lowercase hexadecimal digit of a four-bit value. -/
def hex_digit (i : Nat) : Char := "0123456789abcdef".toList.getD (i % 16) '0'

/-- Modelled from the spec: lowercase hex digits, octets separated by the
separator ("ab:cd:..."). -/
def hex_with_separator (separator : List Char) : List Nat → List Char
  | [] => []
  | [b] => [hex_digit (b / 16), hex_digit b]
  | b :: c :: rest =>
    [hex_digit (b / 16), hex_digit b] ++ separator ++ hex_with_separator separator (c :: rest)

/-- Modelled from the spec: the call `blob_to_hex(blob, length, separator,
&ret)` of keeto-util.c (not among the sources); `fail` as for
`blob_to_base64`. -/
def blob_to_hex (fail : Option keeto_error) (blob : List Nat) (length : Nat)
    (separator : List Char) : Except keeto_error (List Char) :=
  match fail with
  | none => .ok (hex_with_separator separator (blob.take length))
  | some rc =>
    if rc = KEETO_OK then .ok (hex_with_separator separator (blob.take length)) else .error rc

/-- The C library function `strcspn`: the length of the initial segment of `s`
without any character of `reject`. -/
def strcspn (s reject : List Char) : Nat :=
  (s.takeWhile (fun c => !reject.contains c)).length

/-- The message digests `EVP_md5()` and `EVP_sha256()` of OpenSSL. -/
inductive EVP_MD where
  | md5
  | sha256
  deriving DecidableEq, Repr

/-- OpenSSL `EVP_md5()`. -/
def EVP_md5 : EVP_MD := EVP_MD.md5

/-- OpenSSL `EVP_sha256()`. -/
def EVP_sha256 : EVP_MD := EVP_MD.sha256

/-- OpenSSL `EVP_MD_size`: the digest size in bytes. -/
def EVP_MD_size : EVP_MD → Nat
  | EVP_MD.md5 => 16
  | EVP_MD.sha256 => 32

/-- The calls into OpenSSL and keeto-util.c that the functions below record,
in the order they are made. -/
inductive library_call where
  | EVP_Digest (data : List Nat) (md : EVP_MD)
  | blob_to_hex (data : List Nat)
  | blob_to_base64 (data : List Nat)
  | X509_STORE_new
  | X509_STORE_add_lookup
  | X509_LOOKUP_add_dir (dir : List Char) (filetype : Nat)
  | X509_STORE_set_flags (flags : Nat)
  | X509_STORE_free
  deriving DecidableEq, Repr

/-- What `get_ssh_key_fingerprint_from_blob` leaves behind: the returned
status, the value of `*ret` (`none` for an unset or `NULL` pointer) and the
library calls made. -/
structure fingerprint_result where
  status : keeto_error
  ret : Option (List Char)
  calls : List library_call
  deriving DecidableEq, Repr

/-- The function `get_ssh_key_fingerprint_from_blob` of `keeto-x509.c`.

`EVP_Digest data md` is the content of `digest_buffer` after the call of
OpenSSL `EVP_Digest`, `none` when that call returns 0. `hex_fail` and
`base64_fail` are the failures of the calls of `blob_to_hex` and
`blob_to_base64`. `ret` is the value of `*ret` before the call. -/
def get_ssh_key_fingerprint_from_blob (EVP_Digest : List Nat → EVP_MD → Option (List Nat))
    (hex_fail base64_fail : Option keeto_error)
    (blob : List Nat) (blob_length : Nat) (algo : Int) (ret : Option (List Char)) :
    fingerprint_result :=
  let digest : Option EVP_MD :=
    if algo = KEETO_DIGEST_MD5 then some EVP_md5
    else if algo = KEETO_DIGEST_SHA256 then some EVP_sha256
    else none
  match digest with
  | none => ⟨KEETO_UNKNOWN_DIGEST_ALGO, ret, []⟩
  | some digest =>
    let data := blob.take blob_length
    /- hash -/
    match EVP_Digest data digest with
    | none => ⟨KEETO_OPENSSL_ERR, ret, [library_call.EVP_Digest data digest]⟩
    | some digest_buffer =>
      /- get openssh fingerprint representation -/
      if algo = KEETO_DIGEST_MD5 then
        match blob_to_hex hex_fail digest_buffer (EVP_MD_size digest) ":".toList with
        | .error rc =>
          ⟨rc, ret, [library_call.EVP_Digest data digest, library_call.blob_to_hex digest_buffer]⟩
        | .ok fp =>
          ⟨KEETO_OK, some fp,
            [library_call.EVP_Digest data digest, library_call.blob_to_hex digest_buffer]⟩
      else if algo = KEETO_DIGEST_SHA256 then
        match blob_to_base64 base64_fail digest_buffer (EVP_MD_size digest) with
        | .error rc =>
          ⟨rc, ret,
            [library_call.EVP_Digest data digest, library_call.blob_to_base64 digest_buffer]⟩
        | .ok fp =>
          /- remove '=' at the end -/
          let end_of_fp := strcspn fp "=".toList
          let fp := fp.take end_of_fp
          ⟨KEETO_OK, some fp,
            [library_call.EVP_Digest data digest, library_call.blob_to_base64 digest_buffer]⟩
      else
        ⟨KEETO_OK, none, [library_call.EVP_Digest data digest]⟩

/-! ## Key data of a certificate -/

/-- How a call ends: `fatal` ends the process with a message, otherwise the
call returns a value. -/
inductive outcome (α : Type) where
  | fatal (msg : String)
  | returned (value : α)
  deriving DecidableEq, Repr

/-- Modelled from the spec: the record `struct keeto_ssh_key` of keeto-util.h
(not among the sources), an SshKey of key type and base64 key; `none` is a
`NULL` pointer. -/
structure keeto_ssh_key where
  keytype : Option (List Char)
  key : Option (List Char)
  deriving DecidableEq, Repr

/-- Modelled from the spec: the fields of `struct keeto_key` of keeto-util.h
(not among the sources) that `keeto-x509.c` writes: the SshKey and the two
fingerprints. -/
structure keeto_key where
  ssh_key : Option keeto_ssh_key
  ssh_key_fp_md5 : Option (List Char)
  ssh_key_fp_sha256 : Option (List Char)
  deriving DecidableEq, Repr

/-- Modelled from the spec: `new_ssh_key()` of keeto-util.c (not among the
sources) allocates an SshKey record with no key type and no key set. -/
def new_ssh_key : keeto_ssh_key := ⟨none, none⟩

/-- An OpenSSL public key: its base type `EVP_PKEY_base_id` and what
`EVP_PKEY_get1_RSA` gives for it (`none` for `NULL`). -/
structure EVP_PKEY where
  base_id : Int
  rsa : Option RSA
  deriving DecidableEq, Repr

/-- OpenSSL `EVP_PKEY_RSA` (`NID_rsaEncryption`). -/
def EVP_PKEY_RSA : Int := 6

/-- A certificate: what `X509_get_pubkey` gives for it (`none` for `NULL`). -/
structure X509 where
  pubkey : Option EVP_PKEY
  deriving DecidableEq, Repr

/-- The outcomes of the allocator, of OpenSSL and of the helpers of
keeto-util.c during one call of `add_key_data_from_x509`. -/
structure key_env where
  new_ssh_key_ok : Bool
  strdup_ok : Bool
  malloc_ok : Bool
  stack : Nat → Nat
  EVP_Digest : List Nat → EVP_MD → Option (List Nat)
  key_base64_fail : Option keeto_error
  md5_hex_fail : Option keeto_error
  sha256_base64_fail : Option keeto_error

/-- The function `add_key_data_from_rsa` of `keeto-x509.c`. It returns the
status and the records `*ssh_key` and `*key` after the call. -/
def add_key_data_from_rsa (env : key_env) (rsa : RSA) (ssh_key : keeto_ssh_key)
    (key : keeto_key) : outcome (keeto_error × keeto_ssh_key × keeto_key) :=
  match ssh_key.keytype with
  | none => outcome.fatal "ssh_keytype, rsa, ret or ret_length == NULL"
  | some keytype =>
    /- get ssh key blob needed by all upcoming operations -/
    let r := get_ssh_key_blob_from_rsa env.malloc_ok env.stack keytype rsa none 0
    if r.status ≠ KEETO_OK then
      outcome.returned (r.status, ssh_key, key)
    else
      let blob := r.ret.getD []
      let blob_length := r.ret_length
      /- get ssh key -/
      match blob_to_base64 env.key_base64_fail blob blob_length with
      | .error rc => outcome.returned (rc, ssh_key, key)
      | .ok tmp_ssh_key =>
        /- get fingerprints -/
        let md5 := get_ssh_key_fingerprint_from_blob env.EVP_Digest env.md5_hex_fail
          env.sha256_base64_fail blob blob_length KEETO_DIGEST_MD5 none
        if md5.status ≠ KEETO_OK then
          outcome.returned (md5.status, ssh_key, key)
        else
          let sha256 := get_ssh_key_fingerprint_from_blob env.EVP_Digest env.md5_hex_fail
            env.sha256_base64_fail blob blob_length KEETO_DIGEST_SHA256 none
          if sha256.status ≠ KEETO_OK then
            outcome.returned (sha256.status, ssh_key, key)
          else
            let key := { key with ssh_key_fp_sha256 := sha256.ret }
            let key := { key with ssh_key_fp_md5 := md5.ret }
            let ssh_key := { ssh_key with key := some tmp_ssh_key }
            outcome.returned (KEETO_OK, ssh_key, key)

/-- The function `add_key_data_from_x509` of `keeto-x509.c`. It returns the
status and the record `*key` after the call. -/
def add_key_data_from_x509 (env : key_env) (x509 : X509) (key : keeto_key) :
    outcome (keeto_error × keeto_key) :=
  match x509.pubkey with
  | none => outcome.returned (KEETO_X509_ERR, key)
  | some pkey =>
    if env.new_ssh_key_ok = false then
      outcome.returned (KEETO_NO_MEMORY, key)
    else
      let ssh_key := new_ssh_key
      let pkey_type := pkey.base_id
      if pkey_type = EVP_PKEY_RSA then
        if env.strdup_ok = false then
          outcome.returned (KEETO_NO_MEMORY, key)
        else
          let ssh_key := { ssh_key with keytype := some ssh_rsa }
          /- get rsa key -/
          match pkey.rsa with
          | none => outcome.returned (KEETO_OPENSSL_ERR, key)
          | some rsa =>
            /- add key data -/
            match add_key_data_from_rsa env rsa ssh_key key with
            | outcome.fatal msg => outcome.fatal msg
            | outcome.returned (rc, ssh_key, key) =>
              if rc ≠ KEETO_OK then
                outcome.returned (rc, key)
              else
                outcome.returned (KEETO_OK, { key with ssh_key := some ssh_key })
      else
        outcome.returned (KEETO_UNSUPPORTED_KEY_TYPE, key)

/-! ## The certificate store -/

/-- OpenSSL `X509_FILETYPE_PEM`. -/
def X509_FILETYPE_PEM : Nat := 1

/-- OpenSSL `X509_V_FLAG_CRL_CHECK`. -/
def X509_V_FLAG_CRL_CHECK : Nat := 0x4

/-- OpenSSL `X509_V_FLAG_CRL_CHECK_ALL`. -/
def X509_V_FLAG_CRL_CHECK_ALL : Nat := 0x8

/-- OpenSSL `X509_PURPOSE_SSL_CLIENT`. -/
def X509_PURPOSE_SSL_CLIENT : Nat := 1

/-- An OpenSSL certificate store: the directories its hashed-directory lookup
takes trust anchors and CRLs from (with their file type), and its
verification flags. -/
structure X509_STORE where
  lookup_dirs : List (List Char × Nat)
  flags : Nat
  deriving DecidableEq, Repr

/-- The module state of `keeto-x509.c`: the static pointer `cert_store`
(`none` for `NULL`, otherwise the store it was set to), and whether the store
it points at has been released with `X509_STORE_free`. -/
structure store_state where
  cert_store : Option X509_STORE
  released : Bool
  deriving DecidableEq, Repr

/-- The state at program start: `cert_store` is `NULL`. -/
def initial_state : store_state := ⟨none, false⟩

/-- The outcomes of the OpenSSL calls of `init_cert_store`: whether
`X509_STORE_new` and `X509_STORE_add_lookup` give an object, and the return
codes of `X509_LOOKUP_add_dir` and `X509_STORE_set_flags`. -/
structure store_env where
  X509_STORE_new_ok : Bool
  X509_STORE_add_lookup_ok : Bool
  X509_LOOKUP_add_dir : List Char → Nat → Int
  X509_STORE_set_flags : Nat → Int

/-- The function `init_cert_store` of `keeto-x509.c`. It returns the status,
the module state after the call and the OpenSSL calls made. -/
def init_cert_store (env : store_env) (cert_store_dir : List Char) (check_crl : Bool)
    (s : store_state) : keeto_error × store_state × List library_call :=
  if s.cert_store ≠ none then
    (KEETO_OK, s, [])
  else
    /- create a new x509 store with trusted ca certs/crl's -/
    if env.X509_STORE_new_ok = false then
      (KEETO_OPENSSL_ERR, s, [library_call.X509_STORE_new])
    else
      let cert_store_tmp : X509_STORE := ⟨[], 0⟩
      if env.X509_STORE_add_lookup_ok = false then
        (KEETO_X509_ERR, s,
          [library_call.X509_STORE_new, library_call.X509_STORE_add_lookup,
            library_call.X509_STORE_free])
      else
        let rc := env.X509_LOOKUP_add_dir cert_store_dir X509_FILETYPE_PEM
        if rc = 0 then
          (KEETO_OPENSSL_ERR, s,
            [library_call.X509_STORE_new, library_call.X509_STORE_add_lookup,
              library_call.X509_LOOKUP_add_dir cert_store_dir X509_FILETYPE_PEM,
              library_call.X509_STORE_free])
        else
          let cert_store_tmp :=
            { cert_store_tmp with lookup_dirs := [(cert_store_dir, X509_FILETYPE_PEM)] }
          if check_crl then
            let flags := X509_V_FLAG_CRL_CHECK ||| X509_V_FLAG_CRL_CHECK_ALL
            let rc := env.X509_STORE_set_flags flags
            if rc = 0 then
              (KEETO_OPENSSL_ERR, s,
                [library_call.X509_STORE_new, library_call.X509_STORE_add_lookup,
                  library_call.X509_LOOKUP_add_dir cert_store_dir X509_FILETYPE_PEM,
                  library_call.X509_STORE_set_flags flags, library_call.X509_STORE_free])
            else
              let cert_store_tmp :=
                { cert_store_tmp with flags := cert_store_tmp.flags ||| flags }
              (KEETO_OK, { cert_store := some cert_store_tmp, released := false },
                [library_call.X509_STORE_new, library_call.X509_STORE_add_lookup,
                  library_call.X509_LOOKUP_add_dir cert_store_dir X509_FILETYPE_PEM,
                  library_call.X509_STORE_set_flags flags])
          else
            (KEETO_OK, { cert_store := some cert_store_tmp, released := false },
              [library_call.X509_STORE_new, library_call.X509_STORE_add_lookup,
                library_call.X509_LOOKUP_add_dir cert_store_dir X509_FILETYPE_PEM])

/-- The function `free_cert_store` of `keeto-x509.c`: the store is released,
the pointer `cert_store` keeps its value. -/
def free_cert_store (s : store_state) : store_state × List library_call :=
  if s.cert_store = none then
    (s, [])
  else
    ({ s with released := true }, [library_call.X509_STORE_free])

/-- The outcomes of the OpenSSL calls of `validate_x509`: whether
`X509_STORE_CTX_new` gives a context, and the return codes of
`X509_STORE_CTX_init`, `X509_STORE_CTX_set_purpose` and `X509_verify_cert`
(positive when the chain verifies). -/
structure verify_env where
  X509_STORE_CTX_new_ok : Bool
  X509_STORE_CTX_init : X509_STORE → X509 → Int
  X509_STORE_CTX_set_purpose : Nat → Int
  X509_verify_cert : X509_STORE → X509 → Nat → Int

/-- The function `validate_x509` of `keeto-x509.c`. `ret` is the value of
`*ret` before the call (`none` when unset); the result is the status and the
value of `*ret` after the call. -/
def validate_x509 (env : verify_env) (x509 : X509) (ret : Option Bool) (s : store_state) :
    outcome (keeto_error × Option Bool) :=
  match s.cert_store with
  | none => outcome.fatal "cert_store == NULL"
  | some cert_store =>
    /- validate the user certificate against the cert store -/
    if env.X509_STORE_CTX_new_ok = false then
      outcome.returned (KEETO_OPENSSL_ERR, ret)
    else
      let rc := env.X509_STORE_CTX_init cert_store x509
      if rc = 0 then
        outcome.returned (KEETO_OPENSSL_ERR, ret)
      else
        let rc := env.X509_STORE_CTX_set_purpose X509_PURPOSE_SSL_CLIENT
        if rc = 0 then
          outcome.returned (KEETO_OPENSSL_ERR, ret)
        else
          let rc := env.X509_verify_cert cert_store x509 X509_PURPOSE_SSL_CLIENT
          if rc ≤ 0 then
            outcome.returned (KEETO_OK, some false)
          else
            outcome.returned (KEETO_OK, some true)

/-! ## Sample inputs -/

/-- An environment in which every allocation and library call succeeds; the
digest of every input is the all-zero string of the digest size. -/
def sample_key_env : key_env where
  new_ssh_key_ok := true
  strdup_ok := true
  malloc_ok := true
  stack := fun _ => 0
  EVP_Digest := fun _ md => some (List.replicate (EVP_MD_size md) 0)
  key_base64_fail := none
  md5_hex_fail := none
  sha256_base64_fail := none

/-- A certificate with the RSA key of exponent 0x010001 and modulus 0xC34F. -/
def sample_rsa_cert : X509 := ⟨some ⟨EVP_PKEY_RSA, some ⟨0xC34F, 0x010001⟩⟩⟩

/-- A certificate with an elliptic-curve key (`EVP_PKEY_EC` is 408). -/
def sample_ec_cert : X509 := ⟨some ⟨408, none⟩⟩

/-- A key record with nothing set. -/
def empty_key : keeto_key := ⟨none, none, none⟩

/-- An environment in which every OpenSSL call of `init_cert_store` succeeds. -/
def sample_store_env : store_env where
  X509_STORE_new_ok := true
  X509_STORE_add_lookup_ok := true
  X509_LOOKUP_add_dir := fun _ _ => 1
  X509_STORE_set_flags := fun _ => 1

/-- An environment in which every OpenSSL call of `init_cert_store` fails. -/
def failing_store_env : store_env where
  X509_STORE_new_ok := false
  X509_STORE_add_lookup_ok := false
  X509_LOOKUP_add_dir := fun _ _ => 0
  X509_STORE_set_flags := fun _ => 0

/-- An environment of `validate_x509` in which the context is set up and the
chain verifies. -/
def sample_verify_env : verify_env where
  X509_STORE_CTX_new_ok := true
  X509_STORE_CTX_init := fun _ _ => 1
  X509_STORE_CTX_set_purpose := fun _ => 1
  X509_verify_cert := fun _ _ _ => 1

/-! ## The buffers of `get_ssh_key_blob_from_rsa` -/

/-- The temporary buffer of `get_ssh_key_blob_from_rsa` as declared: its
`length_tmp_buffer` bytes are indeterminate. -/
def tmp_buffer_declared (stack : Nat → Nat) (rsa : RSA) : List Nat :=
  (List.range (length_tmp_buffer (BN_num_bytes rsa.n) (BN_num_bytes rsa.e))).map stack

/-- The temporary buffer after `BN_bn2bin(exponent, tmp_buffer)`. -/
def tmp_buffer_exponent (stack : Nat → Nat) (rsa : RSA) : List Nat :=
  BN_bn2bin rsa.e (tmp_buffer_declared stack rsa)

/-- The temporary buffer after `BN_bn2bin(modulus, tmp_buffer)`. -/
def tmp_buffer_modulus (stack : Nat → Nat) (rsa : RSA) : List Nat :=
  BN_bn2bin rsa.n (tmp_buffer_exponent stack rsa)

/-! ## The directory resolver (`pox509-ldap.c`)

Further conventions for this file.

* An attribute value is a string without an embedded NUL. `strdup` and
  `strndup`, whose results `pox509-ldap.c` uses unchecked, give the copy; a
  failing `malloc` ends the process as the code says.
* The calls made on the LDAP handle are recorded, in order, in a list of
  `ldap_call`; the functions take the list so far and give the extended one.
* The macros of `pox509-ldap.h`, the helpers of `pox509-util.c` and the
  behaviour of the OpenLDAP library are fields of `ldap_env`.
-/

/-- OpenLDAP `LDAP_SUCCESS`. -/
def LDAP_SUCCESS : Int := 0

/-- OpenLDAP `LDAP_OPT_SUCCESS`. -/
def LDAP_OPT_SUCCESS : Int := 0

/-- OpenLDAP `LDAP_SCOPE_BASE`. -/
def LDAP_SCOPE_BASE : Int := 0

/-- OpenLDAP `LDAP_VERSION3`. -/
def LDAP_VERSION3 : Int := 3

/-- OpenLDAP `LDAP_OPT_X_TLS_HARD`. -/
def LDAP_OPT_X_TLS_HARD : Int := 1

/-- The options `set_ldap_options` sets, with the value given. -/
inductive ldap_option where
  | LDAP_OPT_PROTOCOL_VERSION (version : Int)
  | LDAP_OPT_X_TLS_REQUIRE_CERT (req_cert : Int)
  | LDAP_OPT_X_TLS_CACERTDIR (cacerts_dir : List Char)
  | LDAP_OPT_X_TLS_NEWCTX (new_ctx : Int)
  deriving DecidableEq, Repr

/-- A call made on the LDAP handle. -/
inductive ldap_call where
  | open_handle (uri : List Char)
  | option_set (opt : ldap_option)
  | start_tls
  | sasl_bind (dn : List Char) (cred : List Nat)
  | search (base : List Char) (scope : Int) (filter : Option (List Char))
      (attrs : Option (List (List Char))) (timeout : Int) (sizelimit : Int)
  | unbind
  deriving DecidableEq, Repr

/-- Whether a call is a directory search. -/
def ldap_call.is_search : ldap_call → Bool
  | ldap_call.search _ _ _ _ _ _ => true
  | _ => false

/-- An entry of a search result: what `ldap_get_dn` gives for it and what
`ldap_get_values_len` gives for each attribute (`none` for `NULL`), the
values in the order the server returned them. -/
structure ldap_entry where
  dn : Option (List Char)
  values : List Char → Option (List (List Char))

/-- OpenLDAP `ldap_count_entries` on a search result. -/
def ldap_count_entries (result : List ldap_entry) : Nat := result.length

/-- OpenLDAP `ldap_first_entry` on a search result (`none` for `NULL`). -/
def ldap_first_entry (result : List ldap_entry) : Option ldap_entry := result.head?

/-- OpenLDAP `ldap_get_dn` on a search result (`none` for `NULL`). -/
def ldap_get_dn (result : List ldap_entry) : Option (List Char) :=
  match result with
  | [] => none
  | entry :: _ => entry.dn

/-- The configuration options `pox509-ldap.c` reads with `cfg_getstr` and
`cfg_getint`. `ldap_bind_pwd` is the memory of the password buffer: the
password is the bytes before the first zero byte. -/
structure cfg_t where
  ldap_uri : List Char
  ldap_starttls : Int
  ldap_bind_dn : List Char
  ldap_bind_pwd : List Nat
  cacerts_dir : List Char
  ldap_server_base_dn : List Char
  ldap_server_search_scope : Int
  ldap_server_uid_attr : List Char
  server_uid : List Char
  ldap_server_access_profile_attr : List Char
  ldap_target_group_attr : List Char
  ldap_target_uid_attr : List Char
  ldap_search_timeout : Int
  deriving DecidableEq, Repr

/-- Modelled from the spec: a DirectAccessProfile (dn, name, key_provider_dn,
keystore_options_dn), the record `struct pox509_direct_access_profile` of a
header that is not among the sources. -/
structure pox509_direct_access_profile where
  dn : List Char
  name : Option (List Char)
  key_provider_dn : List Char
  keystore_options_dn : List Char
  deriving DecidableEq, Repr

/-- Modelled from the spec: an AccessOnBehalfProfile (dn, name,
target_keystore_group_dn, key_provider_group_dn, keystore_options_dn), the
record `struct pox509_access_on_behalf_profile` of a header that is not among
the sources. -/
structure pox509_access_on_behalf_profile where
  dn : List Char
  name : Option (List Char)
  target_keystore_group_dn : List Char
  key_provider_group_dn : List Char
  keystore_options_dn : List Char
  deriving DecidableEq, Repr

/-- Modelled from the spec: the resolution context (login uid, server dn,
ldap_online flag, ordered list of direct access profiles, ordered list of
access on behalf profiles), the record `struct pox509_info` of a header that
is not among the sources. The two lists are the tail queues of the record, in
queue order. -/
structure pox509_info where
  uid : List Char
  dn : Option (List Char)
  ldap_online : Int
  direct_access_profiles : List pox509_direct_access_profile
  access_on_behalf_profiles : List pox509_access_on_behalf_profile
  deriving DecidableEq, Repr

/-- The enumeration `pox509_access_profile_type` as `get_access_profiles` uses
it. -/
inductive pox509_access_profile_type where
  | UNKNOWN
  | DIRECT_ACCESS
  | ACCESS_ON_BEHALF
  deriving DecidableEq, Repr

/-- What `pox509-ldap.c` takes from outside the file.

The macros of `pox509-ldap.h` (not among the sources) are the first seven
fields. `create_ldap_search_filter` and `set_rdn_value_from_dn` are helpers of
`pox509-util.c` (not among the sources): the filter built for an attribute
and a value (`none` when the helper ends the process), and the name set for a
DN. `released_link_readable` says what the traversal of the queue reads from
the link field of a profile after `free_access_on_behalf_profile` released
it: the link the profile held (`true`) or `NULL` (`false`). `malloc_ok` tells
whether `malloc` succeeds. The other fields are the results of the OpenLDAP
calls; `ldap_search_ext_s base scope filter attrs timeout sizelimit` gives
the return code and the entries of the result. -/
structure ldap_env where
  POX509_DAP_OBJCLASS : List Char
  POX509_AOBP_OBJCLASS : List Char
  POX509_DAP_KEY_PROVIDER_ATTR : List Char
  POX509_DAP_KEYSTORE_OPTIONS_ATTR : List Char
  POX509_AOBP_TARGET_KEYSTORE_ATTR : List Char
  POX509_AOBP_KEY_PROVIDER_ATTR : List Char
  POX509_AOBP_KEYSTORE_OPTIONS_ATTR : List Char
  create_ldap_search_filter : List Char → List Char → Option (List Char)
  set_rdn_value_from_dn : List Char → Option (List Char)
  released_link_readable : pox509_access_on_behalf_profile → Bool
  malloc_ok : Bool
  ldap_initialize_rc : List Char → Int
  ldap_set_option : ldap_option → Int
  ldap_start_tls_s : Int
  ldap_get_option : Int
  ldap_sasl_bind_s : List Char → List Nat → Int
  ldap_search_ext_s : List Char → Int → Option (List Char) → Option (List (List Char)) →
    Int → Int → Int × List ldap_entry
  ldap_unbind_ext_s : Int

/-- The string literal "objectClass" of `get_access_profiles`. -/
def objectClass : List Char := "objectClass".toList

/-- The C library function `strlen` on the memory of a buffer: the number of
bytes before the first zero byte. -/
def strlen (s : List Nat) : Nat := (s.takeWhile (fun b => b ≠ 0)).length

/-- The C library function `memset(s, c, n)` on the memory of a buffer. -/
def memset (s : List Nat) (c n : Nat) : List Nat := List.replicate n c ++ s.drop n

/-- The function `set_ldap_options` of `pox509-ldap.c`. -/
def set_ldap_options (env : ldap_env) (cfg : cfg_t) (calls : List ldap_call) :
    outcome (List ldap_call) :=
  /- set protocol version -/
  let ldap_version := LDAP_VERSION3
  let rc := env.ldap_set_option (ldap_option.LDAP_OPT_PROTOCOL_VERSION ldap_version)
  let calls := calls ++ [ldap_call.option_set (ldap_option.LDAP_OPT_PROTOCOL_VERSION ldap_version)]
  if rc ≠ LDAP_OPT_SUCCESS then
    outcome.fatal "ldap_set_option(): key: LDAP_OPT_PROTOCOL_VERSION"
  else
    /- force validation of certificates when using ldaps -/
    let req_cert := LDAP_OPT_X_TLS_HARD
    let rc := env.ldap_set_option (ldap_option.LDAP_OPT_X_TLS_REQUIRE_CERT req_cert)
    let calls := calls ++ [ldap_call.option_set (ldap_option.LDAP_OPT_X_TLS_REQUIRE_CERT req_cert)]
    if rc ≠ LDAP_OPT_SUCCESS then
      outcome.fatal "ldap_set_option(): key: LDAP_OPT_X_TLS_REQUIRE_CERT"
    else
      /- set trusted ca path -/
      let cacerts_dir := cfg.cacerts_dir
      let rc := env.ldap_set_option (ldap_option.LDAP_OPT_X_TLS_CACERTDIR cacerts_dir)
      let calls :=
        calls ++ [ldap_call.option_set (ldap_option.LDAP_OPT_X_TLS_CACERTDIR cacerts_dir)]
      if rc ≠ LDAP_OPT_SUCCESS then
        outcome.fatal "ldap_set_option(): key: LDAP_OPT_X_TLS_CACERTDIR"
      else
        /- new context has to be set in order to apply options set above -/
        let new_ctx : Int := 0x56
        let rc := env.ldap_set_option (ldap_option.LDAP_OPT_X_TLS_NEWCTX new_ctx)
        let calls := calls ++ [ldap_call.option_set (ldap_option.LDAP_OPT_X_TLS_NEWCTX new_ctx)]
        if rc ≠ LDAP_OPT_SUCCESS then
          outcome.fatal "ldap_set_option(): key: LDAP_OPT_X_TLS_NEWCTX"
        else
          outcome.returned calls

/-- The function `init_starttls` of `pox509-ldap.c`. -/
def init_starttls (env : ldap_env) (calls : List ldap_call) : outcome (List ldap_call) :=
  let rc := env.ldap_start_tls_s
  let calls := calls ++ [ldap_call.start_tls]
  if rc ≠ LDAP_SUCCESS then
    let rc := env.ldap_get_option
    if rc = LDAP_OPT_SUCCESS then
      outcome.fatal "ldap_start_tls_s(): diagnostic message"
    else
      outcome.fatal "ldap_start_tls_s()"
  else
    outcome.returned calls

/-- The function `bind_to_ldap` of `pox509-ldap.c`. It returns the return code
of the bind, the configuration with the password buffer after the call, and
the calls made. -/
def bind_to_ldap (env : ldap_env) (cfg : cfg_t) (calls : List ldap_call) :
    Int × cfg_t × List ldap_call :=
  let ldap_bind_dn := cfg.ldap_bind_dn
  let ldap_bind_pwd := cfg.ldap_bind_pwd
  let ldap_bind_pwd_length := strlen ldap_bind_pwd
  let cred := ldap_bind_pwd.take ldap_bind_pwd_length
  let rc := env.ldap_sasl_bind_s ldap_bind_dn cred
  let calls := calls ++ [ldap_call.sasl_bind ldap_bind_dn cred]
  let ldap_bind_pwd := memset ldap_bind_pwd 0 ldap_bind_pwd_length
  (rc, { cfg with ldap_bind_pwd := ldap_bind_pwd }, calls)

/-- The function `init_ldap_handle` of `pox509-ldap.c`; the handle is the list
of the calls made on it. -/
def init_ldap_handle (env : ldap_env) (cfg : cfg_t) : outcome (List ldap_call) :=
  let ldap_uri := cfg.ldap_uri
  let rc := env.ldap_initialize_rc ldap_uri
  let calls := [ldap_call.open_handle ldap_uri]
  if rc ≠ LDAP_SUCCESS then
    outcome.fatal "ldap_initialize()"
  else
    match set_ldap_options env cfg calls with
    | outcome.fatal msg => outcome.fatal msg
    | outcome.returned calls =>
      let ldap_starttls := cfg.ldap_starttls
      if ldap_starttls ≠ 0 then
        init_starttls env calls
      else
        outcome.returned calls

/-- The function `get_attr_values_as_string` of `pox509-ldap.c`: the value of
`*ret` after the call, `none` for `NULL`; an array it gives has at least one
value. -/
def get_attr_values_as_string (env : ldap_env) (result : List ldap_entry) (attr : List Char) :
    outcome (Option (List (List Char))) :=
  let rc := ldap_count_entries result
  if rc = 0 then
    outcome.returned none
  else
    /- get attribute values -/
    match ldap_first_entry result with
    | none => outcome.fatal "ldap_first_entry() == NULL"
    | some result =>
      match result.values attr with
      | none => outcome.returned none
      | some values =>
        let count := values.length
        if count = 0 then
          outcome.returned none
        else if env.malloc_ok = false then
          outcome.fatal "malloc"
        else
          outcome.returned (some values)

/-- The function `is_relevant_dap` of `pox509-ldap.c`, with the uid of the
provider. -/
def is_relevant_dap (pox509_info : pox509_info) (provider_uid : List Char) : Bool :=
  if pox509_info.uid = provider_uid then true else false

/-- The function `is_relevant_aobp` of `pox509-ldap.c`: the comparison is
commented out in the source. -/
def is_relevant_aobp (_pox509_info : pox509_info) (_target : List Char) : Bool :=
  true

/-- The function `get_access_profile_dns` of `pox509-ldap.c`. It returns the
context with the server DN set, the value of `*access_profile_dns` and the
calls made. -/
def get_access_profile_dns (env : ldap_env) (cfg : cfg_t) (pox509_info : pox509_info)
    (calls : List ldap_call) :
    outcome (Keeto.pox509_info × Option (List (List Char)) × List ldap_call) :=
  let server_dn := cfg.ldap_server_base_dn
  let server_search_scope := cfg.ldap_server_search_scope
  /- construct search filter -/
  let server_uid_attr := cfg.ldap_server_uid_attr
  let server_uid := cfg.server_uid
  match env.create_ldap_search_filter server_uid_attr server_uid with
  | none => outcome.fatal "create_ldap_search_filter()"
  | some filter =>
    let access_profile_attr := cfg.ldap_server_access_profile_attr
    let attrs := [access_profile_attr]
    let ldap_search_timeout := cfg.ldap_search_timeout
    let sizelimit : Int := 1
    let (rc, result) := env.ldap_search_ext_s server_dn server_search_scope (some filter)
      (some attrs) ldap_search_timeout sizelimit
    let calls := calls ++ [ldap_call.search server_dn server_search_scope (some filter)
      (some attrs) ldap_search_timeout sizelimit]
    if rc ≠ LDAP_SUCCESS then
      outcome.fatal "ldap_search_ext_s()"
    else
      /- set dn in dto -/
      let pox509_info := { pox509_info with dn := ldap_get_dn result }
      /- get dn's as strings -/
      match get_attr_values_as_string env result access_profile_attr with
      | outcome.fatal msg => outcome.fatal msg
      | outcome.returned access_profile_dns =>
        outcome.returned (pox509_info, access_profile_dns, calls)

/-- The inner loop of `get_access_profiles` over the object class values: the
first value that is one of the two object classes decides. -/
def profile_type_of (env : ldap_env) : List (List Char) → pox509_access_profile_type
  | [] => pox509_access_profile_type.UNKNOWN
  | objectclass :: rest =>
    if objectclass = env.POX509_DAP_OBJCLASS then
      pox509_access_profile_type.DIRECT_ACCESS
    else if objectclass = env.POX509_AOBP_OBJCLASS then
      pox509_access_profile_type.ACCESS_ON_BEHALF
    else
      profile_type_of env rest

/-- The loop of `get_access_profiles` over the access profile DNs that are
still to be visited. -/
def get_access_profiles_loop (env : ldap_env) (cfg : cfg_t) :
    List (List Char) → pox509_info → List ldap_call → outcome (pox509_info × List ldap_call)
  | [], pox509_info, calls => outcome.returned (pox509_info, calls)
  | dn :: rest, pox509_info, calls =>
    let ldap_search_timeout := cfg.ldap_search_timeout
    let sizelimit : Int := 1
    let (rc, result) :=
      env.ldap_search_ext_s dn LDAP_SCOPE_BASE none none ldap_search_timeout sizelimit
    let calls :=
      calls ++ [ldap_call.search dn LDAP_SCOPE_BASE none none ldap_search_timeout sizelimit]
    if rc ≠ LDAP_SUCCESS then
      outcome.fatal "ldap_search_ext_s()"
    else
      /- get objectclass attribute in order to decide whether we have an
         access profile of type direct or onbehalf -/
      match get_attr_values_as_string env result objectClass with
      | outcome.fatal msg => outcome.fatal msg
      | outcome.returned none => outcome.fatal "access_profile_objectclass == NULL"
      | outcome.returned (some access_profile_objectclass) =>
        let profile_type := profile_type_of env access_profile_objectclass
        match profile_type with
        | pox509_access_profile_type.DIRECT_ACCESS =>
          /- create new direct access profile -/
          if env.malloc_ok = false then
            outcome.fatal "malloc()"
          else
            /- set key provider dn -/
            match get_attr_values_as_string env result env.POX509_DAP_KEY_PROVIDER_ATTR with
            | outcome.fatal msg => outcome.fatal msg
            | outcome.returned none => outcome.fatal "key_provider_dn == NULL"
            | outcome.returned (some key_provider_dn) =>
              /- set keystore options dn -/
              match get_attr_values_as_string env result
                env.POX509_DAP_KEYSTORE_OPTIONS_ATTR with
              | outcome.fatal msg => outcome.fatal msg
              | outcome.returned none => outcome.fatal "keystore_options_dn == NULL"
              | outcome.returned (some keystore_options_dn) =>
                let profile : pox509_direct_access_profile :=
                  { dn := dn
                    name := env.set_rdn_value_from_dn dn
                    key_provider_dn := key_provider_dn.headD []
                    keystore_options_dn := keystore_options_dn.headD [] }
                /- add to direct access profile list -/
                let pox509_info := { pox509_info with
                  direct_access_profiles := pox509_info.direct_access_profiles ++ [profile] }
                get_access_profiles_loop env cfg rest pox509_info calls
        | pox509_access_profile_type.ACCESS_ON_BEHALF =>
          if env.malloc_ok = false then
            outcome.fatal "malloc()"
          else
            /- set target keystore group dn -/
            match get_attr_values_as_string env result env.POX509_AOBP_TARGET_KEYSTORE_ATTR with
            | outcome.fatal msg => outcome.fatal msg
            | outcome.returned none => outcome.fatal "target_keystore_group_dn == NULL"
            | outcome.returned (some target_keystore_group_dn) =>
              /- set key provider group dn -/
              match get_attr_values_as_string env result env.POX509_AOBP_KEY_PROVIDER_ATTR with
              | outcome.fatal msg => outcome.fatal msg
              | outcome.returned none => outcome.fatal "key_provider_group_dn == NULL"
              | outcome.returned (some key_provider_group_dn) =>
                /- set keystore options -/
                match get_attr_values_as_string env result
                  env.POX509_AOBP_KEYSTORE_OPTIONS_ATTR with
                | outcome.fatal msg => outcome.fatal msg
                | outcome.returned none => outcome.fatal "keystore_options_dn == NULL"
                | outcome.returned (some keystore_options_dn) =>
                  let profile : pox509_access_on_behalf_profile :=
                    { dn := dn
                      name := env.set_rdn_value_from_dn dn
                      target_keystore_group_dn := target_keystore_group_dn.headD []
                      key_provider_group_dn := key_provider_group_dn.headD []
                      keystore_options_dn := keystore_options_dn.headD [] }
                  /- add to access on behalf profile list -/
                  let pox509_info := { pox509_info with
                    access_on_behalf_profiles :=
                      pox509_info.access_on_behalf_profiles ++ [profile] }
                  get_access_profiles_loop env cfg rest pox509_info calls
        | pox509_access_profile_type.UNKNOWN =>
          get_access_profiles_loop env cfg rest pox509_info calls

/-- The function `get_access_profiles` of `pox509-ldap.c`. -/
def get_access_profiles (env : ldap_env) (cfg : cfg_t) (pox509_info : pox509_info)
    (calls : List ldap_call) : outcome (Keeto.pox509_info × List ldap_call) :=
  match get_access_profile_dns env cfg pox509_info calls with
  | outcome.fatal msg => outcome.fatal msg
  | outcome.returned (_, none, _) => outcome.fatal "access_profile_dns == NULL"
  | outcome.returned (pox509_info, some access_profile_dns, calls) =>
    /- iterate access profiles -/
    get_access_profiles_loop env cfg access_profile_dns pox509_info calls

/-- The inner loop of `strip_access_on_behalf_profiles` over the DNs of the
target end entities that are still to be visited; `strip_profile` is the flag
of the same name. -/
def strip_target_loop (env : ldap_env) (cfg : cfg_t) (pox509_info : pox509_info) :
    List (List Char) → Bool → List ldap_call → outcome (Bool × List ldap_call)
  | [], strip_profile, calls => outcome.returned (strip_profile, calls)
  | target_ee_dn :: rest, strip_profile, calls =>
    if strip_profile = false then
      outcome.returned (strip_profile, calls)
    else
      /- get ee's and compare uid to uid logging in -/
      let target_uid_attr := cfg.ldap_target_uid_attr
      let target_ee_attrs := [target_uid_attr]
      let ldap_search_timeout := cfg.ldap_search_timeout
      let sizelimit : Int := 1
      let (rc, result) := env.ldap_search_ext_s target_ee_dn LDAP_SCOPE_BASE none
        (some target_ee_attrs) ldap_search_timeout sizelimit
      let calls := calls ++ [ldap_call.search target_ee_dn LDAP_SCOPE_BASE none
        (some target_ee_attrs) ldap_search_timeout sizelimit]
      if rc ≠ LDAP_SUCCESS then
        outcome.fatal "ldap_search_ext_s()"
      else
        match get_attr_values_as_string env result target_uid_attr with
        | outcome.fatal msg => outcome.fatal msg
        | outcome.returned none => outcome.fatal "target_ee_uid == NULL"
        | outcome.returned (some target_ee_uid) =>
          let strip_profile :=
            if target_ee_uid.headD [] = pox509_info.uid then false else strip_profile
          strip_target_loop env cfg pox509_info rest strip_profile calls

/-- The loop of `strip_access_on_behalf_profiles` over the profiles of the
queue that are still to be visited. A profile that is stripped is removed from
the queue and released, and the traversal goes on with what it reads from the
link field of the released profile. -/
def strip_access_on_behalf_profiles_loop (env : ldap_env) (cfg : cfg_t) :
    List pox509_access_on_behalf_profile → pox509_info → List ldap_call →
      outcome (pox509_info × List ldap_call)
  | [], pox509_info, calls => outcome.returned (pox509_info, calls)
  | profile :: rest, pox509_info, calls =>
    let target_group_attr := cfg.ldap_target_group_attr
    let target_group_attrs := [target_group_attr]
    let ldap_search_timeout := cfg.ldap_search_timeout
    let sizelimit : Int := 1
    let (rc, result) := env.ldap_search_ext_s profile.target_keystore_group_dn LDAP_SCOPE_BASE
      none (some target_group_attrs) ldap_search_timeout sizelimit
    let calls := calls ++ [ldap_call.search profile.target_keystore_group_dn LDAP_SCOPE_BASE
      none (some target_group_attrs) ldap_search_timeout sizelimit]
    if rc ≠ LDAP_SUCCESS then
      outcome.fatal "ldap_search_ext_s()"
    else
      /- get dn's of target keystore ee's -/
      match get_attr_values_as_string env result target_group_attr with
      | outcome.fatal msg => outcome.fatal msg
      | outcome.returned none => outcome.fatal "target_ee_dns == NULL"
      | outcome.returned (some target_ee_dns) =>
        match strip_target_loop env cfg pox509_info target_ee_dns true calls with
        | outcome.fatal msg => outcome.fatal msg
        | outcome.returned (strip_profile, calls) =>
          if strip_profile then
            let pox509_info := { pox509_info with
              access_on_behalf_profiles := pox509_info.access_on_behalf_profiles.erase profile }
            if env.released_link_readable profile then
              strip_access_on_behalf_profiles_loop env cfg rest pox509_info calls
            else
              outcome.returned (pox509_info, calls)
          else
            strip_access_on_behalf_profiles_loop env cfg rest pox509_info calls

/-- The function `strip_access_on_behalf_profiles` of `pox509-ldap.c`. -/
def strip_access_on_behalf_profiles (env : ldap_env) (cfg : cfg_t) (pox509_info : pox509_info)
    (calls : List ldap_call) : outcome (Keeto.pox509_info × List ldap_call) :=
  if pox509_info.access_on_behalf_profiles = [] then
    outcome.returned (pox509_info, calls)
  else
    /- iterate access on behalf profiles -/
    strip_access_on_behalf_profiles_loop env cfg pox509_info.access_on_behalf_profiles
      pox509_info calls

/-- The function `process_direct_access_profiles` of `pox509-ldap.c`: the body
of its loop is commented out in the source. -/
def process_direct_access_profiles (_env : ldap_env) (_cfg : cfg_t) (pox509_info : pox509_info) :
    Keeto.pox509_info :=
  if pox509_info.direct_access_profiles = [] then
    pox509_info
  else
    /- iterate direct access profiles -/
    pox509_info.direct_access_profiles.foldl (fun info _profile => info) pox509_info

/-- The function `process_access_on_behalf_profiles` of `pox509-ldap.c`: the
body of its loop is commented out in the source. -/
def process_access_on_behalf_profiles (_env : ldap_env) (_cfg : cfg_t)
    (pox509_info : pox509_info) : Keeto.pox509_info :=
  if pox509_info.access_on_behalf_profiles = [] then
    pox509_info
  else
    /- iterate access on behalf profiles -/
    pox509_info.access_on_behalf_profiles.foldl (fun info _profile => info) pox509_info

/-- The function `get_keystore_data_from_ldap` of `pox509-ldap.c`. It returns
the configuration and the context after the call and the calls made on the
LDAP handle. -/
def get_keystore_data_from_ldap (env : ldap_env) (cfg : cfg_t) (pox509_info : pox509_info) :
    outcome (cfg_t × Keeto.pox509_info × List ldap_call) :=
  /- init ldap handle -/
  match init_ldap_handle env cfg with
  | outcome.fatal msg => outcome.fatal msg
  | outcome.returned ldap_handle =>
    /- bind to ldap server -/
    let (rc, cfg, ldap_handle) := bind_to_ldap env cfg ldap_handle
    if rc ≠ LDAP_SUCCESS then
      let pox509_info := { pox509_info with ldap_online := 0 }
      outcome.returned (cfg, pox509_info, ldap_handle ++ [ldap_call.unbind])
    else
      let pox509_info := { pox509_info with ldap_online := 1 }
      /- retrieve data -/
      match get_access_profiles env cfg pox509_info ldap_handle with
      | outcome.fatal msg => outcome.fatal msg
      | outcome.returned (pox509_info, ldap_handle) =>
        let pox509_info := process_direct_access_profiles env cfg pox509_info
        let pox509_info := process_access_on_behalf_profiles env cfg pox509_info
        outcome.returned (cfg, pox509_info, ldap_handle ++ [ldap_call.unbind])

/-- The value a call returned, if it returned. -/
def outcome.value? {α : Type} : outcome α → Option α
  | outcome.fatal _ => none
  | outcome.returned value => some value

/-! ## The resolver in the words of the specification -/

/-- Specification side: the access profile DNs of the server object, the
values of the access profile attribute in the entry found for this host, in
the order the server returns them. -/
def access_profile_dns_of (env : ldap_env) (cfg : cfg_t) : List (List Char) :=
  match env.create_ldap_search_filter cfg.ldap_server_uid_attr cfg.server_uid with
  | none => []
  | some filter =>
    match ldap_first_entry
      (env.ldap_search_ext_s cfg.ldap_server_base_dn cfg.ldap_server_search_scope (some filter)
        (some [cfg.ldap_server_access_profile_attr]) cfg.ldap_search_timeout 1).2 with
    | none => []
    | some entry => (entry.values cfg.ldap_server_access_profile_attr).getD []

/-- Specification side: the object class values of the entry a profile DN
names, as the server returns them for the read of `get_access_profiles`. -/
def objectclass_values (env : ldap_env) (cfg : cfg_t) (dn : List Char) : List (List Char) :=
  match ldap_first_entry
    (env.ldap_search_ext_s dn LDAP_SCOPE_BASE none none cfg.ldap_search_timeout 1).2 with
  | none => []
  | some entry => (entry.values objectClass).getD []

/-- Specification side: the type of the profile a DN names, by its object
class values. -/
def profile_type_of_dn (env : ldap_env) (cfg : cfg_t) (dn : List Char) :
    pox509_access_profile_type :=
  profile_type_of env (objectclass_values env cfg dn)

/-- Specification side: the DNs of the target end entities of a profile, the
values of the target group attribute of its target keystore group. -/
def target_ee_dns_of (env : ldap_env) (cfg : cfg_t) (profile : pox509_access_on_behalf_profile) :
    List (List Char) :=
  match ldap_first_entry
    (env.ldap_search_ext_s profile.target_keystore_group_dn LDAP_SCOPE_BASE none
      (some [cfg.ldap_target_group_attr]) cfg.ldap_search_timeout 1).2 with
  | none => []
  | some entry => (entry.values cfg.ldap_target_group_attr).getD []

/-- Specification side: the first uid value of a target end entity. -/
def first_uid_of (env : ldap_env) (cfg : cfg_t) (target_ee_dn : List Char) :
    Option (List Char) :=
  match ldap_first_entry
    (env.ldap_search_ext_s target_ee_dn LDAP_SCOPE_BASE none
      (some [cfg.ldap_target_uid_attr]) cfg.ldap_search_timeout 1).2 with
  | none => none
  | some entry =>
    match entry.values cfg.ldap_target_uid_attr with
    | none => none
    | some values => values.head?

/-- Specification side: whether some target end entity of the profile has a
first uid value equal to the login uid. -/
def some_target_uid_matches (env : ldap_env) (cfg : cfg_t) (uid : List Char)
    (profile : pox509_access_on_behalf_profile) : Bool :=
  (target_ee_dns_of env cfg profile).any (fun ee => first_uid_of env cfg ee = some uid)

/-- Specification side: whether every read the filtering step makes for a
profile succeeds and gives what the claim asks for: the target group has at
least one member and every member has a uid value. -/
def target_group_readable (env : ldap_env) (cfg : cfg_t)
    (profile : pox509_access_on_behalf_profile) : Bool :=
  env.malloc_ok &&
  decide ((env.ldap_search_ext_s profile.target_keystore_group_dn LDAP_SCOPE_BASE none
    (some [cfg.ldap_target_group_attr]) cfg.ldap_search_timeout 1).1 = LDAP_SUCCESS) &&
  decide (target_ee_dns_of env cfg profile ≠ []) &&
  (target_ee_dns_of env cfg profile).all (fun ee =>
    decide ((env.ldap_search_ext_s ee LDAP_SCOPE_BASE none
      (some [cfg.ldap_target_uid_attr]) cfg.ldap_search_timeout 1).1 = LDAP_SUCCESS) &&
    (first_uid_of env cfg ee).isSome)

/-! ## A sample directory -/

/-- The values of an attribute in a list of attributes with their values. -/
def attr_values (attrs : List (List Char × List (List Char))) (attr : List Char) :
    Option (List (List Char)) :=
  match attrs.find? (fun a => a.1 = attr) with
  | none => none
  | some a => some a.2

/-- A sample value for the macro `POX509_DAP_OBJCLASS`. -/
def sample_dap_objclass : List Char := "pox509DirectAccessProfile".toList

/-- A sample value for the macro `POX509_AOBP_OBJCLASS`. -/
def sample_aobp_objclass : List Char := "pox509AccessOnBehalfProfile".toList

/-- The entries of the sample directory, found by DN. The server object
`cn=server` refers to four profiles: `cn=dap` is a direct access profile with
the key provider `uid=bob`; `cn=other` has neither object class; `cn=aobp` is
an access on behalf profile whose target group `cn=group` has the one member
`uid=carol` (the group `cn=team` has the members `uid=carol` and `uid=alice`);
`cn=both` has both object classes, the one of the access on
behalf profile first, and the target group `cn=nogroup`, for which the server
returns no entry. The group `cn=empty` has an entry without members. -/
def sample_entries (base : List Char) : Option ldap_entry :=
  if base = "ou=servers".toList then
    some ⟨some "cn=server".toList, attr_values
      [("accessProfile".toList,
        ["cn=dap".toList, "cn=other".toList, "cn=aobp".toList, "cn=both".toList])]⟩
  else if base = "cn=dap".toList then
    some ⟨some "cn=dap".toList, attr_values
      [("objectClass".toList, ["top".toList, sample_dap_objclass]),
        ("keyProvider".toList, ["uid=bob".toList]),
        ("keystoreOptions".toList, ["cn=options".toList])]⟩
  else if base = "cn=other".toList then
    some ⟨some "cn=other".toList, attr_values [("objectClass".toList, ["top".toList])]⟩
  else if base = "cn=aobp".toList then
    some ⟨some "cn=aobp".toList, attr_values
      [("objectClass".toList, ["top".toList, sample_aobp_objclass]),
        ("targetKeystore".toList, ["cn=group".toList]),
        ("keyProviderGroup".toList, ["cn=providers".toList]),
        ("keystoreOptions".toList, ["cn=options".toList])]⟩
  else if base = "cn=both".toList then
    some ⟨some "cn=both".toList, attr_values
      [("objectClass".toList, [sample_aobp_objclass, sample_dap_objclass]),
        ("keyProvider".toList, ["uid=alice".toList]),
        ("targetKeystore".toList, ["cn=nogroup".toList]),
        ("keyProviderGroup".toList, ["cn=providers".toList]),
        ("keystoreOptions".toList, ["cn=options".toList])]⟩
  else if base = "cn=group".toList then
    some ⟨some "cn=group".toList, attr_values [("member".toList, ["uid=carol".toList])]⟩
  else if base = "cn=team".toList then
    some ⟨some "cn=team".toList, attr_values
      [("member".toList, ["uid=carol".toList, "uid=alice".toList])]⟩
  else if base = "cn=empty".toList then
    some ⟨some "cn=empty".toList, attr_values []⟩
  else if base = "uid=carol".toList then
    some ⟨some "uid=carol".toList, attr_values [("uid".toList, ["carol".toList])]⟩
  else if base = "uid=bob".toList then
    some ⟨some "uid=bob".toList, attr_values [("uid".toList, ["bob".toList])]⟩
  else if base = "uid=alice".toList then
    some ⟨some "uid=alice".toList, attr_values [("uid".toList, ["alice".toList])]⟩
  else
    none

/-- An environment with the sample directory in which the bind has the given
return code and every other call succeeds; `link` is what the traversal reads
from the link field of a released profile. -/
def sample_ldap_env (bind_rc : Int) (link : Bool) : ldap_env where
  POX509_DAP_OBJCLASS := sample_dap_objclass
  POX509_AOBP_OBJCLASS := sample_aobp_objclass
  POX509_DAP_KEY_PROVIDER_ATTR := "keyProvider".toList
  POX509_DAP_KEYSTORE_OPTIONS_ATTR := "keystoreOptions".toList
  POX509_AOBP_TARGET_KEYSTORE_ATTR := "targetKeystore".toList
  POX509_AOBP_KEY_PROVIDER_ATTR := "keyProviderGroup".toList
  POX509_AOBP_KEYSTORE_OPTIONS_ATTR := "keystoreOptions".toList
  create_ldap_search_filter := fun attr value => some ('(' :: attr ++ '=' :: value ++ [')'])
  set_rdn_value_from_dn := fun dn => some (dn.drop 3)
  released_link_readable := fun _ => link
  malloc_ok := true
  ldap_initialize_rc := fun _ => 0
  ldap_set_option := fun _ => 0
  ldap_start_tls_s := 0
  ldap_get_option := 0
  ldap_sasl_bind_s := fun _ _ => bind_rc
  ldap_search_ext_s := fun base _ _ _ _ _ =>
    match sample_entries base with
    | some entry => (0, [entry])
    | none => (0, [])
  ldap_unbind_ext_s := 0

/-- A sample configuration; the password buffer holds "secret", its
terminating zero byte and two more bytes. -/
def sample_cfg : cfg_t where
  ldap_uri := "ldaps://ldap.example".toList
  ldap_starttls := 0
  ldap_bind_dn := "cn=keeto".toList
  ldap_bind_pwd := [0x73, 0x65, 0x63, 0x72, 0x65, 0x74, 0, 0x41, 0x42]
  cacerts_dir := "/etc/ssl/certs".toList
  ldap_server_base_dn := "ou=servers".toList
  ldap_server_search_scope := 1
  ldap_server_uid_attr := "cn".toList
  server_uid := "server".toList
  ldap_server_access_profile_attr := "accessProfile".toList
  ldap_target_group_attr := "member".toList
  ldap_target_uid_attr := "uid".toList
  ldap_search_timeout := 5

/-- The context of a login of "alice" before the resolver runs. -/
def sample_info : pox509_info := ⟨"alice".toList, none, 0, [], []⟩

/-- The sample access on behalf profile `cn=aobp` as `get_access_profiles`
builds it: its target group has the one member "carol". -/
def sample_aobp : pox509_access_on_behalf_profile :=
  ⟨"cn=aobp".toList, some "aobp".toList, "cn=group".toList, "cn=providers".toList,
    "cn=options".toList⟩

/-- A second access on behalf profile with the same target group. -/
def sample_aobp2 : pox509_access_on_behalf_profile :=
  ⟨"cn=aobp2".toList, some "aobp2".toList, "cn=group".toList, "cn=providers".toList,
    "cn=options".toList⟩

/-- An access on behalf profile whose target group `cn=team` has the members
"carol" and "alice". -/
def sample_aobp_team : pox509_access_on_behalf_profile :=
  ⟨"cn=aobp3".toList, some "aobp3".toList, "cn=team".toList, "cn=providers".toList,
    "cn=options".toList⟩

/-- The sample profile `cn=both` as `get_access_profiles` builds it: for its
target group the server returns no entry. -/
def sample_aobp_nogroup : pox509_access_on_behalf_profile :=
  ⟨"cn=both".toList, some "both".toList, "cn=nogroup".toList, "cn=providers".toList,
    "cn=options".toList⟩

/-- An access on behalf profile whose target group `cn=empty` has an entry
without a value of the member attribute. -/
def sample_aobp_empty : pox509_access_on_behalf_profile :=
  ⟨"cn=aobp4".toList, some "aobp4".toList, "cn=empty".toList, "cn=providers".toList,
    "cn=options".toList⟩

/-- The result of `get_access_profiles` for the sample directory and the login
of "alice". -/
def sample_resolved : pox509_info × List ldap_call :=
  ((get_access_profiles (sample_ldap_env 0 true) sample_cfg sample_info []).value?).getD
    (sample_info, [])

/-- The calls `init_ldap_handle` makes for the sample configuration. -/
def sample_handle : List ldap_call :=
  [ldap_call.open_handle sample_cfg.ldap_uri,
    ldap_call.option_set (ldap_option.LDAP_OPT_PROTOCOL_VERSION LDAP_VERSION3),
    ldap_call.option_set (ldap_option.LDAP_OPT_X_TLS_REQUIRE_CERT LDAP_OPT_X_TLS_HARD),
    ldap_call.option_set (ldap_option.LDAP_OPT_X_TLS_CACERTDIR sample_cfg.cacerts_dir),
    ldap_call.option_set (ldap_option.LDAP_OPT_X_TLS_NEWCTX 0x56)]

/-- An environment in which every call succeeds but the base64 encoding of the
SHA-256 digest, the last step of `add_key_data_from_rsa` that can fail. -/
def sha256_failing_key_env : key_env :=
  { sample_key_env with sha256_base64_fail := some KEETO_OPENSSL_ERR }

/-- An SshKey record of type "ssh-rsa" that holds a key from an earlier call. -/
def sample_old_ssh_key : keeto_ssh_key := ⟨some ssh_rsa, some "AAAAold".toList⟩

/-- A key record that holds fingerprints from an earlier call. -/
def sample_old_key : keeto_key := ⟨none, some "00:11".toList, some "oldsha".toList⟩

/-! # Properties

Everything below is proved about the definitions above. -/

set_option maxRecDepth 100000

/-! ## Facts about the big-number encoding -/

theorem leBytes_eq_digits (fuel : Nat) : ∀ a : Nat, a ≤ fuel → leBytes fuel a = Nat.digits 256 a := by
  induction fuel with
  | zero =>
    intro a ha
    have h0 : a = 0 := by omega
    subst h0
    simp [leBytes]
  | succ k ih =>
    intro a ha
    by_cases h0 : a = 0
    · subst h0
      simp [leBytes]
    · have hpos : 0 < a := Nat.pos_of_ne_zero h0
      have hdiv : a / 256 ≤ k := by
        have : a / 256 < a := Nat.div_lt_self hpos (by norm_num)
        omega
      rw [leBytes, if_neg h0, ih (a / 256) hdiv, Nat.digits_def' (by norm_num) hpos]

theorem BN_bytes_eq (a : Nat) : BN_bytes a = (Nat.digits 256 a).reverse := by
  unfold BN_bytes
  rw [leBytes_eq_digits a a (le_refl a)]

theorem BN_num_bytes_eq (a : Nat) : BN_num_bytes a = (Nat.digits 256 a).length := by
  unfold BN_num_bytes
  rw [leBytes_eq_digits a a (le_refl a)]

theorem BN_bytes_length (a : Nat) : (BN_bytes a).length = BN_num_bytes a := by
  simp [BN_bytes, BN_num_bytes]

theorem BN_bytes_zero : BN_bytes 0 = [] := by
  simp [BN_bytes, leBytes]

theorem BN_bytes_lt (a b : Nat) (hb : b ∈ BN_bytes a) : b < 256 := by
  rw [BN_bytes_eq] at hb
  exact Nat.digits_lt_base (by norm_num) (List.mem_reverse.mp hb)

/-- The encoding of a positive number starts with a non-zero byte. -/
theorem BN_bytes_pos (a : Nat) (ha : 0 < a) :
    ∃ b rest, BN_bytes a = b :: rest ∧ b ≠ 0 ∧ b < 256 := by
  have hne : Nat.digits 256 a ≠ [] := Nat.digits_ne_nil_iff_ne_zero.mpr (by omega)
  have hlast := Nat.getLast_digit_ne_zero 256 (m := a) (by omega)
  have hrev : BN_bytes a ≠ [] := by
    rw [BN_bytes_eq]
    simpa using hne
  obtain ⟨b, rest, hbr⟩ := List.exists_cons_of_ne_nil hrev
  refine ⟨b, rest, hbr, ?_, BN_bytes_lt a b (by simp [hbr])⟩
  have hd : Nat.digits 256 a = rest.reverse ++ [b] := by
    have h2 : (Nat.digits 256 a).reverse = b :: rest := by rw [← BN_bytes_eq]; exact hbr
    have h3 := congrArg List.reverse h2
    simpa using h3
  have hl : (Nat.digits 256 a).getLast hne = b := by
    simp [hd]
  rw [hl] at hlast
  exact hlast

theorem be_value_eq_ofDigits (bytes : List Nat) :
    be_value bytes = Nat.ofDigits 256 bytes.reverse := by
  unfold be_value
  induction bytes using List.reverseRecOn with
  | nil => simp
  | append_singleton l b ih =>
    simp [List.foldl_append, Nat.ofDigits_cons, ih]
    ring

/-- Reading the minimal encoding back gives the number. -/
theorem be_value_BN_bytes (a : Nat) : be_value (BN_bytes a) = a := by
  rw [be_value_eq_ofDigits, BN_bytes_eq, List.reverse_reverse, Nat.ofDigits_digits]

theorem msb_set_eq (b : Nat) (hb : b < 256) : msb_set b = decide (128 ≤ b) := by
  unfold msb_set
  have h : b &&& 0x80 = (b.testBit 7).toNat * 2 ^ 7 := Nat.and_two_pow b 7
  rw [h, Nat.testBit_to_div_mod]
  by_cases h128 : 128 ≤ b
  · have h1 : b / 128 % 2 = 1 := by omega
    simp [h1, h128]
  · have h0 : b / 128 % 2 = 0 := by omega
    simp [h0, h128]

theorem PUT_32BIT_eq_be32 (v : Nat) : PUT_32BIT v = be32 v := by
  simp [PUT_32BIT, be32, Nat.shiftRight_eq_div_pow]

theorem BN_bn2bin_take (a : Nat) (buf : List Nat) :
    (BN_bn2bin a buf).take (BN_num_bytes a) = BN_bytes a := by
  unfold BN_bn2bin
  rw [← BN_bytes_length a]
  simp

/-- For a positive number the byte tested for the most significant bit is the
first byte of its encoding. -/
theorem msb_set_head_BN_bn2bin (a : Nat) (ha : 0 < a) (buf : List Nat) (d : Nat) :
    msb_set ((BN_bn2bin a buf).headD d) = top_bit_set (BN_bytes a) := by
  obtain ⟨b, rest, hbr, _, hlt⟩ := BN_bytes_pos a ha
  simp [BN_bn2bin, hbr, top_bit_set, msb_set_eq b hlt]

theorem mpint_body_length (a : Nat) : (mpint_body a).length = pad a + BN_num_bytes a := by
  unfold mpint_body pad
  by_cases h : top_bit_set (BN_bytes a) = true
  · simp [h, BN_bytes_length]
    omega
  · simp [h, BN_bytes_length]

/-- The blob of a key with positive exponent and modulus, when the allocation
succeeds. -/
theorem blob_of_pos (stack : Nat → Nat) (ssh_keytype : List Char) (rsa : RSA)
    (ret : Option (List Nat)) (ret_length : Nat) (he : 0 < rsa.e) (hn : 0 < rsa.n) :
    get_ssh_key_blob_from_rsa true stack ssh_keytype rsa ret ret_length =
      ⟨KEETO_OK,
        some (be32 ssh_keytype.length ++ ssh_keytype.map Char.toNat ++
          mpint_field rsa.e ++ mpint_field rsa.n),
        4 + ssh_keytype.length + 4 + BN_num_bytes rsa.e + pad rsa.e + 4 +
          BN_num_bytes rsa.n + pad rsa.n⟩ := by
  unfold get_ssh_key_blob_from_rsa
  simp only [msb_set_head_BN_bn2bin rsa.e he, msb_set_head_BN_bn2bin rsa.n hn,
    BN_bn2bin_take, PUT_32BIT_eq_be32, mpint_field, mpint_body_length]
  unfold mpint_body pad
  by_cases h1 : top_bit_set (BN_bytes rsa.e) = true <;>
    by_cases h2 : top_bit_set (BN_bytes rsa.n) = true <;>
    simp [h1, h2, Nat.add_comm] <;> omega

theorem be_value_be32 (v : Nat) (hv : v < 2 ^ 32) : be_value (be32 v) = v := by
  simp only [be_value, be32, List.foldl]
  omega

theorem read_field_append (body rest : List Nat) (hlen : body.length < 2 ^ 32) :
    read_field (be32 body.length ++ body ++ rest) = some (body, rest) := by
  have h4 : (be32 body.length).length = 4 := by simp [be32]
  have htake : (be32 body.length ++ body ++ rest).take 4 = be32 body.length := by
    rw [List.append_assoc, ← h4, List.take_left]
  have hdrop : (be32 body.length ++ body ++ rest).drop 4 = body ++ rest := by
    rw [List.append_assoc, ← h4, List.drop_left]
  unfold read_field
  have hl : ¬ (be32 body.length ++ body ++ rest).length < 4 := by
    simp only [List.length_append, h4]
    omega
  simp only [hl, if_false, htake, hdrop, be_value_be32 _ hlen]
  simp

/-- The value of an integer body: a leading zero byte does not change the
number and makes the two's-complement reading non-negative. -/
theorem twos_complement_body (a : Nat) (p : Bool)
    (hp : p = true ∨ top_bit_set (BN_bytes a) = false) :
    twos_complement ((if p then [0] else []) ++ BN_bytes a) = (a : Int) := by
  cases p with
  | true =>
    have hv : be_value (0 :: BN_bytes a) = a := by
      have h := be_value_BN_bytes a
      simp only [be_value, List.foldl_cons] at h ⊢
      simpa using h
    simp [twos_complement, top_bit_set, hv]
  | false =>
    have htop : top_bit_set (BN_bytes a) = false := by
      rcases hp with h | h
      · exact absurd h (by decide)
      · exact h
    simp [twos_complement, htop, be_value_BN_bytes]

/-- The pad decision the code takes for a big number: the most significant bit
of the byte found at index 0 of the temporary buffer after `BN_bn2bin`. -/
theorem pad_decision (a : Nat) (buf : List Nat) (d : Nat) :
    msb_set ((BN_bn2bin a buf).headD d) = true ∨ top_bit_set (BN_bytes a) = false := by
  rcases Nat.eq_zero_or_pos a with h0 | hpos
  · right
    simp [h0, BN_bytes_zero, top_bit_set]
  · rw [msb_set_head_BN_bn2bin a hpos]
    cases top_bit_set (BN_bytes a) <;> simp

/-- The blob for every key, with the two pad decisions as the code takes them:
when the allocation succeeds the function returns `KEETO_OK`, the blob and the
length of the blob. -/
theorem blob_general (stack : Nat → Nat) (ssh_keytype : List Char) (rsa : RSA)
    (ret : Option (List Nat)) (ret_length : Nat) :
    ∃ p q : Bool,
      (p = true ∨ top_bit_set (BN_bytes rsa.e) = false) ∧
      (q = true ∨ top_bit_set (BN_bytes rsa.n) = false) ∧
      get_ssh_key_blob_from_rsa true stack ssh_keytype rsa ret ret_length =
        ⟨KEETO_OK,
          some (be32 ssh_keytype.length ++ ssh_keytype.map Char.toNat ++
            (be32 (((if p then [0] else []) ++ BN_bytes rsa.e).length) ++
              ((if p then [0] else []) ++ BN_bytes rsa.e)) ++
            (be32 (((if q then [0] else []) ++ BN_bytes rsa.n).length) ++
              ((if q then [0] else []) ++ BN_bytes rsa.n))),
          (be32 ssh_keytype.length ++ ssh_keytype.map Char.toNat ++
            (be32 (((if p then [0] else []) ++ BN_bytes rsa.e).length) ++
              ((if p then [0] else []) ++ BN_bytes rsa.e)) ++
            (be32 (((if q then [0] else []) ++ BN_bytes rsa.n).length) ++
              ((if q then [0] else []) ++ BN_bytes rsa.n))).length⟩ := by
  let tmp0 : List Nat :=
    (List.range (length_tmp_buffer (BN_num_bytes rsa.n) (BN_num_bytes rsa.e))).map stack
  refine ⟨msb_set ((BN_bn2bin rsa.e tmp0).headD (stack 0)),
    msb_set ((BN_bn2bin rsa.n (BN_bn2bin rsa.e tmp0)).headD (stack 0)),
    pad_decision rsa.e tmp0 (stack 0), pad_decision rsa.n _ (stack 0), ?_⟩
  unfold get_ssh_key_blob_from_rsa
  simp only [BN_bn2bin_take, PUT_32BIT_eq_be32, tmp0]
  generalize msb_set ((BN_bn2bin rsa.e _).headD (stack 0)) = p
  generalize msb_set ((BN_bn2bin rsa.n _).headD (stack 0)) = q
  cases p <;> cases q <;> simp [BN_bytes_length, be32, Nat.add_comm] <;> omega

/-- For positive exponent and modulus the length returned in `*ret_length` is
the length the specification states. -/
theorem ret_length_of_pos (stack : Nat → Nat) (ssh_keytype : List Char) (rsa : RSA)
    (ret : Option (List Nat)) (ret_length : Nat) (he : 0 < rsa.e) (hn : 0 < rsa.n) :
    (get_ssh_key_blob_from_rsa true stack ssh_keytype rsa ret ret_length).ret_length =
      stated_blob_length ssh_keytype rsa := by
  rw [blob_of_pos stack ssh_keytype rsa ret ret_length he hn]
  rfl

/-- C1: for every key type string (non-empty or not) and every RSA key with
positive exponent and modulus, `get_ssh_key_blob_from_rsa` (the allocation of
the blob buffer succeeding) returns `KEETO_OK`, and the blob it returns is
exactly the four-byte big-endian length of the key type, the key type bytes,
the length-counted exponent field and the length-counted modulus field, in
this order and with nothing else; `*ret_length` is the length of that
concatenation. -/
theorem C1_blob_is_concatenation (stack : Nat → Nat) (ssh_keytype : List Char) (rsa : RSA)
    (ret : Option (List Nat)) (ret_length : Nat) (he : 0 < rsa.e) (hn : 0 < rsa.n) :
    (get_ssh_key_blob_from_rsa true stack ssh_keytype rsa ret ret_length).status = KEETO_OK ∧
    (get_ssh_key_blob_from_rsa true stack ssh_keytype rsa ret ret_length).ret =
      some (be32 ssh_keytype.length ++ ssh_keytype.map Char.toNat ++
        mpint_field rsa.e ++ mpint_field rsa.n) ∧
    (get_ssh_key_blob_from_rsa true stack ssh_keytype rsa ret ret_length).ret_length =
      (be32 ssh_keytype.length ++ ssh_keytype.map Char.toNat ++
        mpint_field rsa.e ++ mpint_field rsa.n).length := by
  rw [blob_of_pos stack ssh_keytype rsa ret ret_length he hn]
  refine ⟨rfl, rfl, ?_⟩
  simp only [List.length_append, List.length_map, mpint_field, mpint_body_length]
  simp [be32]
  omega

/-- C1 at the key of the first scenario: key type "ssh-rsa", exponent 0x010001
and a 128-byte modulus starting 0x7F 0x11. The blob starts with
00 00 00 07 73 73 68 2D 72 73 61 00 00 00 03 01 00 01 00 00 00 80 7F 11. -/
theorem C1_blob_is_concatenation_witness :
    (0 < (RSA.mk modulus_7F11 0x010001).e ∧ 0 < (RSA.mk modulus_7F11 0x010001).n) ∧
    (get_ssh_key_blob_from_rsa true (fun _ => 0) ssh_rsa
      (RSA.mk modulus_7F11 0x010001) none 0).status = KEETO_OK ∧
    ((get_ssh_key_blob_from_rsa true (fun _ => 0) ssh_rsa
      (RSA.mk modulus_7F11 0x010001) none 0).ret).map (List.take 24) =
        some [0x00, 0x00, 0x00, 0x07, 0x73, 0x73, 0x68, 0x2D, 0x72, 0x73, 0x61,
          0x00, 0x00, 0x00, 0x03, 0x01, 0x00, 0x01, 0x00, 0x00, 0x00, 0x80, 0x7F, 0x11] := by
  have he : 0 < (RSA.mk modulus_7F11 0x010001).e := by decide
  have hn : 0 < (RSA.mk modulus_7F11 0x010001).n := by simp [modulus_7F11]
  have h := C1_blob_is_concatenation (fun _ => 0) ssh_rsa (RSA.mk modulus_7F11 0x010001)
    none 0 he hn
  refine ⟨⟨he, hn⟩, h.1, ?_⟩
  rw [h.2.1]
  rfl

/-- C2 (defect of the code): with exponent 0x80 and modulus 0 the modulus
field written is 00 00 00 01 00, a pad byte and length 1, although the minimal
encoding of 0 is empty and has no top bit (the law gives 00 00 00 00): the
byte tested is the stale first byte of the exponent. With exponent 0 the
byte tested is indeterminate; when it is 0x80 the exponent field is
00 00 00 01 00 as well. -/
theorem C2_pad_byte_for_zero :
    (get_ssh_key_blob_from_rsa true (fun _ => 0) ssh_rsa (RSA.mk 0 0x80) none 0).ret =
      some (be32 7 ++ ssh_rsa.map Char.toNat ++ mpint_field 0x80 ++ [0, 0, 0, 1, 0]) ∧
    (get_ssh_key_blob_from_rsa true (fun _ => 0x80) ssh_rsa (RSA.mk 0x7F 0) none 0).ret =
      some (be32 7 ++ ssh_rsa.map Char.toNat ++ [0, 0, 0, 1, 0] ++ mpint_field 0x7F) ∧
    BN_bytes 0 = [] ∧ top_bit_set (BN_bytes 0) = false ∧ mpint_field 0 = [0, 0, 0, 0] := by
  decide

/-- C3: for every RSA key, zero exponent or modulus included, and every content
of the uninitialised temporary buffer, the blob `get_ssh_key_blob_from_rsa`
returns for "ssh-rsa" is read by the decoder completely, as the string
"ssh-rsa", the exponent and the modulus of the key, both non-negative. The
sizes of the two numbers with a pad byte fit the 32-bit length of the wire
format, as those of every `BIGNUM` do (`BN_num_bytes` returns an `int`). -/
theorem C3_wire_format_round_trip (stack : Nat → Nat) (rsa : RSA)
    (ret : Option (List Nat)) (ret_length : Nat)
    (he : BN_num_bytes rsa.e + 1 < 2 ^ 32) (hn : BN_num_bytes rsa.n + 1 < 2 ^ 32) :
    ∃ (blob : List Nat) (d_e d_n : Int),
      get_ssh_key_blob_from_rsa true stack ssh_rsa rsa ret ret_length =
        ⟨KEETO_OK, some blob, blob.length⟩ ∧
      decode_rsa_blob blob = some (ssh_rsa.map Char.toNat, d_e, d_n) ∧
      d_e = (rsa.e : Int) ∧ d_n = (rsa.n : Int) ∧ 0 ≤ d_e ∧ 0 ≤ d_n := by
  obtain ⟨p, q, hp, hq, hblob⟩ := blob_general stack ssh_rsa rsa ret ret_length
  refine ⟨be32 ssh_rsa.length ++ ssh_rsa.map Char.toNat ++
      (be32 (((if p then [0] else []) ++ BN_bytes rsa.e).length) ++
        ((if p then [0] else []) ++ BN_bytes rsa.e)) ++
      (be32 (((if q then [0] else []) ++ BN_bytes rsa.n).length) ++
        ((if q then [0] else []) ++ BN_bytes rsa.n)),
    (rsa.e : Int), (rsa.n : Int), ?_, ?_, rfl, rfl,
    Int.natCast_nonneg _, Int.natCast_nonneg _⟩
  · exact hblob
  · have hk : (ssh_rsa.map Char.toNat).length = ssh_rsa.length := by simp
    have hk32 : (ssh_rsa.map Char.toNat).length < 2 ^ 32 := by decide
    have hel : ((if p then [0] else []) ++ BN_bytes rsa.e).length < 2 ^ 32 := by
      cases p <;> simp [BN_bytes_length] <;> omega
    have hnl : ((if q then [0] else []) ++ BN_bytes rsa.n).length < 2 ^ 32 := by
      cases q <;> simp [BN_bytes_length] <;> omega
    have h1 := read_field_append (ssh_rsa.map Char.toNat)
      ((be32 (((if p then [0] else []) ++ BN_bytes rsa.e).length) ++
          ((if p then [0] else []) ++ BN_bytes rsa.e)) ++
        (be32 (((if q then [0] else []) ++ BN_bytes rsa.n).length) ++
          ((if q then [0] else []) ++ BN_bytes rsa.n))) hk32
    have h2 := read_field_append ((if p then [0] else []) ++ BN_bytes rsa.e)
      (be32 (((if q then [0] else []) ++ BN_bytes rsa.n).length) ++
          ((if q then [0] else []) ++ BN_bytes rsa.n)) hel
    have h3 := read_field_append ((if q then [0] else []) ++ BN_bytes rsa.n) [] hnl
    rw [hk] at h1
    simp only [List.append_nil] at h3
    unfold decode_rsa_blob
    simp only [← List.append_assoc] at h1 h2 h3 ⊢
    rw [h1]
    simp only [h2, h3, twos_complement_body rsa.e p hp, twos_complement_body rsa.n q hq]
    simp

/-- C3 at a key with exponent 0x010001 and the 256-byte modulus that starts
with 0xC3. -/
theorem C3_wire_format_round_trip_witness :
    (BN_num_bytes (RSA.mk modulus_C3 0x010001).e + 1 < 2 ^ 32 ∧
      BN_num_bytes (RSA.mk modulus_C3 0x010001).n + 1 < 2 ^ 32) ∧
    ∃ (blob : List Nat) (d_e d_n : Int),
      get_ssh_key_blob_from_rsa true (fun _ => 0) ssh_rsa (RSA.mk modulus_C3 0x010001) none 0 =
        ⟨KEETO_OK, some blob, blob.length⟩ ∧
      decode_rsa_blob blob = some (ssh_rsa.map Char.toNat, d_e, d_n) ∧
      d_e = ((RSA.mk modulus_C3 0x010001).e : Int) ∧
      d_n = ((RSA.mk modulus_C3 0x010001).n : Int) ∧ 0 ≤ d_e ∧ 0 ≤ d_n :=
  ⟨⟨by decide, by decide⟩,
    C3_wire_format_round_trip (fun _ => 0) (RSA.mk modulus_C3 0x010001) none 0
      (by decide) (by decide)⟩

/-! ## Facts about the base64 encoding -/

theorem b64_alphabet_no_pad : ∀ j < 64, b64_alphabet.getD j 'A' ≠ '=' := by
  decide

theorem b64_char_ne_pad (i : Nat) : b64_char i ≠ '=' :=
  b64_alphabet_no_pad (i % 64) (Nat.mod_lt i (by norm_num))

/-- The encoding of `3 * k + 2` bytes: `4 * k + 3` characters of the alphabet,
then one pad character. -/
theorem base64_of_two_mod_three (k : Nat) :
    ∀ d : List Nat, d.length = 3 * k + 2 →
      ∃ p : List Char, base64 d = p ++ ['='] ∧ p.length = 4 * k + 3 ∧ ∀ c ∈ p, c ≠ '=' := by
  induction k with
  | zero =>
    intro d hd
    match d, hd with
    | [a, b], _ =>
      refine ⟨[b64_char (a / 4), b64_char (a % 4 * 16 + b / 16), b64_char (b % 16 * 4)],
        by simp [base64], by simp, ?_⟩
      intro c hc
      simp only [List.mem_cons, List.mem_singleton, List.not_mem_nil, or_false] at hc
      rcases hc with h | h | h <;> rw [h] <;> exact b64_char_ne_pad _
  | succ k ih =>
    intro d hd
    match d, hd with
    | a :: b :: c :: rest, hd =>
      have hrest : rest.length = 3 * k + 2 := by
        simp only [List.length_cons] at hd
        omega
      obtain ⟨p, hp, hlen, hno⟩ := ih rest hrest
      refine ⟨b64_char (a / 4) :: b64_char (a % 4 * 16 + b / 16) ::
        b64_char (b % 16 * 4 + c / 64) :: b64_char (c % 64) :: p, ?_, ?_, ?_⟩
      · simp [base64, hp]
      · simp only [List.length_cons, hlen]
        omega
      · intro x hx
        simp only [List.mem_cons] at hx
        rcases hx with h | h | h | h | h
        · rw [h]; exact b64_char_ne_pad _
        · rw [h]; exact b64_char_ne_pad _
        · rw [h]; exact b64_char_ne_pad _
        · rw [h]; exact b64_char_ne_pad _
        · exact hno x h

theorem strcspn_pad (p rest : List Char) (hp : ∀ c ∈ p, c ≠ '=') :
    strcspn (p ++ '=' :: rest) "=".toList = p.length := by
  unfold strcspn
  have h1 : ∀ c ∈ p, (fun c => !("=".toList).contains c) c = true := by
    intro c hc
    have := hp c hc
    simp [this]
  rw [List.takeWhile_append_of_pos h1]
  simp

/-! ## Fingerprints -/

theorem blob_to_base64_ok (fail : Option keeto_error) (blob : List Nat) (length : Nat)
    (s : List Char) (h : blob_to_base64 fail blob length = .ok s) :
    s = base64 (blob.take length) := by
  unfold blob_to_base64 at h
  split at h
  · injection h with h; exact h.symm
  · split at h
    · injection h with h; exact h.symm
    · injection h

theorem blob_to_base64_error (fail : Option keeto_error) (blob : List Nat) (length : Nat)
    (rc : keeto_error) (h : blob_to_base64 fail blob length = .error rc) : rc ≠ KEETO_OK := by
  unfold blob_to_base64 at h
  split at h
  · injection h
  · split at h
    · injection h
    · injection h with h
      subst h
      assumption

theorem blob_to_hex_ok (fail : Option keeto_error) (blob : List Nat) (length : Nat)
    (sep s : List Char) (h : blob_to_hex fail blob length sep = .ok s) :
    s = hex_with_separator sep (blob.take length) := by
  unfold blob_to_hex at h
  split at h
  · injection h with h; exact h.symm
  · split at h
    · injection h with h; exact h.symm
    · injection h

theorem blob_to_hex_error (fail : Option keeto_error) (blob : List Nat) (length : Nat)
    (sep : List Char) (rc : keeto_error) (h : blob_to_hex fail blob length sep = .error rc) :
    rc ≠ KEETO_OK := by
  unfold blob_to_hex at h
  split at h
  · injection h
  · split at h
    · injection h
    · injection h with h
      subst h
      assumption

/-- When the MD5 fingerprint call returns `KEETO_OK`, the result is the
colon-separated lowercase hex form of the digest `EVP_Digest` computed. -/
theorem fingerprint_md5_ok (EVP_Digest : List Nat → EVP_MD → Option (List Nat))
    (hex_fail base64_fail : Option keeto_error) (blob : List Nat) (blob_length : Nat)
    (ret : Option (List Char))
    (h : (get_ssh_key_fingerprint_from_blob EVP_Digest hex_fail base64_fail blob blob_length
      KEETO_DIGEST_MD5 ret).status = KEETO_OK) :
    ∃ d, EVP_Digest (blob.take blob_length) EVP_md5 = some d ∧
      (get_ssh_key_fingerprint_from_blob EVP_Digest hex_fail base64_fail blob blob_length
        KEETO_DIGEST_MD5 ret).ret = some (hex_with_separator [':'] (d.take 16)) := by
  unfold get_ssh_key_fingerprint_from_blob at h ⊢
  simp only [if_true] at h ⊢
  cases hd : EVP_Digest (blob.take blob_length) EVP_md5 with
  | none => simp [hd] at h
  | some d =>
    refine ⟨d, rfl, ?_⟩
    simp only [hd] at h ⊢
    cases hx : blob_to_hex hex_fail d (EVP_MD_size EVP_md5) ":".toList with
    | error rc =>
      simp only [hx] at h
      exact absurd h (blob_to_hex_error _ _ _ _ _ hx)
    | ok fp =>
      have := blob_to_hex_ok _ _ _ _ _ hx
      simp [this, EVP_MD_size, EVP_md5]

/-- When the SHA-256 fingerprint call returns `KEETO_OK`, the result is the
base64 form of the digest `EVP_Digest` computed, cut at the first '='. -/
theorem fingerprint_sha256_ok (EVP_Digest : List Nat → EVP_MD → Option (List Nat))
    (hex_fail base64_fail : Option keeto_error) (blob : List Nat) (blob_length : Nat)
    (ret : Option (List Char))
    (h : (get_ssh_key_fingerprint_from_blob EVP_Digest hex_fail base64_fail blob blob_length
      KEETO_DIGEST_SHA256 ret).status = KEETO_OK) :
    ∃ d, EVP_Digest (blob.take blob_length) EVP_sha256 = some d ∧
      (get_ssh_key_fingerprint_from_blob EVP_Digest hex_fail base64_fail blob blob_length
        KEETO_DIGEST_SHA256 ret).ret =
        some ((base64 (d.take 32)).take (strcspn (base64 (d.take 32)) ['='])) := by
  unfold get_ssh_key_fingerprint_from_blob at h ⊢
  have hne : ¬ (KEETO_DIGEST_SHA256 = KEETO_DIGEST_MD5) := by decide
  simp only [if_neg hne, if_true] at h ⊢
  cases hd : EVP_Digest (blob.take blob_length) EVP_sha256 with
  | none => simp [hd] at h
  | some d =>
    refine ⟨d, rfl, ?_⟩
    simp only [hd] at h ⊢
    cases hx : blob_to_base64 base64_fail d (EVP_MD_size EVP_sha256) with
    | error rc =>
      simp only [hx] at h
      exact absurd h (blob_to_base64_error _ _ _ _ hx)
    | ok fp =>
      have := blob_to_base64_ok _ _ _ _ hx
      simp [this, EVP_MD_size, EVP_sha256]

/-- The status of `get_ssh_key_blob_from_rsa` is `KEETO_OK` only when the
allocation succeeded. -/
theorem blob_status_ok (malloc_ok : Bool) (stack : Nat → Nat) (ssh_keytype : List Char)
    (rsa : RSA) (ret : Option (List Nat)) (ret_length : Nat)
    (h : (get_ssh_key_blob_from_rsa malloc_ok stack ssh_keytype rsa ret ret_length).status =
      KEETO_OK) : malloc_ok = true := by
  cases malloc_ok with
  | true => rfl
  | false => simp [get_ssh_key_blob_from_rsa] at h

/-- When the allocation succeeds the function returns `KEETO_OK`, a blob and
the length of that blob. -/
theorem blob_total (stack : Nat → Nat) (ssh_keytype : List Char) (rsa : RSA)
    (ret : Option (List Nat)) (ret_length : Nat) :
    ∃ blob : List Nat, get_ssh_key_blob_from_rsa true stack ssh_keytype rsa ret ret_length =
      ⟨KEETO_OK, some blob, blob.length⟩ := by
  obtain ⟨p, q, _, _, hblob⟩ := blob_general stack ssh_keytype rsa ret ret_length
  exact ⟨_, hblob⟩

/-- C4 (defect of the code): with exponent 0x80 and modulus 0 the length
returned in `*ret_length` is 22, one more than the stated
`4 + |keytype| + 4 + |exponent| + pad_e + 4 + |modulus| + pad_m = 21`: the
modulus has an empty encoding, so `pad_m = 0`, but the code writes a pad byte
for it. With exponent 0, modulus 0x7F and an indeterminate first byte 0x80 of
the temporary buffer the length is 21 where 20 is stated. -/
theorem C4_length_for_zero :
    (get_ssh_key_blob_from_rsa true (fun _ => 0) ssh_rsa (RSA.mk 0 0x80) none 0).ret_length = 22 ∧
    stated_blob_length ssh_rsa (RSA.mk 0 0x80) = 21 ∧
    (get_ssh_key_blob_from_rsa true (fun _ => 0x80) ssh_rsa (RSA.mk 0x7F 0) none 0).ret_length
      = 21 ∧
    stated_blob_length ssh_rsa (RSA.mk 0x7F 0) = 20 := by
  decide

/-- The result of `add_key_data_from_rsa` when it returns `KEETO_OK`. -/
theorem add_key_data_from_rsa_ok (env : key_env) (rsa : RSA) (ssh_key ssh_key' : keeto_ssh_key)
    (key key' : keeto_key)
    (h : add_key_data_from_rsa env rsa ssh_key key = outcome.returned (KEETO_OK, ssh_key', key')) :
    ∃ (keytype : List Char) (B : List Nat),
      ssh_key.keytype = some keytype ∧
      get_ssh_key_blob_from_rsa true env.stack keytype rsa none 0 =
        ⟨KEETO_OK, some B, B.length⟩ ∧
      ssh_key' = { ssh_key with key := some (base64 B) } ∧
      (get_ssh_key_fingerprint_from_blob env.EVP_Digest env.md5_hex_fail env.sha256_base64_fail
        B B.length KEETO_DIGEST_MD5 none).status = KEETO_OK ∧
      (get_ssh_key_fingerprint_from_blob env.EVP_Digest env.md5_hex_fail env.sha256_base64_fail
        B B.length KEETO_DIGEST_SHA256 none).status = KEETO_OK ∧
      key' = { key with
        ssh_key_fp_sha256 := (get_ssh_key_fingerprint_from_blob env.EVP_Digest env.md5_hex_fail
          env.sha256_base64_fail B B.length KEETO_DIGEST_SHA256 none).ret,
        ssh_key_fp_md5 := (get_ssh_key_fingerprint_from_blob env.EVP_Digest env.md5_hex_fail
          env.sha256_base64_fail B B.length KEETO_DIGEST_MD5 none).ret } := by
  unfold add_key_data_from_rsa at h
  cases hk : ssh_key.keytype with
  | none => simp [hk] at h
  | some keytype =>
    simp only [hk] at h
    by_cases hs : (get_ssh_key_blob_from_rsa env.malloc_ok env.stack keytype rsa none 0).status =
        KEETO_OK
    · have hm := blob_status_ok _ _ _ _ _ _ hs
      obtain ⟨B, hB⟩ := blob_total env.stack keytype rsa none 0
      rw [hm] at h
      simp only [hB, ne_eq, not_true_eq_false, if_false, Option.getD_some] at h
      refine ⟨keytype, B, rfl, hB, ?_⟩
      cases hb : blob_to_base64 env.key_base64_fail B B.length with
      | error rc =>
        simp only [hb] at h
        injection h with h
        injection h with h1 _
        exact absurd h1 (blob_to_base64_error _ _ _ _ hb)
      | ok tmp_ssh_key =>
        have htmp := blob_to_base64_ok _ _ _ _ hb
        simp only [List.take_length] at htmp
        simp only [hb] at h
        by_cases h5 : (get_ssh_key_fingerprint_from_blob env.EVP_Digest env.md5_hex_fail
            env.sha256_base64_fail B B.length KEETO_DIGEST_MD5 none).status = KEETO_OK
        · by_cases h256 : (get_ssh_key_fingerprint_from_blob env.EVP_Digest env.md5_hex_fail
              env.sha256_base64_fail B B.length KEETO_DIGEST_SHA256 none).status = KEETO_OK
          · simp only [h5, h256, ne_eq, not_true_eq_false, if_false] at h
            injection h with h
            injection h with _ h
            injection h with h1 h2
            refine ⟨?_, h5, h256, ?_⟩
            · rw [← h1, htmp]
            · rw [← h2]
          · simp only [h5, h256, ne_eq, not_true_eq_false, not_false_eq_true, if_false,
              if_true] at h
            injection h with h
            injection h with h1 _
            exact absurd h1 h256
        · simp only [h5, ne_eq, not_false_eq_true, if_true] at h
          injection h with h
          injection h with h1 _
          exact absurd h1 h5
    · simp only [hs, ne_eq, not_false_eq_true, if_true] at h
      injection h with h
      injection h with h1 _
      exact absurd h1 hs

/-- The result of `add_key_data_from_x509` when it returns `KEETO_OK`: the
certificate has a key of base type RSA, `add_key_data_from_rsa` returned
`KEETO_OK` for it, and `key->ssh_key` is the record that call filled. -/
theorem add_key_data_from_x509_ok (env : key_env) (x509 : X509) (key key' : keeto_key)
    (h : add_key_data_from_x509 env x509 key = outcome.returned (KEETO_OK, key')) :
    ∃ (pkey : EVP_PKEY) (rsa : RSA),
      x509.pubkey = some pkey ∧ pkey.rsa = some rsa ∧
      ∃ (ssh_key1 : keeto_ssh_key) (key1 : keeto_key),
        add_key_data_from_rsa env rsa ⟨some ssh_rsa, none⟩ key =
          outcome.returned (KEETO_OK, ssh_key1, key1) ∧
        key' = { key1 with ssh_key := some ssh_key1 } := by
  unfold add_key_data_from_x509 at h
  cases hp : x509.pubkey with
  | none =>
    rw [hp] at h
    simp at h
  | some pkey =>
    rw [hp] at h
    cases hnew : env.new_ssh_key_ok with
    | false => simp [hnew] at h
    | true =>
      by_cases hty : pkey.base_id = EVP_PKEY_RSA
      · cases hdup : env.strdup_ok with
        | false => simp [hnew, hty, hdup] at h
        | true =>
          cases hr : pkey.rsa with
          | none => simp [hnew, hty, hdup, hr] at h
          | some rsa =>
            simp only [hnew, hty, hdup, hr, if_true, Bool.true_eq_false, if_false] at h
            refine ⟨pkey, rsa, rfl, hr, ?_⟩
            split at h
            · injection h
            · rename_i rc ssh_key1 key1 ha
              by_cases hrc : rc = KEETO_OK
              · subst hrc
                simp only [ne_eq, not_true_eq_false, if_false] at h
                injection h with h
                injection h with _ h
                exact ⟨ssh_key1, key1, ha, h.symm⟩
              · simp only [ne_eq, hrc, not_false_eq_true, if_true] at h
                injection h with h
                injection h with h1 _
                exact absurd h1 hrc
      · simp [hnew, hty] at h

/-- C5: whenever `add_key_data_from_x509` returns `KEETO_OK`, the certificate
has an RSA key, `B` is the blob `get_ssh_key_blob_from_rsa` returns for
"ssh-rsa" and that key, `key->ssh_key` holds the key type "ssh-rsa" and the
padded base64 encoding of `B`, and the two fingerprints are what
`get_ssh_key_fingerprint_from_blob` returns for the same `B`: the
colon-separated hex form of the MD5 digest of `B` and the base64 form of the
SHA-256 digest of `B` cut at the first '='. -/
theorem C5_key_data_from_one_blob (env : key_env) (x509 : X509) (key key' : keeto_key)
    (h : add_key_data_from_x509 env x509 key = outcome.returned (KEETO_OK, key')) :
    ∃ (pkey : EVP_PKEY) (rsa : RSA) (B d_md5 d_sha256 : List Nat),
      x509.pubkey = some pkey ∧ pkey.rsa = some rsa ∧
      get_ssh_key_blob_from_rsa true env.stack ssh_rsa rsa none 0 =
        ⟨KEETO_OK, some B, B.length⟩ ∧
      key'.ssh_key = some ⟨some ssh_rsa, some (base64 B)⟩ ∧
      get_ssh_key_fingerprint_from_blob env.EVP_Digest env.md5_hex_fail env.sha256_base64_fail
        B B.length KEETO_DIGEST_MD5 none =
          ⟨KEETO_OK, key'.ssh_key_fp_md5,
            [library_call.EVP_Digest B EVP_md5, library_call.blob_to_hex d_md5]⟩ ∧
      get_ssh_key_fingerprint_from_blob env.EVP_Digest env.md5_hex_fail env.sha256_base64_fail
        B B.length KEETO_DIGEST_SHA256 none =
          ⟨KEETO_OK, key'.ssh_key_fp_sha256,
            [library_call.EVP_Digest B EVP_sha256, library_call.blob_to_base64 d_sha256]⟩ ∧
      env.EVP_Digest B EVP_md5 = some d_md5 ∧
      key'.ssh_key_fp_md5 = some (hex_with_separator [':'] (d_md5.take 16)) ∧
      env.EVP_Digest B EVP_sha256 = some d_sha256 ∧
      key'.ssh_key_fp_sha256 =
        some ((base64 (d_sha256.take 32)).take (strcspn (base64 (d_sha256.take 32)) ['='])) := by
  obtain ⟨pkey, rsa, hp, hr, ssh_key1, key1, ha, hkey⟩ := add_key_data_from_x509_ok env x509 key key' h
  obtain ⟨keytype, B, hkt, hB, hs, h5, h256, hk⟩ :=
    add_key_data_from_rsa_ok env rsa _ ssh_key1 key key1 ha
  simp only [Option.some.injEq] at hkt
  subst hkt
  obtain ⟨d5, hd5, hr5⟩ := fingerprint_md5_ok _ _ _ _ _ _ h5
  obtain ⟨d256, hd256, hr256⟩ := fingerprint_sha256_ok _ _ _ _ _ _ h256
  simp only [List.take_length] at hd5 hd256
  have hfp5 : key'.ssh_key_fp_md5 = (get_ssh_key_fingerprint_from_blob
      env.EVP_Digest env.md5_hex_fail env.sha256_base64_fail B B.length
      KEETO_DIGEST_MD5 none).ret := by
    rw [hkey, hk]
  have hfp256 : key'.ssh_key_fp_sha256 = (get_ssh_key_fingerprint_from_blob
      env.EVP_Digest env.md5_hex_fail env.sha256_base64_fail B B.length
      KEETO_DIGEST_SHA256 none).ret := by
    rw [hkey, hk]
  refine ⟨pkey, rsa, B, d5, d256, hp, hr, hB, ?_, ?_, ?_, hd5,
    by rw [hfp5, hr5], hd256, by rw [hfp256, hr256]⟩
  · rw [hkey, hs]
  · rw [hfp5]
    clear hfp5 hfp256 hk hkey hr5 hr256 ha
    unfold get_ssh_key_fingerprint_from_blob at h5 ⊢
    simp only [if_true, List.take_length, hd5] at h5 ⊢
    cases hx : blob_to_hex env.md5_hex_fail d5 (EVP_MD_size EVP_md5) ":".toList with
    | error rc =>
      simp only [hx] at h5
      exact absurd h5 (blob_to_hex_error _ _ _ _ _ hx)
    | ok fp => rfl
  · rw [hfp256]
    clear hfp5 hfp256 hk hkey hr5 hr256 ha
    have hne : ¬ (KEETO_DIGEST_SHA256 = KEETO_DIGEST_MD5) := by decide
    unfold get_ssh_key_fingerprint_from_blob at h256 ⊢
    simp only [if_neg hne, if_true, List.take_length, hd256] at h256 ⊢
    cases hx : blob_to_base64 env.sha256_base64_fail d256 (EVP_MD_size EVP_sha256) with
    | error rc =>
      simp only [hx] at h256
      exact absurd h256 (blob_to_base64_error _ _ _ _ hx)
    | ok fp => rfl

/-- C5 at a certificate with an RSA key, every allocation and library call
succeeding. -/
theorem C5_key_data_from_one_blob_witness :
    ∃ (key' : keeto_key),
      add_key_data_from_x509 sample_key_env sample_rsa_cert empty_key =
        outcome.returned (KEETO_OK, key') ∧
      ∃ (B : List Nat),
        get_ssh_key_blob_from_rsa true sample_key_env.stack ssh_rsa
          ⟨0xC34F, 0x010001⟩ none 0 = ⟨KEETO_OK, some B, B.length⟩ ∧
        key'.ssh_key = some ⟨some ssh_rsa, some (base64 B)⟩ := by
  have hrun : ∃ key', add_key_data_from_x509 sample_key_env sample_rsa_cert empty_key =
      outcome.returned (KEETO_OK, key') := by
    refine ⟨(match add_key_data_from_x509 sample_key_env sample_rsa_cert empty_key with
      | outcome.returned (_, k) => k
      | outcome.fatal _ => empty_key), ?_⟩
    decide
  obtain ⟨key', hk⟩ := hrun
  obtain ⟨pkey, rsa, B, _, _, hp, hr, hB, hkey, _⟩ :=
    C5_key_data_from_one_blob sample_key_env sample_rsa_cert empty_key key' hk
  have hpk : pkey = ⟨EVP_PKEY_RSA, some ⟨0xC34F, 0x010001⟩⟩ := by
    have : sample_rsa_cert.pubkey = some ⟨EVP_PKEY_RSA, some ⟨0xC34F, 0x010001⟩⟩ := rfl
    rw [hp] at this
    injection this
  have hrsa : rsa = ⟨0xC34F, 0x010001⟩ := by
    rw [hpk] at hr
    injection hr with hr
    exact hr.symm
  subst hrsa
  exact ⟨key', hk, B, hB, hkey⟩

/-- C6: for every blob whose SHA-256 digest `EVP_Digest` computes as the 32
bytes `d` (the base64 helper succeeding), `get_ssh_key_fingerprint_from_blob`
with `KEETO_DIGEST_SHA256` returns `KEETO_OK` and a string `fp` of exactly 43
characters without '=' that is the 43-character start of the 44-character
padded base64 encoding of `d`; the cut at the first '=' removes the one
trailing pad character and nothing else. -/
theorem C6_sha256_fingerprint (EVP_Digest : List Nat → EVP_MD → Option (List Nat))
    (hex_fail : Option keeto_error) (blob : List Nat) (blob_length : Nat)
    (ret : Option (List Char)) (d : List Nat)
    (hd : EVP_Digest (blob.take blob_length) EVP_sha256 = some d) (hlen : d.length = 32) :
    ∃ fp : List Char,
      get_ssh_key_fingerprint_from_blob EVP_Digest hex_fail none blob blob_length
        KEETO_DIGEST_SHA256 ret =
          ⟨KEETO_OK, some fp,
            [library_call.EVP_Digest (blob.take blob_length) EVP_sha256,
              library_call.blob_to_base64 d]⟩ ∧
      fp.length = 43 ∧ '=' ∉ fp ∧ (base64 d).length = 44 ∧
      fp = (base64 d).take 43 ∧ base64 d = fp ++ ['='] := by
  obtain ⟨p, hp, hplen, hno⟩ := base64_of_two_mod_three 10 d (by rw [hlen])
  have htake : d.take 32 = d := by
    rw [← hlen, List.take_length]
  have hcut : strcspn (p ++ ['=']) "=".toList = p.length := strcspn_pad p [] hno
  refine ⟨p, ?_, by omega, ?_, ?_, ?_, hp⟩
  · have hne : ¬ (KEETO_DIGEST_SHA256 = KEETO_DIGEST_MD5) := by decide
    have hd' : EVP_Digest (blob.take blob_length) EVP_MD.sha256 = some d := hd
    unfold get_ssh_key_fingerprint_from_blob
    simp only [if_neg hne, if_true, blob_to_base64, EVP_MD_size, EVP_sha256, hd', htake, hp]
    rw [hcut, List.take_left]
  · intro hmem
    exact hno '=' hmem rfl
  · rw [hp]
    simp [hplen]
  · rw [hp]
    have h43 : p.length = 43 := by omega
    rw [← h43, List.take_left]

/-- C6 at the blob 01 02 03 with the all-zero digest. -/
theorem C6_sha256_fingerprint_witness :
    ∃ fp : List Char,
      get_ssh_key_fingerprint_from_blob sample_key_env.EVP_Digest none none [1, 2, 3] 3
        KEETO_DIGEST_SHA256 none =
          ⟨KEETO_OK, some fp,
            [library_call.EVP_Digest ([1, 2, 3].take 3) EVP_sha256,
              library_call.blob_to_base64 (List.replicate 32 0)]⟩ ∧
      fp.length = 43 ∧ '=' ∉ fp ∧ (base64 (List.replicate 32 0)).length = 44 ∧
      fp = (base64 (List.replicate 32 0)).take 43 ∧ base64 (List.replicate 32 0) = fp ++ ['='] :=
  C6_sha256_fingerprint sample_key_env.EVP_Digest none [1, 2, 3] 3 none (List.replicate 32 0)
    rfl (by decide)

/-- C7: for every blob and every `algo` that is neither `KEETO_DIGEST_MD5` nor
`KEETO_DIGEST_SHA256`, `get_ssh_key_fingerprint_from_blob` returns
`KEETO_UNKNOWN_DIGEST_ALGO`, leaves `*ret` as it was and makes no library
call (no digest is computed). -/
theorem C7_unknown_digest_algo (EVP_Digest : List Nat → EVP_MD → Option (List Nat))
    (hex_fail base64_fail : Option keeto_error) (blob : List Nat) (blob_length : Nat)
    (algo : Int) (ret : Option (List Char))
    (hmd5 : algo ≠ KEETO_DIGEST_MD5) (hsha256 : algo ≠ KEETO_DIGEST_SHA256) :
    get_ssh_key_fingerprint_from_blob EVP_Digest hex_fail base64_fail blob blob_length algo ret =
      ⟨KEETO_UNKNOWN_DIGEST_ALGO, ret, []⟩ := by
  unfold get_ssh_key_fingerprint_from_blob
  simp only [if_neg hmd5, if_neg hsha256]

/-- C7 at the value 2, the first integer after the two enumerators. -/
theorem C7_unknown_digest_algo_witness :
    (2 : Int) ≠ KEETO_DIGEST_MD5 ∧ (2 : Int) ≠ KEETO_DIGEST_SHA256 ∧
    get_ssh_key_fingerprint_from_blob sample_key_env.EVP_Digest none none [1, 2, 3] 3 2
      (some ['x']) = ⟨KEETO_UNKNOWN_DIGEST_ALGO, some ['x'], []⟩ :=
  ⟨by decide, by decide,
    C7_unknown_digest_algo sample_key_env.EVP_Digest none none [1, 2, 3] 3 2 (some ['x'])
      (by decide) (by decide)⟩

/-- C8: for every certificate whose public key has a base type other than
`EVP_PKEY_RSA`, `add_key_data_from_x509` returns a status other than
`KEETO_OK` and the key record unchanged; the status is
`KEETO_UNSUPPORTED_KEY_TYPE` whenever the allocation of the SSH key record
(made before the key type is looked at) succeeds. And whenever the function
returns `KEETO_OK`, the key of the certificate has base type `EVP_PKEY_RSA`. -/
theorem C8_unsupported_key_type (env : key_env) (x509 : X509) (key : keeto_key) :
    (∀ pkey : EVP_PKEY, x509.pubkey = some pkey → pkey.base_id ≠ EVP_PKEY_RSA →
      (env.new_ssh_key_ok = true →
        add_key_data_from_x509 env x509 key =
          outcome.returned (KEETO_UNSUPPORTED_KEY_TYPE, key)) ∧
      (∃ rc : keeto_error, rc ≠ KEETO_OK ∧
        add_key_data_from_x509 env x509 key = outcome.returned (rc, key))) ∧
    (∀ key' : keeto_key, add_key_data_from_x509 env x509 key = outcome.returned (KEETO_OK, key') →
      ∃ pkey : EVP_PKEY, x509.pubkey = some pkey ∧ pkey.base_id = EVP_PKEY_RSA) := by
  constructor
  · intro pkey hp hty
    have hnomem : KEETO_NO_MEMORY ≠ KEETO_OK := by decide
    have hunsup : KEETO_UNSUPPORTED_KEY_TYPE ≠ KEETO_OK := by decide
    cases hnew : env.new_ssh_key_ok with
    | false =>
      refine ⟨fun hc => absurd hc (by decide), KEETO_NO_MEMORY, hnomem, ?_⟩
      simp [add_key_data_from_x509, hp, hnew]
    | true =>
      have hrun : add_key_data_from_x509 env x509 key =
          outcome.returned (KEETO_UNSUPPORTED_KEY_TYPE, key) := by
        simp [add_key_data_from_x509, hp, hnew, hty]
      exact ⟨fun _ => hrun, KEETO_UNSUPPORTED_KEY_TYPE, hunsup, hrun⟩
  · intro key' h
    cases hp : x509.pubkey with
    | none => simp [add_key_data_from_x509, hp] at h
    | some pkey =>
      refine ⟨pkey, rfl, ?_⟩
      by_contra hty
      cases hnew : env.new_ssh_key_ok with
      | false => simp [add_key_data_from_x509, hp, hnew] at h
      | true => simp [add_key_data_from_x509, hp, hnew, hty] at h

/-- C8 at a certificate with an elliptic-curve key. -/
theorem C8_unsupported_key_type_witness :
    add_key_data_from_x509 sample_key_env sample_ec_cert empty_key =
      outcome.returned (KEETO_UNSUPPORTED_KEY_TYPE, empty_key) ∧
    ∃ pkey : EVP_PKEY, sample_rsa_cert.pubkey = some pkey ∧ pkey.base_id = EVP_PKEY_RSA :=
  ⟨((C8_unsupported_key_type sample_key_env sample_ec_cert empty_key).1
      ⟨408, none⟩ rfl (by decide)).1 rfl,
    (C8_unsupported_key_type sample_key_env sample_rsa_cert empty_key).2
      (match add_key_data_from_x509 sample_key_env sample_rsa_cert empty_key with
        | outcome.returned (_, k) => k
        | outcome.fatal _ => empty_key) (by decide)⟩

/-- C9: in every state in which the certificate store is initialized
(`cert_store` is not `NULL`), `init_cert_store` returns `KEETO_OK` for every
directory and flag and every behaviour of OpenSSL, makes no OpenSSL call (the
directory is not read) and leaves the module state, with the directories and
the CRL flags of the store, as it was. -/
theorem C9_init_idempotent (env : store_env) (cert_store_dir : List Char) (check_crl : Bool)
    (s : store_state) (h : s.cert_store ≠ none) :
    init_cert_store env cert_store_dir check_crl s = (KEETO_OK, s, []) := by
  unfold init_cert_store
  rw [if_pos h]

/-- C9 at the state a first successful call leaves: a second call with another
directory, the other flag and an OpenSSL in which every call would fail. -/
theorem C9_init_idempotent_witness :
    (init_cert_store sample_store_env "/etc/keeto/certs".toList true initial_state).1 = KEETO_OK ∧
    (init_cert_store sample_store_env "/etc/keeto/certs".toList true
      initial_state).2.1.cert_store ≠ none ∧
    init_cert_store failing_store_env "/tmp/other".toList false
      (init_cert_store sample_store_env "/etc/keeto/certs".toList true initial_state).2.1 =
      (KEETO_OK,
        (init_cert_store sample_store_env "/etc/keeto/certs".toList true initial_state).2.1, []) :=
  ⟨by decide, by decide,
    C9_init_idempotent failing_store_env "/tmp/other".toList false
      (init_cert_store sample_store_env "/etc/keeto/certs".toList true initial_state).2.1
      (by decide)⟩

/-- C10: with the store initialized, `validate_x509` does not end fatally.
When the verification context is created, initialized and given its purpose,
it returns `KEETO_OK` with the verdict `true` if `X509_verify_cert` reports
success (a positive result) and `KEETO_OK` with the verdict `false` on every
other result; so `KEETO_OK` with verdict `true` is returned exactly when the
context is set up and the chain verifies. When creating or initializing the
context or setting its purpose fails, it returns `KEETO_OPENSSL_ERR` and
leaves the verdict as it was. -/
theorem C10_validate_verdict (env : verify_env) (x509 : X509) (ret : Option Bool)
    (store : X509_STORE) (released : Bool) :
    (env.X509_STORE_CTX_new_ok = true → env.X509_STORE_CTX_init store x509 ≠ 0 →
      env.X509_STORE_CTX_set_purpose X509_PURPOSE_SSL_CLIENT ≠ 0 →
      (0 < env.X509_verify_cert store x509 X509_PURPOSE_SSL_CLIENT →
        validate_x509 env x509 ret ⟨some store, released⟩ =
          outcome.returned (KEETO_OK, some true)) ∧
      (env.X509_verify_cert store x509 X509_PURPOSE_SSL_CLIENT ≤ 0 →
        validate_x509 env x509 ret ⟨some store, released⟩ =
          outcome.returned (KEETO_OK, some false))) ∧
    ((env.X509_STORE_CTX_new_ok = false ∨ env.X509_STORE_CTX_init store x509 = 0 ∨
        env.X509_STORE_CTX_set_purpose X509_PURPOSE_SSL_CLIENT = 0) →
      validate_x509 env x509 ret ⟨some store, released⟩ =
        outcome.returned (KEETO_OPENSSL_ERR, ret)) ∧
    (validate_x509 env x509 ret ⟨some store, released⟩ = outcome.returned (KEETO_OK, some true) ↔
      (env.X509_STORE_CTX_new_ok = true ∧ env.X509_STORE_CTX_init store x509 ≠ 0 ∧
        env.X509_STORE_CTX_set_purpose X509_PURPOSE_SSL_CLIENT ≠ 0 ∧
        0 < env.X509_verify_cert store x509 X509_PURPOSE_SSL_CLIENT)) := by
  have herr : KEETO_OPENSSL_ERR ≠ KEETO_OK := by decide
  cases hnew : env.X509_STORE_CTX_new_ok with
  | false => simp [validate_x509, hnew]
  | true =>
    by_cases hinit : env.X509_STORE_CTX_init store x509 = 0
    · simp [validate_x509, hnew, hinit]
    · by_cases hpur : env.X509_STORE_CTX_set_purpose X509_PURPOSE_SSL_CLIENT = 0
      · simp [validate_x509, hnew, hinit, hpur]
      · by_cases hv : env.X509_verify_cert store x509 X509_PURPOSE_SSL_CLIENT ≤ 0
        · have hv' : ¬ 0 < env.X509_verify_cert store x509 X509_PURPOSE_SSL_CLIENT := by omega
          simp [validate_x509, hnew, hinit, hpur, hv, hv']
        · have hv' : 0 < env.X509_verify_cert store x509 X509_PURPOSE_SSL_CLIENT := by omega
          simp [validate_x509, hnew, hinit, hpur, hv, hv']

/-- C10 at a store of one directory with a chain that verifies. -/
theorem C10_validate_verdict_witness :
    validate_x509 sample_verify_env sample_rsa_cert none
      ⟨some ⟨[("/etc/keeto/certs".toList, X509_FILETYPE_PEM)], 0⟩, false⟩ =
        outcome.returned (KEETO_OK, some true) :=
  ((C10_validate_verdict sample_verify_env sample_rsa_cert none
    ⟨[("/etc/keeto/certs".toList, X509_FILETYPE_PEM)], 0⟩ false).1
      rfl (by decide) (by decide)).1 (by decide)

/-- The modulus field of the second scenario: for the 256-byte modulus that
starts with 0xC3 the field is 00 00 01 01 00 C3 ..., of length 257 after the
four length bytes. -/
theorem mpint_field_modulus_C3 :
    (mpint_field modulus_C3).take 6 = [0x00, 0x00, 0x01, 0x01, 0x00, 0xC3] ∧
    (mpint_field modulus_C3).length = 4 + 257 := by
  decide

/-! ## The buffers of the blob function -/

theorem pad_le_one (a : Nat) : pad a ≤ 1 := by
  unfold pad
  split <;> omega

theorem BN_bn2bin_length (a : Nat) (buf : List Nat) (h : BN_num_bytes a ≤ buf.length) :
    (BN_bn2bin a buf).length = buf.length := by
  unfold BN_bn2bin
  simp only [List.length_append, List.length_drop, BN_bytes_length]
  omega

/-- For a positive number the byte at index 0 of the buffer after `BN_bn2bin`
is the first byte of the encoding. -/
theorem BN_bn2bin_head (a : Nat) (ha : 0 < a) (buf : List Nat) (d : Nat) :
    (BN_bytes a).head? = some ((BN_bn2bin a buf).headD d) := by
  obtain ⟨b, rest, hbr, _, _⟩ := BN_bytes_pos a ha
  simp [BN_bn2bin, hbr]

theorem BN_num_bytes_pos (a : Nat) (ha : 0 < a) : 0 < BN_num_bytes a := by
  obtain ⟨b, rest, hbr, _, _⟩ := BN_bytes_pos a ha
  rw [← BN_bytes_length, hbr]
  simp

/-- The blob function in terms of the three states of its temporary buffer: the
two pad decisions test index 0 of `tmp_buffer_exponent` and of
`tmp_buffer_modulus`, and the bytes copied are the first `BN_num_bytes` bytes
of these buffers. -/
theorem blob_in_terms_of_tmp_buffer (stack : Nat → Nat) (ssh_keytype : List Char) (rsa : RSA)
    (ret : Option (List Nat)) (ret_length : Nat) :
    get_ssh_key_blob_from_rsa true stack ssh_keytype rsa ret ret_length =
      ⟨KEETO_OK,
        some (PUT_32BIT ssh_keytype.length ++ ssh_keytype.map Char.toNat ++
          (if msb_set ((tmp_buffer_exponent stack rsa).headD (stack 0)) then
            PUT_32BIT (BN_num_bytes rsa.e + 1) ++ [0]
          else PUT_32BIT (BN_num_bytes rsa.e)) ++
          (tmp_buffer_exponent stack rsa).take (BN_num_bytes rsa.e) ++
          (if msb_set ((tmp_buffer_modulus stack rsa).headD (stack 0)) then
            PUT_32BIT (BN_num_bytes rsa.n + 1) ++ [0]
          else PUT_32BIT (BN_num_bytes rsa.n)) ++
          (tmp_buffer_modulus stack rsa).take (BN_num_bytes rsa.n)),
        4 + ssh_keytype.length +
          (if msb_set ((tmp_buffer_exponent stack rsa).headD (stack 0)) then 5 else 4) +
          BN_num_bytes rsa.e +
          (if msb_set ((tmp_buffer_modulus stack rsa).headD (stack 0)) then 5 else 4) +
          BN_num_bytes rsa.n⟩ := by
  unfold get_ssh_key_blob_from_rsa tmp_buffer_modulus tmp_buffer_exponent tmp_buffer_declared
  simp only [Bool.true_eq_false, if_false]
  generalize msb_set ((BN_bn2bin rsa.e _).headD (stack 0)) = p
  generalize msb_set ((BN_bn2bin rsa.n _).headD (stack 0)) = q
  cases p <;> cases q <;> simp

/-- C20: for every key type and every RSA key with positive exponent and
modulus (the allocation succeeding), the blob function writes exactly
`*ret_length` bytes to the blob, that number is the allocated
`pre_length_blob` minus 2 plus `pad_e` plus `pad_m` and so at most the
allocated size; each of the two encodings fits the temporary buffer of
`length_tmp_buffer` bytes, and writing it leaves the buffer at that length;
and the byte tested for the most significant bit, index 0 of the temporary
buffer, lies inside the written bytes and is the first byte of the encoding. -/
theorem C20_writes_stay_inside (stack : Nat → Nat) (ssh_keytype : List Char) (rsa : RSA)
    (ret : Option (List Nat)) (ret_length : Nat) (he : 0 < rsa.e) (hn : 0 < rsa.n) :
    (∃ blob : List Nat,
      (get_ssh_key_blob_from_rsa true stack ssh_keytype rsa ret ret_length).ret = some blob ∧
      blob.length =
        (get_ssh_key_blob_from_rsa true stack ssh_keytype rsa ret ret_length).ret_length) ∧
    (get_ssh_key_blob_from_rsa true stack ssh_keytype rsa ret ret_length).ret_length + 2 =
      pre_length_blob ssh_keytype.length (BN_num_bytes rsa.e) (BN_num_bytes rsa.n) +
        pad rsa.e + pad rsa.n ∧
    (get_ssh_key_blob_from_rsa true stack ssh_keytype rsa ret ret_length).ret_length ≤
      pre_length_blob ssh_keytype.length (BN_num_bytes rsa.e) (BN_num_bytes rsa.n) ∧
    (tmp_buffer_declared stack rsa).length =
      max (BN_num_bytes rsa.e) (BN_num_bytes rsa.n) ∧
    BN_num_bytes rsa.e ≤ (tmp_buffer_declared stack rsa).length ∧
    BN_num_bytes rsa.n ≤ (tmp_buffer_exponent stack rsa).length ∧
    (tmp_buffer_exponent stack rsa).length = (tmp_buffer_declared stack rsa).length ∧
    (tmp_buffer_modulus stack rsa).length = (tmp_buffer_declared stack rsa).length ∧
    0 < BN_num_bytes rsa.e ∧
    (BN_bytes rsa.e).head? = some ((tmp_buffer_exponent stack rsa).headD (stack 0)) ∧
    0 < BN_num_bytes rsa.n ∧
    (BN_bytes rsa.n).head? = some ((tmp_buffer_modulus stack rsa).headD (stack 0)) := by
  have hdecl : (tmp_buffer_declared stack rsa).length =
      max (BN_num_bytes rsa.e) (BN_num_bytes rsa.n) := by
    unfold tmp_buffer_declared length_tmp_buffer
    simp only [List.length_map, List.length_range]
    split <;> omega
  have hefit : BN_num_bytes rsa.e ≤ (tmp_buffer_declared stack rsa).length := by
    rw [hdecl]; exact le_max_left _ _
  have helen : (tmp_buffer_exponent stack rsa).length = (tmp_buffer_declared stack rsa).length :=
    BN_bn2bin_length rsa.e _ hefit
  have hnfit : BN_num_bytes rsa.n ≤ (tmp_buffer_exponent stack rsa).length := by
    rw [helen, hdecl]; exact le_max_right _ _
  have hnlen : (tmp_buffer_modulus stack rsa).length = (tmp_buffer_declared stack rsa).length := by
    unfold tmp_buffer_modulus
    rw [BN_bn2bin_length rsa.n _ hnfit, helen]
  have hpe := pad_le_one rsa.e
  have hpn := pad_le_one rsa.n
  rw [blob_of_pos stack ssh_keytype rsa ret ret_length he hn]
  refine ⟨⟨_, rfl, ?_⟩, ?_, ?_, hdecl, hefit, hnfit, helen, hnlen,
    BN_num_bytes_pos rsa.e he, BN_bn2bin_head rsa.e he _ _,
    BN_num_bytes_pos rsa.n hn, BN_bn2bin_head rsa.n hn _ _⟩
  · simp only [List.length_append, List.length_map, mpint_field, mpint_body_length]
    simp [be32]
    omega
  · simp only [pre_length_blob]
    omega
  · simp only [pre_length_blob]
    omega

/-- C20 at the key of the second scenario: exponent 0x010001 and the 256-byte
modulus that starts with 0xC3, where a pad byte is written for the modulus. -/
theorem C20_writes_stay_inside_witness :
    (0 < (RSA.mk modulus_C3 0x010001).e ∧ 0 < (RSA.mk modulus_C3 0x010001).n) ∧
    (get_ssh_key_blob_from_rsa true (fun _ => 0xFF) ssh_rsa (RSA.mk modulus_C3 0x010001)
      none 0).ret_length ≤
      pre_length_blob ssh_rsa.length (BN_num_bytes (RSA.mk modulus_C3 0x010001).e)
        (BN_num_bytes (RSA.mk modulus_C3 0x010001).n) ∧
    (BN_bytes (RSA.mk modulus_C3 0x010001).n).head? =
      some ((tmp_buffer_modulus (fun _ => 0xFF) (RSA.mk modulus_C3 0x010001)).headD 0xFF) :=
  have he : 0 < (RSA.mk modulus_C3 0x010001).e := by decide
  have hn : 0 < (RSA.mk modulus_C3 0x010001).n := by simp [modulus_C3]
  have h := C20_writes_stay_inside (fun _ => 0xFF) ssh_rsa (RSA.mk modulus_C3 0x010001)
    none 0 he hn
  ⟨⟨he, hn⟩, h.2.2.1, h.2.2.2.2.2.2.2.2.2.2.2⟩

/-! ## The directory resolver -/

theorem get_attr_values_as_string_some (env : ldap_env) (result : List ldap_entry)
    (attr : List Char) (values : List (List Char))
    (h : get_attr_values_as_string env result attr = outcome.returned (some values)) :
    ∃ entry, ldap_first_entry result = some entry ∧ entry.values attr = some values ∧
      values ≠ [] ∧ env.malloc_ok = true := by
  cases result with
  | nil => simp [get_attr_values_as_string, ldap_count_entries] at h
  | cons entry rest =>
    refine ⟨entry, rfl, ?_⟩
    cases hv : entry.values attr with
    | none => simp [get_attr_values_as_string, ldap_count_entries, ldap_first_entry, hv] at h
    | some vs =>
      by_cases hlen : vs.length = 0
      · simp [get_attr_values_as_string, ldap_count_entries, ldap_first_entry, hv, hlen] at h
      · cases hm : env.malloc_ok with
        | false =>
          simp [get_attr_values_as_string, ldap_count_entries, ldap_first_entry, hv, hlen,
            hm] at h
        | true =>
          simp only [get_attr_values_as_string, ldap_count_entries, ldap_first_entry,
            List.length_cons, Nat.succ_ne_zero, if_false, List.head?_cons, hv, hlen, hm,
            Bool.true_eq_false] at h
          injection h with h
          injection h with h
          subst h
          refine ⟨rfl, ?_, rfl⟩
          intro hnil
          apply hlen
          simp [hnil]

theorem get_attr_values_as_string_none (env : ldap_env) (result : List ldap_entry)
    (attr : List Char)
    (h : match ldap_first_entry result with
      | none => True
      | some entry => match entry.values attr with
        | none => True
        | some values => values = []) :
    get_attr_values_as_string env result attr = outcome.returned none := by
  unfold get_attr_values_as_string
  cases result with
  | nil => simp [ldap_count_entries]
  | cons entry rest =>
    simp only [ldap_first_entry, List.head?_cons] at h
    simp only [ldap_count_entries, List.length_cons, Nat.succ_ne_zero, if_false,
      ldap_first_entry, List.head?_cons]
    cases hv : entry.values attr with
    | none => rfl
    | some values =>
      simp only [hv] at h
      subst h
      simp

theorem get_attr_values_as_string_readable (env : ldap_env) (result : List ldap_entry)
    (attr : List Char) (entry : ldap_entry) (values : List (List Char))
    (hm : env.malloc_ok = true) (hfirst : ldap_first_entry result = some entry)
    (hv : entry.values attr = some values) (hne : values ≠ []) :
    get_attr_values_as_string env result attr = outcome.returned (some values) := by
  unfold get_attr_values_as_string
  cases result with
  | nil => simp [ldap_first_entry] at hfirst
  | cons e rest =>
    simp only [ldap_first_entry, List.head?_cons, Option.some.injEq] at hfirst
    subst hfirst
    have hlen : values.length ≠ 0 := by
      intro h0
      exact hne (List.length_eq_zero.mp h0)
    simp [ldap_count_entries, ldap_first_entry, hv, hlen, hm]

theorem objectclass_values_eq (env : ldap_env) (cfg : cfg_t) (dn : List Char) (rc : Int)
    (result : List ldap_entry) (values : List (List Char))
    (hs : env.ldap_search_ext_s dn LDAP_SCOPE_BASE none none cfg.ldap_search_timeout 1 =
      (rc, result))
    (h : get_attr_values_as_string env result objectClass = outcome.returned (some values)) :
    objectclass_values env cfg dn = values := by
  obtain ⟨entry, hfirst, hv, _, _⟩ := get_attr_values_as_string_some env result _ values h
  simp [objectclass_values, hs, hfirst, hv]

/-- One round of the loop of `get_access_profiles`: when the loop returns, the
profile of the first DN was added to the end of the list its type names, or to
no list when the type is unknown, and the loop went on with the rest. -/
theorem get_access_profiles_loop_step (env : ldap_env) (cfg : cfg_t) (dn : List Char)
    (rest : List (List Char)) (info : pox509_info) (calls : List ldap_call)
    (r : pox509_info × List ldap_call)
    (h : get_access_profiles_loop env cfg (dn :: rest) info calls = outcome.returned r) :
    ∃ (info1 : pox509_info) (calls1 : List ldap_call),
      get_access_profiles_loop env cfg rest info1 calls1 = outcome.returned r ∧
      info1.uid = info.uid ∧ info1.dn = info.dn ∧ info1.ldap_online = info.ldap_online ∧
      info1.direct_access_profiles.map (fun p => p.dn) =
        info.direct_access_profiles.map (fun p => p.dn) ++
          (if profile_type_of_dn env cfg dn = pox509_access_profile_type.DIRECT_ACCESS
            then [dn] else []) ∧
      info1.access_on_behalf_profiles.map (fun p => p.dn) =
        info.access_on_behalf_profiles.map (fun p => p.dn) ++
          (if profile_type_of_dn env cfg dn = pox509_access_profile_type.ACCESS_ON_BEHALF
            then [dn] else []) := by
  rw [get_access_profiles_loop] at h
  cases hs : env.ldap_search_ext_s dn LDAP_SCOPE_BASE none none cfg.ldap_search_timeout 1 with
  | mk rc result =>
    simp only [hs] at h
    by_cases hrc : rc = LDAP_SUCCESS
    · simp only [hrc, ne_eq, not_true_eq_false, if_false] at h
      cases ho : get_attr_values_as_string env result objectClass with
      | fatal msg => simp [ho] at h
      | returned ocs =>
        cases ocs with
        | none => simp [ho] at h
        | some ocs =>
          have hocs := objectclass_values_eq env cfg dn rc result ocs hs ho
          simp only [ho] at h
          cases ht : profile_type_of env ocs with
          | UNKNOWN =>
            simp only [ht] at h
            refine ⟨info, _, h, rfl, rfl, rfl, ?_, ?_⟩ <;>
              simp [profile_type_of_dn, hocs, ht]
          | DIRECT_ACCESS =>
            simp only [ht] at h
            cases hm : env.malloc_ok with
            | false => simp [hm] at h
            | true =>
              simp only [hm, Bool.true_eq_false, if_false] at h
              cases hk : get_attr_values_as_string env result env.POX509_DAP_KEY_PROVIDER_ATTR with
              | fatal msg => simp [hk] at h
              | returned kp =>
                cases kp with
                | none => simp [hk] at h
                | some kp =>
                  simp only [hk] at h
                  cases hko : get_attr_values_as_string env result
                      env.POX509_DAP_KEYSTORE_OPTIONS_ATTR with
                  | fatal msg => simp [hko] at h
                  | returned ko =>
                    cases ko with
                    | none => simp [hko] at h
                    | some ko =>
                      simp only [hko] at h
                      refine ⟨_, _, h, rfl, rfl, rfl, ?_, ?_⟩ <;>
                        simp [profile_type_of_dn, hocs, ht]
          | ACCESS_ON_BEHALF =>
            simp only [ht] at h
            cases hm : env.malloc_ok with
            | false => simp [hm] at h
            | true =>
              simp only [hm, Bool.true_eq_false, if_false] at h
              cases hk : get_attr_values_as_string env result
                  env.POX509_AOBP_TARGET_KEYSTORE_ATTR with
              | fatal msg => simp [hk] at h
              | returned kp =>
                cases kp with
                | none => simp [hk] at h
                | some kp =>
                  simp only [hk] at h
                  cases hkg : get_attr_values_as_string env result
                      env.POX509_AOBP_KEY_PROVIDER_ATTR with
                  | fatal msg => simp [hkg] at h
                  | returned kg =>
                    cases kg with
                    | none => simp [hkg] at h
                    | some kg =>
                      simp only [hkg] at h
                      cases hko : get_attr_values_as_string env result
                          env.POX509_AOBP_KEYSTORE_OPTIONS_ATTR with
                      | fatal msg => simp [hko] at h
                      | returned ko =>
                        cases ko with
                        | none => simp [hko] at h
                        | some ko =>
                          simp only [hko] at h
                          refine ⟨_, _, h, rfl, rfl, rfl, ?_, ?_⟩ <;>
                            simp [profile_type_of_dn, hocs, ht]
    · simp [hrc] at h

/-- The lists after the loop of `get_access_profiles`: the DNs added to the
direct access list are the DNs of type direct access, in the order visited,
and likewise for the access on behalf list; the other fields of the context
are as before. -/
theorem get_access_profiles_loop_lists (env : ldap_env) (cfg : cfg_t) :
    ∀ (dns : List (List Char)) (info : pox509_info) (calls : List ldap_call)
      (r : pox509_info × List ldap_call),
      get_access_profiles_loop env cfg dns info calls = outcome.returned r →
      r.1.uid = info.uid ∧ r.1.dn = info.dn ∧ r.1.ldap_online = info.ldap_online ∧
      r.1.direct_access_profiles.map (fun p => p.dn) =
        info.direct_access_profiles.map (fun p => p.dn) ++
          dns.filter (fun dn => decide (profile_type_of_dn env cfg dn =
            pox509_access_profile_type.DIRECT_ACCESS)) ∧
      r.1.access_on_behalf_profiles.map (fun p => p.dn) =
        info.access_on_behalf_profiles.map (fun p => p.dn) ++
          dns.filter (fun dn => decide (profile_type_of_dn env cfg dn =
            pox509_access_profile_type.ACCESS_ON_BEHALF)) := by
  intro dns
  induction dns with
  | nil =>
    intro info calls r h
    rw [get_access_profiles_loop] at h
    injection h with h
    subst h
    simp
  | cons dn rest ih =>
    intro info calls r h
    obtain ⟨info1, calls1, h1, hu, hd, hl, hdir, haob⟩ :=
      get_access_profiles_loop_step env cfg dn rest info calls r h
    obtain ⟨hu', hd', hl', hdir', haob'⟩ := ih info1 calls1 r h1
    refine ⟨hu'.trans hu, hd'.trans hd, hl'.trans hl, ?_, ?_⟩
    · rw [hdir', hdir, List.filter_cons]
      by_cases ht : profile_type_of_dn env cfg dn = pox509_access_profile_type.DIRECT_ACCESS
      · simp [ht]
      · simp [ht]
    · rw [haob', haob, List.filter_cons]
      by_cases ht : profile_type_of_dn env cfg dn = pox509_access_profile_type.ACCESS_ON_BEHALF
      · simp [ht]
      · simp [ht]

theorem get_access_profile_dns_some (env : ldap_env) (cfg : cfg_t) (info info1 : pox509_info)
    (calls calls1 : List ldap_call) (dns : List (List Char))
    (h : get_access_profile_dns env cfg info calls = outcome.returned (info1, some dns, calls1)) :
    dns = access_profile_dns_of env cfg ∧ info1.uid = info.uid ∧
      info1.ldap_online = info.ldap_online ∧
      info1.direct_access_profiles = info.direct_access_profiles ∧
      info1.access_on_behalf_profiles = info.access_on_behalf_profiles := by
  unfold get_access_profile_dns at h
  cases hf : env.create_ldap_search_filter cfg.ldap_server_uid_attr cfg.server_uid with
  | none => simp [hf] at h
  | some filter =>
    simp only [hf] at h
    cases hs : env.ldap_search_ext_s cfg.ldap_server_base_dn cfg.ldap_server_search_scope
        (some filter) (some [cfg.ldap_server_access_profile_attr]) cfg.ldap_search_timeout 1 with
    | mk rc result =>
      simp only [hs] at h
      by_cases hrc : rc = LDAP_SUCCESS
      · simp only [hrc, ne_eq, not_true_eq_false, if_false] at h
        cases hv : get_attr_values_as_string env result cfg.ldap_server_access_profile_attr with
        | fatal msg => simp [hv] at h
        | returned values =>
          simp only [hv] at h
          injection h with h
          injection h with hinfo h
          injection h with hdns _
          subst hdns
          obtain ⟨entry, hfirst, hval, _, _⟩ :=
            get_attr_values_as_string_some env result _ dns hv
          refine ⟨?_, ?_, ?_, ?_, ?_⟩
          · simp [access_profile_dns_of, hf, hs, hfirst, hval]
          · rw [← hinfo]
          · rw [← hinfo]
          · rw [← hinfo]
          · rw [← hinfo]
      · simp [hrc] at h

/-- The lists after `get_access_profiles`: to each list the DNs of its type
among the access profile DNs of the server object were added, in the order the
server returned them. -/
theorem get_access_profiles_lists (env : ldap_env) (cfg : cfg_t) (info : pox509_info)
    (calls : List ldap_call) (r : pox509_info × List ldap_call)
    (h : get_access_profiles env cfg info calls = outcome.returned r) :
    r.1.uid = info.uid ∧ r.1.ldap_online = info.ldap_online ∧
    r.1.direct_access_profiles.map (fun p => p.dn) =
      info.direct_access_profiles.map (fun p => p.dn) ++
        (access_profile_dns_of env cfg).filter (fun dn => decide (profile_type_of_dn env cfg dn =
          pox509_access_profile_type.DIRECT_ACCESS)) ∧
    r.1.access_on_behalf_profiles.map (fun p => p.dn) =
      info.access_on_behalf_profiles.map (fun p => p.dn) ++
        (access_profile_dns_of env cfg).filter (fun dn => decide (profile_type_of_dn env cfg dn =
          pox509_access_profile_type.ACCESS_ON_BEHALF)) := by
  unfold get_access_profiles at h
  cases hd : get_access_profile_dns env cfg info calls with
  | fatal msg => simp [hd] at h
  | returned v =>
    obtain ⟨info1, dns, calls1⟩ := v
    cases dns with
    | none => simp [hd] at h
    | some dns =>
      simp only [hd] at h
      obtain ⟨hdns, hu, hl, hdir, haob⟩ := get_access_profile_dns_some env cfg info info1 _ _ dns hd
      obtain ⟨hu', _, hl', hdir', haob'⟩ := get_access_profiles_loop_lists env cfg dns info1 calls1 r h
      rw [hdir, hdns] at hdir'
      rw [haob, hdns] at haob'
      exact ⟨hu'.trans hu, hl'.trans hl, hdir', haob'⟩

theorem profile_type_of_unknown_iff (env : ldap_env) (values : List (List Char)) :
    profile_type_of env values = pox509_access_profile_type.UNKNOWN ↔
      env.POX509_DAP_OBJCLASS ∉ values ∧ env.POX509_AOBP_OBJCLASS ∉ values := by
  induction values with
  | nil => simp [profile_type_of]
  | cons v rest ih =>
    unfold profile_type_of
    by_cases h1 : v = env.POX509_DAP_OBJCLASS
    · rw [if_pos h1]
      constructor
      · intro h
        cases h
      · rintro ⟨ha, _⟩
        exact absurd (List.mem_cons.mpr (Or.inl h1.symm)) ha
    · rw [if_neg h1]
      by_cases h2 : v = env.POX509_AOBP_OBJCLASS
      · rw [if_pos h2]
        constructor
        · intro h
          cases h
        · rintro ⟨_, hb⟩
          exact absurd (List.mem_cons.mpr (Or.inl h2.symm)) hb
      · rw [if_neg h2, ih]
        simp only [List.mem_cons, not_or]
        constructor
        · rintro ⟨ha, hb⟩
          exact ⟨⟨fun hc => h1 hc.symm, ha⟩, ⟨fun hc => h2 hc.symm, hb⟩⟩
        · rintro ⟨⟨_, ha⟩, ⟨_, hb⟩⟩
          exact ⟨ha, hb⟩

/-- The type is direct access exactly when the first value that is one of the
two object classes is the one of the direct access profile. -/
theorem profile_type_of_direct_iff (env : ldap_env) (values : List (List Char)) :
    profile_type_of env values = pox509_access_profile_type.DIRECT_ACCESS ↔
      ∃ before after, values = before ++ env.POX509_DAP_OBJCLASS :: after ∧
        env.POX509_DAP_OBJCLASS ∉ before ∧ env.POX509_AOBP_OBJCLASS ∉ before := by
  induction values with
  | nil => simp [profile_type_of]
  | cons v rest ih =>
    unfold profile_type_of
    by_cases h1 : v = env.POX509_DAP_OBJCLASS
    · rw [if_pos h1]
      simp only [true_iff]
      exact ⟨[], rest, by simp [h1], by simp, by simp⟩
    · rw [if_neg h1]
      by_cases h2 : v = env.POX509_AOBP_OBJCLASS
      · rw [if_pos h2]
        constructor
        · intro h
          cases h
        · rintro ⟨before, after, heq, hb1, hb2⟩
          cases before with
          | nil =>
            simp only [List.nil_append, List.cons.injEq] at heq
            exact absurd heq.1 h1
          | cons b bs =>
            simp only [List.cons_append, List.cons.injEq] at heq
            have hb : b = env.POX509_AOBP_OBJCLASS := heq.1.symm.trans h2
            exact absurd (List.mem_cons.mpr (Or.inl hb.symm)) hb2
      · rw [if_neg h2, ih]
        constructor
        · rintro ⟨before, after, heq, hb1, hb2⟩
          refine ⟨v :: before, after, by simp [heq], ?_, ?_⟩
          · simp only [List.mem_cons, not_or]
            exact ⟨fun hc => h1 hc.symm, hb1⟩
          · simp only [List.mem_cons, not_or]
            exact ⟨fun hc => h2 hc.symm, hb2⟩
        · rintro ⟨before, after, heq, hb1, hb2⟩
          cases before with
          | nil =>
            simp only [List.nil_append, List.cons.injEq] at heq
            exact absurd heq.1 h1
          | cons b bs =>
            simp only [List.cons_append, List.cons.injEq] at heq
            simp only [List.mem_cons, not_or] at hb1 hb2
            exact ⟨bs, after, heq.2, hb1.2, hb2.2⟩

/-- The type is access on behalf exactly when the first value that is one of
the two object classes is the one of the access on behalf profile. -/
theorem profile_type_of_on_behalf_iff (env : ldap_env) (values : List (List Char)) :
    profile_type_of env values = pox509_access_profile_type.ACCESS_ON_BEHALF ↔
      ∃ before after, values = before ++ env.POX509_AOBP_OBJCLASS :: after ∧
        env.POX509_DAP_OBJCLASS ∉ before ∧ env.POX509_AOBP_OBJCLASS ∉ before ∧
        env.POX509_AOBP_OBJCLASS ≠ env.POX509_DAP_OBJCLASS := by
  induction values with
  | nil => simp [profile_type_of]
  | cons v rest ih =>
    unfold profile_type_of
    by_cases h1 : v = env.POX509_DAP_OBJCLASS
    · rw [if_pos h1]
      constructor
      · intro h
        cases h
      · rintro ⟨before, after, heq, hb1, hb2, hne⟩
        cases before with
        | nil =>
          simp only [List.nil_append, List.cons.injEq] at heq
          exact absurd (heq.1.symm.trans h1) hne
        | cons b bs =>
          simp only [List.cons_append, List.cons.injEq] at heq
          have hb : b = env.POX509_DAP_OBJCLASS := heq.1.symm.trans h1
          exact absurd (List.mem_cons.mpr (Or.inl hb.symm)) hb1
    · rw [if_neg h1]
      by_cases h2 : v = env.POX509_AOBP_OBJCLASS
      · rw [if_pos h2]
        simp only [true_iff]
        refine ⟨[], rest, by simp [h2], by simp, by simp, ?_⟩
        intro hc
        exact h1 (h2.trans hc)
      · rw [if_neg h2, ih]
        constructor
        · rintro ⟨before, after, heq, hb1, hb2, hne⟩
          refine ⟨v :: before, after, by simp [heq], ?_, ?_, hne⟩
          · simp only [List.mem_cons, not_or]
            exact ⟨fun hc => h1 hc.symm, hb1⟩
          · simp only [List.mem_cons, not_or]
            exact ⟨fun hc => h2 hc.symm, hb2⟩
        · rintro ⟨before, after, heq, hb1, hb2, hne⟩
          cases before with
          | nil =>
            simp only [List.nil_append, List.cons.injEq] at heq
            exact absurd heq.1 h2
          | cons b bs =>
            simp only [List.cons_append, List.cons.injEq] at heq
            simp only [List.mem_cons, not_or] at hb1 hb2
            exact ⟨bs, after, heq.2, hb1.2, hb2.2, hne⟩

theorem mem_filter_type (env : ldap_env) (cfg : cfg_t) (t : pox509_access_profile_type)
    (dns : List (List Char)) (dn : List Char) (hdn : dn ∈ dns) :
    dn ∈ dns.filter (fun d => decide (profile_type_of_dn env cfg d = t)) ↔
      profile_type_of_dn env cfg dn = t := by
  simp [List.mem_filter, hdn]

theorem sample_resolved_eq :
    get_access_profiles (sample_ldap_env 0 true) sample_cfg sample_info [] =
      outcome.returned sample_resolved := by
  decide

/-- C13: when `get_access_profiles`, started with empty lists, returns, then
each access profile DN of the server object is in at most one of the two
lists; it is in one of them exactly when its object class values contain
`POX509_DAP_OBJCLASS` or `POX509_AOBP_OBJCLASS`; and a DN with neither object
class is in neither list. -/
theorem C13_profile_classification (env : ldap_env) (cfg : cfg_t) (info info' : pox509_info)
    (calls calls' : List ldap_call)
    (hd : info.direct_access_profiles = []) (ha : info.access_on_behalf_profiles = [])
    (h : get_access_profiles env cfg info calls = outcome.returned (info', calls')) :
    ∀ dn ∈ access_profile_dns_of env cfg,
      ¬ (dn ∈ info'.direct_access_profiles.map (fun p => p.dn) ∧
          dn ∈ info'.access_on_behalf_profiles.map (fun p => p.dn)) ∧
      ((dn ∈ info'.direct_access_profiles.map (fun p => p.dn) ∨
          dn ∈ info'.access_on_behalf_profiles.map (fun p => p.dn)) ↔
        (env.POX509_DAP_OBJCLASS ∈ objectclass_values env cfg dn ∨
          env.POX509_AOBP_OBJCLASS ∈ objectclass_values env cfg dn)) ∧
      ((env.POX509_DAP_OBJCLASS ∉ objectclass_values env cfg dn ∧
          env.POX509_AOBP_OBJCLASS ∉ objectclass_values env cfg dn) →
        dn ∉ info'.direct_access_profiles.map (fun p => p.dn) ∧
          dn ∉ info'.access_on_behalf_profiles.map (fun p => p.dn)) := by
  intro dn hdn
  obtain ⟨_, _, hdir, haob⟩ := get_access_profiles_lists env cfg info calls (info', calls') h
  simp only [hd, ha, List.map_nil, List.nil_append] at hdir haob
  rw [hdir, haob, mem_filter_type env cfg _ _ dn hdn, mem_filter_type env cfg _ _ dn hdn]
  have hunk := profile_type_of_unknown_iff env (objectclass_values env cfg dn)
  unfold profile_type_of_dn
  cases ht : profile_type_of env (objectclass_values env cfg dn) with
  | UNKNOWN =>
    have hn := hunk.mp ht
    refine ⟨by simp, ?_, fun _ => by simp⟩
    constructor
    · rintro (hc | hc) <;> cases hc
    · rintro (hc | hc)
      · exact absurd hc hn.1
      · exact absurd hc hn.2
  | DIRECT_ACCESS =>
    have hn : ¬ (env.POX509_DAP_OBJCLASS ∉ objectclass_values env cfg dn ∧
        env.POX509_AOBP_OBJCLASS ∉ objectclass_values env cfg dn) := by
      intro hc
      have := hunk.mpr hc
      rw [ht] at this
      cases this
    refine ⟨by simp, ?_, fun hc => absurd hc hn⟩
    constructor
    · intro _
      by_contra hc
      exact hn ⟨fun h1 => hc (Or.inl h1), fun h2 => hc (Or.inr h2)⟩
    · intro _
      exact Or.inl rfl
  | ACCESS_ON_BEHALF =>
    have hn : ¬ (env.POX509_DAP_OBJCLASS ∉ objectclass_values env cfg dn ∧
        env.POX509_AOBP_OBJCLASS ∉ objectclass_values env cfg dn) := by
      intro hc
      have := hunk.mpr hc
      rw [ht] at this
      cases this
    refine ⟨by simp, ?_, fun hc => absurd hc hn⟩
    constructor
    · intro _
      by_contra hc
      exact hn ⟨fun h1 => hc (Or.inl h1), fun h2 => hc (Or.inr h2)⟩
    · intro _
      exact Or.inr rfl

/-- C13 at the sample directory: of the four profiles of the server object,
`cn=dap` is in the direct access list only, `cn=aobp` in the access on behalf
list only and `cn=other`, which has neither object class, in neither. -/
theorem C13_profile_classification_witness :
    get_access_profiles (sample_ldap_env 0 true) sample_cfg sample_info [] =
      outcome.returned sample_resolved ∧
    "cn=other".toList ∈ access_profile_dns_of (sample_ldap_env 0 true) sample_cfg ∧
    "cn=other".toList ∉ sample_resolved.1.direct_access_profiles.map (fun p => p.dn) ∧
    "cn=other".toList ∉ sample_resolved.1.access_on_behalf_profiles.map (fun p => p.dn) ∧
    ¬ ("cn=dap".toList ∈ sample_resolved.1.direct_access_profiles.map (fun p => p.dn) ∧
      "cn=dap".toList ∈ sample_resolved.1.access_on_behalf_profiles.map (fun p => p.dn)) :=
  have hmem : "cn=other".toList ∈ access_profile_dns_of (sample_ldap_env 0 true) sample_cfg := by
    decide
  have hdap : "cn=dap".toList ∈ access_profile_dns_of (sample_ldap_env 0 true) sample_cfg := by
    decide
  have h := C13_profile_classification (sample_ldap_env 0 true) sample_cfg sample_info
    sample_resolved.1 [] sample_resolved.2 rfl rfl sample_resolved_eq
  ⟨sample_resolved_eq, hmem, ((h _ hmem).2.2 (by decide)).1, ((h _ hmem).2.2 (by decide)).2,
    (h _ hdap).1⟩

/-- C14, the claim refuted: in the sample directory the object class values of
`cn=both` contain `POX509_DAP_OBJCLASS`, after `POX509_AOBP_OBJCLASS`, and
`get_access_profiles` puts `cn=both` into the access on behalf list and not
into the direct access list. -/
theorem C14_on_behalf_despite_direct_class :
    (sample_ldap_env 0 true).POX509_DAP_OBJCLASS ∈
      objectclass_values (sample_ldap_env 0 true) sample_cfg "cn=both".toList ∧
    get_access_profiles (sample_ldap_env 0 true) sample_cfg sample_info [] =
      outcome.returned sample_resolved ∧
    "cn=both".toList ∈ sample_resolved.1.access_on_behalf_profiles.map (fun p => p.dn) ∧
    "cn=both".toList ∉ sample_resolved.1.direct_access_profiles.map (fun p => p.dn) := by
  decide

/-- C14 as amended: when `get_access_profiles`, started with empty lists,
returns, an access profile DN of the server object is in the direct access
list exactly when the first of its object class values, in the order the
server returns them, that is one of the two object classes is
`POX509_DAP_OBJCLASS`, and in the access on behalf list exactly when that
first value is `POX509_AOBP_OBJCLASS`. So a profile with
`POX509_DAP_OBJCLASS` and without `POX509_AOBP_OBJCLASS` is direct, and a
profile in the access on behalf list has `POX509_AOBP_OBJCLASS` among its
values. -/
theorem C14_first_matching_value_decides (env : ldap_env) (cfg : cfg_t)
    (info info' : pox509_info) (calls calls' : List ldap_call)
    (hd : info.direct_access_profiles = []) (ha : info.access_on_behalf_profiles = [])
    (h : get_access_profiles env cfg info calls = outcome.returned (info', calls')) :
    ∀ dn ∈ access_profile_dns_of env cfg,
      (dn ∈ info'.direct_access_profiles.map (fun p => p.dn) ↔
        ∃ before after,
          objectclass_values env cfg dn = before ++ env.POX509_DAP_OBJCLASS :: after ∧
          env.POX509_DAP_OBJCLASS ∉ before ∧ env.POX509_AOBP_OBJCLASS ∉ before) ∧
      (dn ∈ info'.access_on_behalf_profiles.map (fun p => p.dn) ↔
        ∃ before after,
          objectclass_values env cfg dn = before ++ env.POX509_AOBP_OBJCLASS :: after ∧
          env.POX509_DAP_OBJCLASS ∉ before ∧ env.POX509_AOBP_OBJCLASS ∉ before ∧
          env.POX509_AOBP_OBJCLASS ≠ env.POX509_DAP_OBJCLASS) ∧
      (env.POX509_DAP_OBJCLASS ∈ objectclass_values env cfg dn →
        env.POX509_AOBP_OBJCLASS ∉ objectclass_values env cfg dn →
        dn ∈ info'.direct_access_profiles.map (fun p => p.dn)) ∧
      (dn ∈ info'.access_on_behalf_profiles.map (fun p => p.dn) →
        env.POX509_AOBP_OBJCLASS ∈ objectclass_values env cfg dn) := by
  intro dn hdn
  obtain ⟨_, _, hdir, haob⟩ := get_access_profiles_lists env cfg info calls (info', calls') h
  simp only [hd, ha, List.map_nil, List.nil_append] at hdir haob
  rw [hdir, haob, mem_filter_type env cfg _ _ dn hdn, mem_filter_type env cfg _ _ dn hdn]
  have hdi := profile_type_of_direct_iff env (objectclass_values env cfg dn)
  have hob := profile_type_of_on_behalf_iff env (objectclass_values env cfg dn)
  have hunk := profile_type_of_unknown_iff env (objectclass_values env cfg dn)
  unfold profile_type_of_dn
  refine ⟨hdi, hob, ?_, ?_⟩
  · intro h1 h2
    cases ht : profile_type_of env (objectclass_values env cfg dn) with
    | UNKNOWN => exact absurd h1 (hunk.mp ht).1
    | DIRECT_ACCESS => rfl
    | ACCESS_ON_BEHALF =>
      obtain ⟨before, after, heq, _, _, _⟩ := hob.mp ht
      exact absurd (by rw [heq]; simp) h2
  · intro ht
    obtain ⟨before, after, heq, _, _, _⟩ := hob.mp ht
    rw [heq]
    simp

/-- C14 as amended, at the sample directory: `cn=dap`, whose values are "top"
and then `POX509_DAP_OBJCLASS`, is in the direct access list. -/
theorem C14_first_matching_value_decides_witness :
    get_access_profiles (sample_ldap_env 0 true) sample_cfg sample_info [] =
      outcome.returned sample_resolved ∧
    "cn=dap".toList ∈ sample_resolved.1.direct_access_profiles.map (fun p => p.dn) :=
  have hdap : "cn=dap".toList ∈ access_profile_dns_of (sample_ldap_env 0 true) sample_cfg := by
    decide
  ⟨sample_resolved_eq,
    ((C14_first_matching_value_decides (sample_ldap_env 0 true) sample_cfg sample_info
      sample_resolved.1 [] sample_resolved.2 rfl rfl sample_resolved_eq) _ hdap).2.2.1
      (by decide) (by decide)⟩

/-- C17: when `get_access_profiles`, started with empty lists, returns, the DNs
of the direct access list are the access profile DNs of the server object
whose type is direct access, in the order the server returned them, and the
DNs of the access on behalf list are those whose type is access on behalf, in
that order; both are sublists of the DNs of the server object. -/
theorem C17_no_reordering (env : ldap_env) (cfg : cfg_t) (info info' : pox509_info)
    (calls calls' : List ldap_call)
    (hd : info.direct_access_profiles = []) (ha : info.access_on_behalf_profiles = [])
    (h : get_access_profiles env cfg info calls = outcome.returned (info', calls')) :
    info'.direct_access_profiles.map (fun p => p.dn) =
      (access_profile_dns_of env cfg).filter (fun dn => decide (profile_type_of_dn env cfg dn =
        pox509_access_profile_type.DIRECT_ACCESS)) ∧
    info'.access_on_behalf_profiles.map (fun p => p.dn) =
      (access_profile_dns_of env cfg).filter (fun dn => decide (profile_type_of_dn env cfg dn =
        pox509_access_profile_type.ACCESS_ON_BEHALF)) ∧
    List.Sublist (info'.direct_access_profiles.map (fun p => p.dn))
      (access_profile_dns_of env cfg) ∧
    List.Sublist (info'.access_on_behalf_profiles.map (fun p => p.dn))
      (access_profile_dns_of env cfg) := by
  obtain ⟨_, _, hdir, haob⟩ := get_access_profiles_lists env cfg info calls (info', calls') h
  simp only [hd, ha, List.map_nil, List.nil_append] at hdir haob
  refine ⟨hdir, haob, ?_, ?_⟩
  · rw [hdir]
    exact List.filter_sublist _
  · rw [haob]
    exact List.filter_sublist _

/-- C17 at the sample directory: the server returns `cn=dap`, `cn=other`,
`cn=aobp`, `cn=both`; the direct access list is `cn=dap` and the access on
behalf list is `cn=aobp`, `cn=both`. -/
theorem C17_no_reordering_witness :
    access_profile_dns_of (sample_ldap_env 0 true) sample_cfg =
      ["cn=dap".toList, "cn=other".toList, "cn=aobp".toList, "cn=both".toList] ∧
    sample_resolved.1.direct_access_profiles.map (fun p => p.dn) = ["cn=dap".toList] ∧
    sample_resolved.1.access_on_behalf_profiles.map (fun p => p.dn) =
      ["cn=aobp".toList, "cn=both".toList] ∧
    List.Sublist (sample_resolved.1.access_on_behalf_profiles.map (fun p => p.dn))
      (access_profile_dns_of (sample_ldap_env 0 true) sample_cfg) :=
  ⟨by decide, by decide, by decide,
    (C17_no_reordering (sample_ldap_env 0 true) sample_cfg sample_info
      sample_resolved.1 [] sample_resolved.2 rfl rfl sample_resolved_eq).2.2.2⟩

theorem strlen_le (s : List Nat) : strlen s ≤ s.length := by
  unfold strlen
  exact (List.takeWhile_sublist _).length_le

theorem memset_length (s : List Nat) (c n : Nat) (h : n ≤ s.length) :
    (memset s c n).length = s.length := by
  simp [memset]
  omega

theorem memset_lt (s : List Nat) (c n i : Nat) (h : i < n) :
    (memset s c n)[i]? = some c := by
  unfold memset
  rw [List.getElem?_append_left (by simpa using h)]
  simp [List.getElem?_replicate, h]

theorem memset_ge (s : List Nat) (c n i : Nat) (h : n ≤ i) :
    (memset s c n)[i]? = s[i]? := by
  unfold memset
  rw [List.getElem?_append_right (by simpa using h)]
  simp only [List.length_replicate, List.getElem?_drop]
  congr 1
  omega

/-- C15: for every password buffer and every return code of the bind,
`bind_to_ldap` returns the return code of `ldap_sasl_bind_s`, called with the
`strlen` bytes of the password, unchanged, and after it each of the first
`strlen(password)` bytes of the password buffer of the configuration is zero;
the buffer keeps its length and its bytes from the terminator on, and nothing
else of the configuration changes. -/
theorem C15_password_wiped (env : ldap_env) (cfg : cfg_t) (calls : List ldap_call) :
    (bind_to_ldap env cfg calls).1 =
      env.ldap_sasl_bind_s cfg.ldap_bind_dn (cfg.ldap_bind_pwd.take (strlen cfg.ldap_bind_pwd)) ∧
    (∀ i, i < strlen cfg.ldap_bind_pwd →
      (bind_to_ldap env cfg calls).2.1.ldap_bind_pwd[i]? = some 0) ∧
    (∀ i, strlen cfg.ldap_bind_pwd ≤ i →
      (bind_to_ldap env cfg calls).2.1.ldap_bind_pwd[i]? = cfg.ldap_bind_pwd[i]?) ∧
    (bind_to_ldap env cfg calls).2.1.ldap_bind_pwd.length = cfg.ldap_bind_pwd.length ∧
    (bind_to_ldap env cfg calls).2.1 =
      { cfg with ldap_bind_pwd := memset cfg.ldap_bind_pwd 0 (strlen cfg.ldap_bind_pwd) } ∧
    (bind_to_ldap env cfg calls).2.2 = calls ++ [ldap_call.sasl_bind cfg.ldap_bind_dn
      (cfg.ldap_bind_pwd.take (strlen cfg.ldap_bind_pwd))] := by
  refine ⟨rfl, ?_, ?_, ?_, rfl, rfl⟩
  · intro i hi
    exact memset_lt _ _ _ _ hi
  · intro i hi
    exact memset_ge _ _ _ _ hi
  · exact memset_length _ _ _ (strlen_le _)

/-- C15 at the sample configuration, whose password buffer holds "secret", the
terminator and two more bytes, for a bind that fails with code 49. -/
theorem C15_password_wiped_witness :
    (bind_to_ldap (sample_ldap_env 49 true) sample_cfg []).1 = 49 ∧
    strlen sample_cfg.ldap_bind_pwd = 6 ∧
    (bind_to_ldap (sample_ldap_env 49 true) sample_cfg []).2.1.ldap_bind_pwd =
      [0, 0, 0, 0, 0, 0, 0, 0x41, 0x42] ∧
    (∀ i, i < strlen sample_cfg.ldap_bind_pwd →
      (bind_to_ldap (sample_ldap_env 49 true) sample_cfg []).2.1.ldap_bind_pwd[i]? = some 0) :=
  ⟨by decide, by decide, by decide,
    (C15_password_wiped (sample_ldap_env 49 true) sample_cfg []).2.1⟩

theorem foldl_keep {α β : Type} (l : List β) (a : α) : l.foldl (fun x _ => x) a = a := by
  induction l with
  | nil => rfl
  | cons b l ih => exact ih

theorem process_direct_access_profiles_eq (env : ldap_env) (cfg : cfg_t) (info : pox509_info) :
    process_direct_access_profiles env cfg info = info := by
  unfold process_direct_access_profiles
  split
  · rfl
  · exact foldl_keep _ _

theorem process_access_on_behalf_profiles_eq (env : ldap_env) (cfg : cfg_t)
    (info : pox509_info) : process_access_on_behalf_profiles env cfg info = info := by
  unfold process_access_on_behalf_profiles
  split
  · rfl
  · exact foldl_keep _ _

theorem set_ldap_options_no_search (env : ldap_env) (cfg : cfg_t) (calls calls' : List ldap_call)
    (hc : ∀ c ∈ calls, c.is_search = false)
    (h : set_ldap_options env cfg calls = outcome.returned calls') :
    ∀ c ∈ calls', c.is_search = false := by
  unfold set_ldap_options at h
  simp only [] at h
  split at h
  · cases h
  · split at h
    · cases h
    · split at h
      · cases h
      · split at h
        · cases h
        · injection h with h
          subst h
          intro c hmem
          simp only [List.mem_append, List.mem_singleton] at hmem
          rcases hmem with (((((hmem | hmem) | hmem) | hmem)) | hmem)
          · exact hc c hmem
          all_goals (subst hmem; rfl)

theorem init_starttls_no_search (env : ldap_env) (calls calls' : List ldap_call)
    (hc : ∀ c ∈ calls, c.is_search = false)
    (h : init_starttls env calls = outcome.returned calls') :
    ∀ c ∈ calls', c.is_search = false := by
  unfold init_starttls at h
  simp only [] at h
  split at h
  · split at h <;> cases h
  · injection h with h
    subst h
    intro c hmem
    simp only [List.mem_append, List.mem_singleton] at hmem
    rcases hmem with hmem | hmem
    · exact hc c hmem
    · subst hmem
      rfl

theorem init_ldap_handle_no_search (env : ldap_env) (cfg : cfg_t) (handle : List ldap_call)
    (h : init_ldap_handle env cfg = outcome.returned handle) :
    ∀ c ∈ handle, c.is_search = false := by
  unfold init_ldap_handle at h
  simp only [] at h
  split at h
  · cases h
  · cases hs : set_ldap_options env cfg [ldap_call.open_handle cfg.ldap_uri] with
    | fatal msg => simp [hs] at h
    | returned calls1 =>
      have h1 : ∀ c ∈ calls1, c.is_search = false := by
        apply set_ldap_options_no_search env cfg _ calls1 _ hs
        intro c hmem
        simp only [List.mem_singleton] at hmem
        subst hmem
        rfl
      simp only [hs] at h
      split at h
      · exact init_starttls_no_search env calls1 handle h1 h
      · injection h with h
        subst h
        exact h1

/-- C16: when the handle is set up, then (1) if the bind fails,
`get_keystore_data_from_ldap` returns with `ldap_online` 0, the uid, the
server DN and both profile lists as they were, the calls on the handle
contain no search and end with the bind followed by the unbind; (2) if the
bind succeeds, `get_access_profiles` is started on the context with
`ldap_online` 1, and whenever the function returns `ldap_online` is 1 and the
last call on the handle is the unbind. -/
theorem C16_bind_failure_and_success (env : ldap_env) (cfg : cfg_t) (info : pox509_info)
    (handle : List ldap_call)
    (hh : init_ldap_handle env cfg = outcome.returned handle) :
    ((bind_to_ldap env cfg handle).1 ≠ LDAP_SUCCESS →
      ∃ calls,
        get_keystore_data_from_ldap env cfg info =
          outcome.returned ((bind_to_ldap env cfg handle).2.1,
            { info with ldap_online := 0 }, calls) ∧
        ({ info with ldap_online := 0 } : pox509_info).dn = info.dn ∧
        ({ info with ldap_online := 0 } : pox509_info).direct_access_profiles =
          info.direct_access_profiles ∧
        ({ info with ldap_online := 0 } : pox509_info).access_on_behalf_profiles =
          info.access_on_behalf_profiles ∧
        (∀ c ∈ calls, c.is_search = false) ∧
        calls = handle ++ [ldap_call.sasl_bind cfg.ldap_bind_dn
          (cfg.ldap_bind_pwd.take (strlen cfg.ldap_bind_pwd)), ldap_call.unbind]) ∧
    ((bind_to_ldap env cfg handle).1 = LDAP_SUCCESS →
      get_keystore_data_from_ldap env cfg info =
        (match get_access_profiles env (bind_to_ldap env cfg handle).2.1
            { info with ldap_online := 1 } (bind_to_ldap env cfg handle).2.2 with
          | outcome.fatal msg => outcome.fatal msg
          | outcome.returned (info', calls) =>
            outcome.returned ((bind_to_ldap env cfg handle).2.1, info',
              calls ++ [ldap_call.unbind])) ∧
      ∀ cfg' info' calls,
        get_keystore_data_from_ldap env cfg info = outcome.returned (cfg', info', calls) →
          info'.ldap_online = 1 ∧ calls.getLast? = some ldap_call.unbind) := by
  constructor
  · intro hrc
    refine ⟨handle ++ [ldap_call.sasl_bind cfg.ldap_bind_dn
      (cfg.ldap_bind_pwd.take (strlen cfg.ldap_bind_pwd)), ldap_call.unbind], ?_, rfl, rfl, rfl,
      ?_, rfl⟩
    · unfold get_keystore_data_from_ldap
      simp only [hh]
      rw [if_pos hrc]
      simp [bind_to_ldap]
    · intro c hmem
      simp only [List.mem_append, List.mem_cons, List.mem_singleton, List.not_mem_nil,
        or_false] at hmem
      rcases hmem with hmem | hmem | hmem
      · exact init_ldap_handle_no_search env cfg handle hh c hmem
      · subst hmem
        rfl
      · subst hmem
        rfl
  · intro hrc
    have heq : get_keystore_data_from_ldap env cfg info =
        (match get_access_profiles env (bind_to_ldap env cfg handle).2.1
            { info with ldap_online := 1 } (bind_to_ldap env cfg handle).2.2 with
          | outcome.fatal msg => outcome.fatal msg
          | outcome.returned (info', calls) =>
            outcome.returned ((bind_to_ldap env cfg handle).2.1, info',
              calls ++ [ldap_call.unbind])) := by
      unfold get_keystore_data_from_ldap
      simp only [hh]
      rw [if_neg (not_not.mpr hrc)]
      cases hg : get_access_profiles env (bind_to_ldap env cfg handle).2.1
          { info with ldap_online := 1 } (bind_to_ldap env cfg handle).2.2 with
      | fatal msg => rfl
      | returned r =>
        simp only [process_direct_access_profiles_eq,
          process_access_on_behalf_profiles_eq]
    refine ⟨heq, ?_⟩
    intro cfg' info' calls hret
    rw [heq] at hret
    cases hg : get_access_profiles env (bind_to_ldap env cfg handle).2.1
        { info with ldap_online := 1 } (bind_to_ldap env cfg handle).2.2 with
    | fatal msg => simp [hg] at hret
    | returned r =>
      obtain ⟨_, hon, _, _⟩ := get_access_profiles_lists env _ _ _ r hg
      simp only [hg] at hret
      injection hret with hret
      simp only [Prod.mk.injEq] at hret
      obtain ⟨_, hi, hc⟩ := hret
      subst hi hc
      exact ⟨hon, by simp⟩

/-- C16 at the sample directory: with a bind that fails with code 49 the
function returns with `ldap_online` 0, empty lists and no search; with a bind
that succeeds it returns with `ldap_online` 1 and the unbind as last call. -/
theorem C16_bind_failure_and_success_witness :
    init_ldap_handle (sample_ldap_env 49 true) sample_cfg = outcome.returned sample_handle ∧
    (bind_to_ldap (sample_ldap_env 49 true) sample_cfg sample_handle).1 ≠ LDAP_SUCCESS ∧
    (∃ calls,
      get_keystore_data_from_ldap (sample_ldap_env 49 true) sample_cfg sample_info =
        outcome.returned ((bind_to_ldap (sample_ldap_env 49 true) sample_cfg sample_handle).2.1,
          { sample_info with ldap_online := 0 }, calls) ∧
      (∀ c ∈ calls, c.is_search = false) ∧
      calls = sample_handle ++ [ldap_call.sasl_bind sample_cfg.ldap_bind_dn
        (sample_cfg.ldap_bind_pwd.take (strlen sample_cfg.ldap_bind_pwd)), ldap_call.unbind]) ∧
    (∀ cfg' info' calls,
      get_keystore_data_from_ldap (sample_ldap_env 0 true) sample_cfg sample_info =
        outcome.returned (cfg', info', calls) →
          info'.ldap_online = 1 ∧ calls.getLast? = some ldap_call.unbind) ∧
    ((get_keystore_data_from_ldap (sample_ldap_env 0 true) sample_cfg sample_info).value?).isSome
      = true :=
  have hfail := (C16_bind_failure_and_success (sample_ldap_env 49 true) sample_cfg sample_info
    sample_handle (by decide)).1 (by decide)
  ⟨by decide, by decide,
    hfail.elim (fun calls h => ⟨calls, h.1, h.2.2.2.2.1, h.2.2.2.2.2⟩),
    ((C16_bind_failure_and_success (sample_ldap_env 0 true) sample_cfg sample_info
      sample_handle (by decide)).2 (by decide)).2,
    by decide⟩

/-- After a successful bind `get_keystore_data_from_ldap` is
`get_access_profiles` followed by the unbind: the two processing functions
change nothing. -/
theorem get_keystore_data_from_ldap_bound (env : ldap_env) (cfg : cfg_t) (info : pox509_info)
    (handle : List ldap_call)
    (hh : init_ldap_handle env cfg = outcome.returned handle)
    (hrc : (bind_to_ldap env cfg handle).1 = LDAP_SUCCESS) :
    get_keystore_data_from_ldap env cfg info =
      (match get_access_profiles env (bind_to_ldap env cfg handle).2.1
          { info with ldap_online := 1 } (bind_to_ldap env cfg handle).2.2 with
        | outcome.fatal msg => outcome.fatal msg
        | outcome.returned (info', calls) =>
          outcome.returned ((bind_to_ldap env cfg handle).2.1, info',
            calls ++ [ldap_call.unbind])) := by
  unfold get_keystore_data_from_ldap
  simp only [hh]
  rw [if_neg (not_not.mpr hrc)]
  cases hg : get_access_profiles env (bind_to_ldap env cfg handle).2.1
      { info with ldap_online := 1 } (bind_to_ldap env cfg handle).2.2 with
  | fatal msg => rfl
  | returned r =>
    simp only [process_direct_access_profiles_eq, process_access_on_behalf_profiles_eq]

/-- After a successful bind the lists `get_keystore_data_from_ldap` returns
hold every profile of the server object that `get_access_profiles` classified:
no profile is taken out by the uid of its key provider or of its target end
entities. -/
theorem get_keystore_data_from_ldap_keeps_all (env : ldap_env) (cfg cfg' : cfg_t)
    (info info' : pox509_info) (handle calls : List ldap_call)
    (hh : init_ldap_handle env cfg = outcome.returned handle)
    (hrc : (bind_to_ldap env cfg handle).1 = LDAP_SUCCESS)
    (h : get_keystore_data_from_ldap env cfg info = outcome.returned (cfg', info', calls)) :
    info'.direct_access_profiles.map (fun p => p.dn) =
      info.direct_access_profiles.map (fun p => p.dn) ++
        (access_profile_dns_of env cfg').filter (fun dn =>
          decide (profile_type_of_dn env cfg' dn = pox509_access_profile_type.DIRECT_ACCESS)) ∧
    info'.access_on_behalf_profiles.map (fun p => p.dn) =
      info.access_on_behalf_profiles.map (fun p => p.dn) ++
        (access_profile_dns_of env cfg').filter (fun dn =>
          decide (profile_type_of_dn env cfg' dn =
            pox509_access_profile_type.ACCESS_ON_BEHALF)) := by
  rw [get_keystore_data_from_ldap_bound env cfg info handle hh hrc] at h
  cases hg : get_access_profiles env (bind_to_ldap env cfg handle).2.1
      { info with ldap_online := 1 } (bind_to_ldap env cfg handle).2.2 with
  | fatal msg => simp [hg] at h
  | returned r =>
    obtain ⟨_, _, hdir, haob⟩ := get_access_profiles_lists env _ _ _ r hg
    simp only [hg] at h
    injection h with h
    simp only [Prod.mk.injEq] at h
    obtain ⟨hc, hi, _⟩ := h
    subst hc hi
    exact ⟨hdir, haob⟩

/-- C11, the code at the failing input: in the sample directory "alice" logs
in, the direct access profile `cn=dap` has the key provider `uid=bob`, whose
uid is "bob", which `is_relevant_dap` does not accept for "alice"; after
`get_keystore_data_from_ldap` the profile is in the direct access list. -/
theorem C11_direct_profile_of_other_uid_kept :
    sample_info.uid = "alice".toList ∧
    ((get_keystore_data_from_ldap (sample_ldap_env 0 true) sample_cfg sample_info).value?).map
      (fun r => r.2.1.direct_access_profiles.map (fun p => (p.dn, p.key_provider_dn))) =
        some [("cn=dap".toList, "uid=bob".toList)] ∧
    first_uid_of (sample_ldap_env 0 true) sample_cfg "uid=bob".toList = some "bob".toList ∧
    is_relevant_dap sample_info "bob".toList = false := by
  decide

/-- C12, the code at the failing input: in the sample directory "alice" logs
in, the target keystore group `cn=group` of the access on behalf profile
`cn=aobp` has the one member `uid=carol`, whose uid is "carol"; after
`get_keystore_data_from_ldap` the profile is in the access on behalf list. -/
theorem C12_on_behalf_profile_without_target_kept :
    sample_info.uid = "alice".toList ∧
    ((get_keystore_data_from_ldap (sample_ldap_env 0 true) sample_cfg sample_info).value?).map
      (fun r => r.2.1.access_on_behalf_profiles) = some [sample_aobp, sample_aobp_nogroup] ∧
    target_ee_dns_of (sample_ldap_env 0 true) sample_cfg sample_aobp = ["uid=carol".toList] ∧
    first_uid_of (sample_ldap_env 0 true) sample_cfg "uid=carol".toList = some "carol".toList ∧
    some_target_uid_matches (sample_ldap_env 0 true) sample_cfg sample_info.uid sample_aobp =
      false := by
  decide

theorem target_ee_dns_of_nil (env : ldap_env) (cfg : cfg_t)
    (profile : pox509_access_on_behalf_profile) (rc : Int) (result : List ldap_entry)
    (hs : env.ldap_search_ext_s profile.target_keystore_group_dn LDAP_SCOPE_BASE none
      (some [cfg.ldap_target_group_attr]) cfg.ldap_search_timeout 1 = (rc, result))
    (h : target_ee_dns_of env cfg profile = []) :
    get_attr_values_as_string env result cfg.ldap_target_group_attr = outcome.returned none := by
  apply get_attr_values_as_string_none
  unfold target_ee_dns_of at h
  rw [hs] at h
  cases hf : ldap_first_entry result with
  | none => trivial
  | some entry =>
    simp only [hf] at h
    cases hv : entry.values cfg.ldap_target_group_attr with
    | none => simp only [hv]
    | some values =>
      simp only [hv, Option.getD_some] at h
      simp only [hv]
      exact h

theorem target_ee_dns_of_cons (env : ldap_env) (cfg : cfg_t)
    (profile : pox509_access_on_behalf_profile) (rc : Int) (result : List ldap_entry)
    (hm : env.malloc_ok = true)
    (hs : env.ldap_search_ext_s profile.target_keystore_group_dn LDAP_SCOPE_BASE none
      (some [cfg.ldap_target_group_attr]) cfg.ldap_search_timeout 1 = (rc, result))
    (h : target_ee_dns_of env cfg profile ≠ []) :
    get_attr_values_as_string env result cfg.ldap_target_group_attr =
      outcome.returned (some (target_ee_dns_of env cfg profile)) := by
  unfold target_ee_dns_of at h ⊢
  rw [hs] at h ⊢
  cases hf : ldap_first_entry result with
  | none => simp [hf] at h
  | some entry =>
    simp only [hf] at h ⊢
    cases hv : entry.values cfg.ldap_target_group_attr with
    | none => simp [hv] at h
    | some values =>
      simp only [hv, Option.getD_some] at h ⊢
      exact get_attr_values_as_string_readable env result _ entry values hm hf hv h

theorem first_uid_of_some (env : ldap_env) (cfg : cfg_t) (ee : List Char) (rc : Int)
    (result : List ldap_entry) (u : List Char) (hm : env.malloc_ok = true)
    (hs : env.ldap_search_ext_s ee LDAP_SCOPE_BASE none (some [cfg.ldap_target_uid_attr])
      cfg.ldap_search_timeout 1 = (rc, result))
    (h : first_uid_of env cfg ee = some u) :
    ∃ values, get_attr_values_as_string env result cfg.ldap_target_uid_attr =
      outcome.returned (some values) ∧ values.headD [] = u := by
  unfold first_uid_of at h
  rw [hs] at h
  cases hf : ldap_first_entry result with
  | none => simp [hf] at h
  | some entry =>
    simp only [hf] at h
    cases hv : entry.values cfg.ldap_target_uid_attr with
    | none => simp [hv] at h
    | some values =>
      simp only [hv] at h
      cases values with
      | nil => simp at h
      | cons v vs =>
        simp only [List.head?_cons, Option.some.injEq] at h
        refine ⟨v :: vs, ?_, by simpa using h⟩
        exact get_attr_values_as_string_readable env result _ entry (v :: vs) hm hf hv (by simp)

/-- The inner loop of `strip_access_on_behalf_profiles` when every read
succeeds and gives a uid: the flag stays set exactly when no target end entity
has the login uid as its first uid value. -/
theorem strip_target_loop_eq (env : ldap_env) (cfg : cfg_t) (info : pox509_info)
    (hm : env.malloc_ok = true) :
    ∀ (dns : List (List Char)) (flag : Bool) (calls : List ldap_call),
      (∀ ee ∈ dns,
        (env.ldap_search_ext_s ee LDAP_SCOPE_BASE none (some [cfg.ldap_target_uid_attr])
          cfg.ldap_search_timeout 1).1 = LDAP_SUCCESS ∧
        (first_uid_of env cfg ee).isSome = true) →
      ∃ calls', strip_target_loop env cfg info dns flag calls =
        outcome.returned
          (flag && !(dns.any (fun ee => decide (first_uid_of env cfg ee = some info.uid))),
            calls') := by
  intro dns
  induction dns with
  | nil =>
    intro flag calls _
    exact ⟨calls, by simp [strip_target_loop]⟩
  | cons ee rest ih =>
    intro flag calls hall
    rw [strip_target_loop]
    cases flag with
    | false => exact ⟨calls, by simp⟩
    | true =>
      obtain ⟨hrc, hsome⟩ := hall ee (List.mem_cons_self _ _)
      cases hs : env.ldap_search_ext_s ee LDAP_SCOPE_BASE none
          (some [cfg.ldap_target_uid_attr]) cfg.ldap_search_timeout 1 with
      | mk rc result =>
        rw [hs] at hrc
        simp only at hrc
        subst hrc
        obtain ⟨u, hu⟩ := Option.isSome_iff_exists.mp hsome
        obtain ⟨values, hget, hhead⟩ := first_uid_of_some env cfg ee _ result u hm hs hu
        simp only [hs, Bool.true_eq_false, if_false, ne_eq, not_true_eq_false, hget]
        obtain ⟨calls', hrest⟩ := ih (if values.headD [] = info.uid then false else true)
          (calls ++ [ldap_call.search ee LDAP_SCOPE_BASE none (some [cfg.ldap_target_uid_attr])
            cfg.ldap_search_timeout 1])
          (fun e he => hall e (List.mem_cons_of_mem _ he))
        refine ⟨calls', ?_⟩
        rw [hrest]
        congr 2
        rw [hhead, List.any_cons, hu]
        by_cases hc : u = info.uid
        · simp [hc]
        · simp [hc]

theorem target_group_readable_iff (env : ldap_env) (cfg : cfg_t)
    (p : pox509_access_on_behalf_profile) (h : target_group_readable env cfg p = true) :
    env.malloc_ok = true ∧
    (env.ldap_search_ext_s p.target_keystore_group_dn LDAP_SCOPE_BASE none
      (some [cfg.ldap_target_group_attr]) cfg.ldap_search_timeout 1).1 = LDAP_SUCCESS ∧
    target_ee_dns_of env cfg p ≠ [] ∧
    ∀ ee ∈ target_ee_dns_of env cfg p,
      (env.ldap_search_ext_s ee LDAP_SCOPE_BASE none (some [cfg.ldap_target_uid_attr])
        cfg.ldap_search_timeout 1).1 = LDAP_SUCCESS ∧
      (first_uid_of env cfg ee).isSome = true := by
  unfold target_group_readable at h
  simp only [Bool.and_eq_true, decide_eq_true_eq, List.all_eq_true] at h
  exact ⟨h.1.1.1, h.1.1.2, h.1.2, h.2⟩

/-- One round of the loop of `strip_access_on_behalf_profiles` for a profile
whose reads succeed: the profile is taken out of the queue exactly when no
target end entity has the login uid, and the traversal then goes on with what
the link field of the released profile gives. -/
theorem strip_loop_step (env : ldap_env) (cfg : cfg_t) (p : pox509_access_on_behalf_profile)
    (rest : List pox509_access_on_behalf_profile) (info : pox509_info) (calls : List ldap_call)
    (h : target_group_readable env cfg p = true) :
    ∃ calls1, strip_access_on_behalf_profiles_loop env cfg (p :: rest) info calls =
      if some_target_uid_matches env cfg info.uid p = true then
        strip_access_on_behalf_profiles_loop env cfg rest info calls1
      else if env.released_link_readable p = true then
        strip_access_on_behalf_profiles_loop env cfg rest
          { info with access_on_behalf_profiles := info.access_on_behalf_profiles.erase p } calls1
      else
        outcome.returned
          ({ info with access_on_behalf_profiles := info.access_on_behalf_profiles.erase p },
            calls1) := by
  obtain ⟨hm, hrc, hne, hall⟩ := target_group_readable_iff env cfg p h
  rw [strip_access_on_behalf_profiles_loop]
  cases hs : env.ldap_search_ext_s p.target_keystore_group_dn LDAP_SCOPE_BASE none
      (some [cfg.ldap_target_group_attr]) cfg.ldap_search_timeout 1 with
  | mk rc result =>
    rw [hs] at hrc
    simp only at hrc
    subst hrc
    have hget := target_ee_dns_of_cons env cfg p _ result hm hs hne
    obtain ⟨calls1, hin⟩ := strip_target_loop_eq env cfg info hm (target_ee_dns_of env cfg p) true
      (calls ++ [ldap_call.search p.target_keystore_group_dn LDAP_SCOPE_BASE none
        (some [cfg.ldap_target_group_attr]) cfg.ldap_search_timeout 1]) hall
    refine ⟨calls1, ?_⟩
    simp only [hs, ne_eq, not_true_eq_false, if_false, hget, hin, Bool.true_and]
    unfold some_target_uid_matches
    cases hany : (target_ee_dns_of env cfg p).any
        (fun ee => decide (first_uid_of env cfg ee = some info.uid)) with
    | true => simp
    | false =>
      cases hl : env.released_link_readable p with
      | true => simp
      | false => simp

/-- The loop of `strip_access_on_behalf_profiles` when every read succeeds and
the link field of every released profile is still read as it was: what stays
in the queue is what was kept so far and, of the profiles still to visit, those
for which some target end entity has the login uid. -/
theorem strip_loop_filter (env : ldap_env) (cfg : cfg_t)
    (hlink : ∀ p, env.released_link_readable p = true) :
    ∀ (todo kept : List pox509_access_on_behalf_profile) (info : pox509_info)
      (calls : List ldap_call),
      info.access_on_behalf_profiles = kept ++ todo →
      (∀ p ∈ kept, some_target_uid_matches env cfg info.uid p = true) →
      (∀ p ∈ todo, target_group_readable env cfg p = true) →
      ∃ calls', strip_access_on_behalf_profiles_loop env cfg todo info calls =
        outcome.returned
          ({ info with access_on_behalf_profiles :=
              kept ++ todo.filter (some_target_uid_matches env cfg info.uid) }, calls') := by
  intro todo
  induction todo with
  | nil =>
    intro kept info calls hq _ _
    refine ⟨calls, ?_⟩
    rw [strip_access_on_behalf_profiles_loop]
    cases info
    simp only [List.append_nil] at hq
    simp only [List.filter_nil, List.append_nil]
    subst hq
    rfl
  | cons p rest ih =>
    intro kept info calls hq hkept hread
    obtain ⟨calls1, hstep⟩ := strip_loop_step env cfg p rest info calls
      (hread p (List.mem_cons_self _ _))
    rw [hstep]
    cases hmatch : some_target_uid_matches env cfg info.uid p with
    | true =>
      simp only [if_true]
      obtain ⟨calls', hrest⟩ := ih (kept ++ [p]) info calls1 (by simp [hq])
        (by
          intro q hqm
          simp only [List.mem_append, List.mem_singleton] at hqm
          rcases hqm with hqm | hqm
          · exact hkept q hqm
          · subst hqm
            exact hmatch)
        (fun q hqm => hread q (List.mem_cons_of_mem _ hqm))
      refine ⟨calls', ?_⟩
      rw [hrest]
      simp [List.filter_cons, hmatch]
    | false =>
      simp only [Bool.false_eq_true, if_false, hlink p, if_true]
      have hnot : p ∉ kept := by
        intro hmem
        have := hkept p hmem
        rw [hmatch] at this
        cases this
      have herase : info.access_on_behalf_profiles.erase p = kept ++ rest := by
        rw [hq, List.erase_append_right _ hnot, List.erase_cons_head]
      obtain ⟨calls', hrest⟩ := ih kept
        { info with access_on_behalf_profiles := info.access_on_behalf_profiles.erase p }
        calls1 herase hkept (fun q hqm => hread q (List.mem_cons_of_mem _ hqm))
      refine ⟨calls', ?_⟩
      rw [hrest]
      simp [List.filter_cons, hmatch]

/-- When every read succeeds and the link field of every released profile is
still read as it was, `strip_access_on_behalf_profiles` leaves the profiles for
which some target end entity has the login uid, in their order. -/
theorem strip_filter_of_readable_links (env : ldap_env) (cfg : cfg_t) (info : pox509_info)
    (calls : List ldap_call)
    (hlink : ∀ p, env.released_link_readable p = true)
    (hread : ∀ p ∈ info.access_on_behalf_profiles, target_group_readable env cfg p = true) :
    ∃ calls', strip_access_on_behalf_profiles env cfg info calls =
      outcome.returned
        ({ info with access_on_behalf_profiles :=
            info.access_on_behalf_profiles.filter (some_target_uid_matches env cfg info.uid) },
          calls') := by
  unfold strip_access_on_behalf_profiles
  by_cases hnil : info.access_on_behalf_profiles = []
  · rw [if_pos hnil]
    refine ⟨calls, ?_⟩
    cases info
    simp only at hnil
    subst hnil
    rfl
  · rw [if_neg hnil]
    obtain ⟨calls', h⟩ := strip_loop_filter env cfg hlink info.access_on_behalf_profiles []
      info calls (by simp) (by simp) hread
    exact ⟨calls', by simpa using h⟩

/-- The message with which the traversal of `strip_access_on_behalf_profiles`
ends the process at a profile whose target group gives no member. -/
theorem strip_loop_no_members (env : ldap_env) (cfg : cfg_t)
    (p : pox509_access_on_behalf_profile) (rest : List pox509_access_on_behalf_profile)
    (info : pox509_info) (calls : List ldap_call)
    (h : target_ee_dns_of env cfg p = []) :
    strip_access_on_behalf_profiles_loop env cfg (p :: rest) info calls =
      outcome.fatal
        (if (env.ldap_search_ext_s p.target_keystore_group_dn LDAP_SCOPE_BASE none
            (some [cfg.ldap_target_group_attr]) cfg.ldap_search_timeout 1).1 ≠ LDAP_SUCCESS
          then "ldap_search_ext_s()" else "target_ee_dns == NULL") := by
  rw [strip_access_on_behalf_profiles_loop]
  cases hs : env.ldap_search_ext_s p.target_keystore_group_dn LDAP_SCOPE_BASE none
      (some [cfg.ldap_target_group_attr]) cfg.ldap_search_timeout 1 with
  | mk rc result =>
    have hget := target_ee_dns_of_nil env cfg p rc result hs h
    by_cases hrc : rc = LDAP_SUCCESS
    · simp [hs, hrc, hget]
    · simp [hs, hrc]

theorem strip_loop_reaches_fatal (env : ldap_env) (cfg : cfg_t)
    (p : pox509_access_on_behalf_profile) (rest : List pox509_access_on_behalf_profile)
    (uid : List Char) (h : target_ee_dns_of env cfg p = []) :
    ∀ (before : List pox509_access_on_behalf_profile) (info : pox509_info)
      (calls : List ldap_call), info.uid = uid →
      (∀ q ∈ before, target_group_readable env cfg q = true ∧
        (some_target_uid_matches env cfg uid q = true ∨ env.released_link_readable q = true)) →
      strip_access_on_behalf_profiles_loop env cfg (before ++ p :: rest) info calls =
        outcome.fatal
          (if (env.ldap_search_ext_s p.target_keystore_group_dn LDAP_SCOPE_BASE none
              (some [cfg.ldap_target_group_attr]) cfg.ldap_search_timeout 1).1 ≠ LDAP_SUCCESS
            then "ldap_search_ext_s()" else "target_ee_dns == NULL") := by
  intro before
  induction before with
  | nil =>
    intro info calls _ _
    exact strip_loop_no_members env cfg p rest info calls h
  | cons q before ih =>
    intro info calls huid hall
    obtain ⟨hread, hgo⟩ := hall q (List.mem_cons_self _ _)
    obtain ⟨calls1, hstep⟩ := strip_loop_step env cfg q (before ++ p :: rest) info calls hread
    rw [List.cons_append, hstep, huid]
    have hrest := fun r hr => hall r (List.mem_cons_of_mem _ hr)
    by_cases hmatch : some_target_uid_matches env cfg uid q = true
    · rw [if_pos hmatch]
      exact ih info calls1 huid hrest
    · rw [if_neg hmatch]
      have hlink : env.released_link_readable q = true := by
        rcases hgo with hgo | hgo
        · exact absurd hgo hmatch
        · exact hgo
      rw [if_pos hlink]
      exact ih _ calls1 rfl hrest

/-- C18, the claim refuted: in the sample directory the server returns no
entry for the target group of the first profile; `cn=empty`, the target group
of `sample_aobp_empty`, has an entry without members. In both cases
`strip_access_on_behalf_profiles` does not return: it ends the process, and the
profile of the team of "alice" that follows is not visited. -/
theorem C18_unreadable_group_terminates :
    target_ee_dns_of (sample_ldap_env 0 true) sample_cfg sample_aobp_nogroup = [] ∧
    strip_access_on_behalf_profiles (sample_ldap_env 0 true) sample_cfg
      { sample_info with access_on_behalf_profiles := [sample_aobp_nogroup, sample_aobp_team] }
      [] = outcome.fatal "target_ee_dns == NULL" ∧
    target_ee_dns_of (sample_ldap_env 0 true) sample_cfg sample_aobp_empty = [] ∧
    strip_access_on_behalf_profiles (sample_ldap_env 0 true) sample_cfg
      { sample_info with access_on_behalf_profiles := [sample_aobp_empty, sample_aobp_team] }
      [] = outcome.fatal "target_ee_dns == NULL" := by
  decide

/-- C18 as amended: for an access on behalf profile whose target keystore
group gives no member (no entry, or no value of the target group attribute),
`strip_access_on_behalf_profiles` ends the process when its traversal reaches
the profile, with "target_ee_dns == NULL" when the search succeeded; it does
not drop the profile and go on. The traversal reaches the profile when every
profile before it is read and either kept or stripped with a link that is
still read. -/
theorem C18_unreadable_group_is_fatal (env : ldap_env) (cfg : cfg_t) (info : pox509_info)
    (calls : List ldap_call) (p : pox509_access_on_behalf_profile)
    (before rest : List pox509_access_on_behalf_profile)
    (hq : info.access_on_behalf_profiles = before ++ p :: rest)
    (h : target_ee_dns_of env cfg p = [])
    (hbefore : ∀ q ∈ before, target_group_readable env cfg q = true ∧
      (some_target_uid_matches env cfg info.uid q = true ∨
        env.released_link_readable q = true)) :
    strip_access_on_behalf_profiles env cfg info calls =
      outcome.fatal
        (if (env.ldap_search_ext_s p.target_keystore_group_dn LDAP_SCOPE_BASE none
            (some [cfg.ldap_target_group_attr]) cfg.ldap_search_timeout 1).1 ≠ LDAP_SUCCESS
          then "ldap_search_ext_s()" else "target_ee_dns == NULL") := by
  unfold strip_access_on_behalf_profiles
  have hne : info.access_on_behalf_profiles ≠ [] := by
    rw [hq]
    simp
  rw [if_neg hne, hq]
  exact strip_loop_reaches_fatal env cfg p rest info.uid h before info calls rfl hbefore

/-- C18 as amended, at the sample directory: the profile of the team of
"alice" is kept, then the traversal reaches the profile without target group
and ends the process. -/
theorem C18_unreadable_group_is_fatal_witness :
    strip_access_on_behalf_profiles (sample_ldap_env 0 true) sample_cfg
      { sample_info with
        access_on_behalf_profiles := [sample_aobp_team, sample_aobp_nogroup, sample_aobp] }
      [] = outcome.fatal "target_ee_dns == NULL" :=
  C18_unreadable_group_is_fatal (sample_ldap_env 0 true) sample_cfg
    { sample_info with
      access_on_behalf_profiles := [sample_aobp_team, sample_aobp_nogroup, sample_aobp] }
    [] sample_aobp_nogroup [sample_aobp_team] [sample_aobp] rfl (by decide) (by decide)

/-- C19, the code at the failing input: "alice" logs in and the queue holds
the profiles `cn=aobp` and `cn=aobp2`, whose target group has the one member
"carol", so the claim leaves the empty list. The first profile is stripped and
released; when the link field of the released profile no longer gives the next
profile, the traversal ends and `cn=aobp2` stays in the queue. A profile whose
target group has "carol" and "alice" is retained. -/
theorem C19_traversal_after_release :
    target_group_readable (sample_ldap_env 0 false) sample_cfg sample_aobp = true ∧
    target_group_readable (sample_ldap_env 0 false) sample_cfg sample_aobp2 = true ∧
    [sample_aobp, sample_aobp2].filter
      (some_target_uid_matches (sample_ldap_env 0 false) sample_cfg sample_info.uid) = [] ∧
    ((strip_access_on_behalf_profiles (sample_ldap_env 0 false) sample_cfg
      { sample_info with access_on_behalf_profiles := [sample_aobp, sample_aobp2] } []).value?).map
      (fun r => r.1.access_on_behalf_profiles) = some [sample_aobp2] ∧
    ((strip_access_on_behalf_profiles (sample_ldap_env 0 true) sample_cfg
      { sample_info with access_on_behalf_profiles := [sample_aobp, sample_aobp2] } []).value?).map
      (fun r => r.1.access_on_behalf_profiles) = some [] ∧
    ((strip_access_on_behalf_profiles (sample_ldap_env 0 false) sample_cfg
      { sample_info with access_on_behalf_profiles := [sample_aobp_team] } []).value?).map
      (fun r => r.1.access_on_behalf_profiles) = some [sample_aobp_team] := by
  decide

/-! ## Failure of `add_key_data_from_rsa` -/

/-- What holds of a return of `add_key_data_from_rsa` that leaves both records
as they were with a status other than `KEETO_OK`. -/
theorem unchanged_on_failure (rc : keeto_error) (ssh_key : keeto_ssh_key) (key : keeto_key)
    (hrc : rc ≠ KEETO_OK) :
    (rc ≠ KEETO_OK → ssh_key = ssh_key ∧ key = key) ∧
    (rc = KEETO_OK → ∃ k md5 sha256,
      ssh_key = { ssh_key with key := some k } ∧
      key = { key with ssh_key_fp_md5 := some md5, ssh_key_fp_sha256 := some sha256 }) ∧
    ((ssh_key.key ≠ ssh_key.key ∨ key.ssh_key_fp_md5 ≠ key.ssh_key_fp_md5 ∨
        key.ssh_key_fp_sha256 ≠ key.ssh_key_fp_sha256) → rc = KEETO_OK) := by
  refine ⟨fun _ => ⟨rfl, rfl⟩, fun h => absurd h hrc, ?_⟩
  rintro (h | h | h) <;> exact absurd rfl h

/-- C21: `add_key_data_from_rsa`, called with a key type set, returns, and
when the status it returns is not `KEETO_OK` (the blob, the base64 encoding or
one of the two fingerprints failed) the records `*ssh_key` and `*key` are as
they were before the call, so `ssh_key->key`, `key->ssh_key_fp_md5` and
`key->ssh_key_fp_sha256` are unchanged; when the status is `KEETO_OK` all
three fields are set, and nothing else is changed. So if one of the three
fields differs after the call, the status is `KEETO_OK`. -/
theorem C21_atomic_on_failure (env : key_env) (rsa : RSA) (ssh_key : keeto_ssh_key)
    (key : keeto_key) (keytype : List Char) (hk : ssh_key.keytype = some keytype) :
    ∃ rc ssh_key' key',
      add_key_data_from_rsa env rsa ssh_key key = outcome.returned (rc, ssh_key', key') ∧
      (rc ≠ KEETO_OK → ssh_key' = ssh_key ∧ key' = key) ∧
      (rc = KEETO_OK → ∃ k md5 sha256,
        ssh_key' = { ssh_key with key := some k } ∧
        key' = { key with ssh_key_fp_md5 := some md5, ssh_key_fp_sha256 := some sha256 }) ∧
      ((ssh_key'.key ≠ ssh_key.key ∨ key'.ssh_key_fp_md5 ≠ key.ssh_key_fp_md5 ∨
          key'.ssh_key_fp_sha256 ≠ key.ssh_key_fp_sha256) → rc = KEETO_OK) := by
  obtain ⟨keytype0, key0⟩ := ssh_key
  simp only at hk
  subst hk
  unfold add_key_data_from_rsa
  simp only []
  by_cases hs : (get_ssh_key_blob_from_rsa env.malloc_ok env.stack keytype rsa none 0).status =
      KEETO_OK
  · rw [if_neg (not_not.mpr hs)]
    cases hb : blob_to_base64 env.key_base64_fail
        ((get_ssh_key_blob_from_rsa env.malloc_ok env.stack keytype rsa none 0).ret.getD [])
        (get_ssh_key_blob_from_rsa env.malloc_ok env.stack keytype rsa none 0).ret_length with
    | error rc =>
      exact ⟨rc, _, key, rfl,
        unchanged_on_failure rc (keeto_ssh_key.mk (some keytype) key0) key
          (blob_to_base64_error _ _ _ _ hb)⟩
    | ok tmp_ssh_key =>
      simp only []
      by_cases h5 : (get_ssh_key_fingerprint_from_blob env.EVP_Digest env.md5_hex_fail
          env.sha256_base64_fail
          ((get_ssh_key_blob_from_rsa env.malloc_ok env.stack keytype rsa none 0).ret.getD [])
          (get_ssh_key_blob_from_rsa env.malloc_ok env.stack keytype rsa none 0).ret_length
          KEETO_DIGEST_MD5 none).status = KEETO_OK
      · rw [if_neg (not_not.mpr h5)]
        by_cases h256 : (get_ssh_key_fingerprint_from_blob env.EVP_Digest env.md5_hex_fail
            env.sha256_base64_fail
            ((get_ssh_key_blob_from_rsa env.malloc_ok env.stack keytype rsa none 0).ret.getD [])
            (get_ssh_key_blob_from_rsa env.malloc_ok env.stack keytype rsa none 0).ret_length
            KEETO_DIGEST_SHA256 none).status = KEETO_OK
        · rw [if_neg (not_not.mpr h256)]
          obtain ⟨d5, _, hr5⟩ := fingerprint_md5_ok _ _ _ _ _ _ h5
          obtain ⟨d256, _, hr256⟩ := fingerprint_sha256_ok _ _ _ _ _ _ h256
          refine ⟨KEETO_OK, _, _, rfl, fun h => absurd rfl h, fun _ => ?_, fun _ => rfl⟩
          exact ⟨tmp_ssh_key, _, _, rfl, by rw [hr5, hr256]⟩
        · rw [if_pos h256]
          exact ⟨_, _, key, rfl,
          unchanged_on_failure _ (keeto_ssh_key.mk (some keytype) key0) key h256⟩
      · rw [if_pos h5]
        exact ⟨_, _, key, rfl,
          unchanged_on_failure _ (keeto_ssh_key.mk (some keytype) key0) key h5⟩
  · rw [if_pos hs]
    exact ⟨_, _, key, rfl,
          unchanged_on_failure _ (keeto_ssh_key.mk (some keytype) key0) key hs⟩

/-- C21 at a call that fails at its last step: the blob, the base64 key and
the MD5 fingerprint are computed, the SHA-256 fingerprint fails, and the
records keep the key and the fingerprints of an earlier call. -/
theorem C21_atomic_on_failure_witness :
    add_key_data_from_rsa sha256_failing_key_env ⟨0xC34F, 0x010001⟩ sample_old_ssh_key
      sample_old_key = outcome.returned (KEETO_OPENSSL_ERR, sample_old_ssh_key, sample_old_key) ∧
    ∃ rc ssh_key' key',
      add_key_data_from_rsa sha256_failing_key_env ⟨0xC34F, 0x010001⟩ sample_old_ssh_key
        sample_old_key = outcome.returned (rc, ssh_key', key') ∧
      (rc ≠ KEETO_OK → ssh_key' = sample_old_ssh_key ∧ key' = sample_old_key) :=
  ⟨by decide,
    (C21_atomic_on_failure sha256_failing_key_env ⟨0xC34F, 0x010001⟩ sample_old_ssh_key
      sample_old_key ssh_rsa rfl).elim
      (fun rc h => h.elim (fun s h => h.elim (fun k h => ⟨rc, s, k, h.1, h.2.1⟩)))⟩

/-! ## The store after `free_cert_store` -/

/-- After a call of `init_cert_store` that returns `KEETO_OK` the pointer
`cert_store` is set. -/
theorem init_cert_store_ok_set (env : store_env) (cert_store_dir : List Char) (check_crl : Bool)
    (s s1 : store_state) (calls : List library_call)
    (h : init_cert_store env cert_store_dir check_crl s = (KEETO_OK, s1, calls)) :
    s1.cert_store ≠ none := by
  unfold init_cert_store at h
  by_cases hset : s.cert_store ≠ none
  · rw [if_pos hset] at h
    simp only [Prod.mk.injEq, true_and] at h
    rw [← h.1]
    exact hset
  · rw [if_neg hset] at h
    cases hnew : env.X509_STORE_new_ok with
    | false => simp [hnew] at h
    | true =>
      cases hlookup : env.X509_STORE_add_lookup_ok with
      | false => simp [hnew, hlookup] at h
      | true =>
        by_cases hdir : env.X509_LOOKUP_add_dir cert_store_dir X509_FILETYPE_PEM = 0
        · simp [hnew, hlookup, hdir] at h
        · cases check_crl with
          | false =>
            simp only [hnew, hlookup, hdir, Bool.true_eq_false, Bool.false_eq_true, if_false,
              Prod.mk.injEq, true_and] at h
            rw [← h.1]
            simp
          | true =>
            by_cases hflags : env.X509_STORE_set_flags
                (X509_V_FLAG_CRL_CHECK ||| X509_V_FLAG_CRL_CHECK_ALL) = 0
            · simp [hnew, hlookup, hdir, hflags] at h
            · simp only [hnew, hlookup, hdir, hflags, Bool.true_eq_false, if_false, if_true,
                Prod.mk.injEq, true_and] at h
              rw [← h.1]
              simp

/-- C22: `free_cert_store` does nothing when `cert_store` is `NULL`. After a
call of `init_cert_store` that returned `KEETO_OK`, `free_cert_store` releases
the store with `X509_STORE_free` and leaves the pointer `cert_store` as it
was, not `NULL`; so a following `init_cert_store`, with whatever directory and
flag, returns `KEETO_OK` without any OpenSSL call and without changing the
state, and `validate_x509` does not end with "cert_store == NULL". -/
theorem C22_free_keeps_handle (env : store_env) (cert_store_dir : List Char) (check_crl : Bool)
    (s s1 : store_state) (calls : List library_call)
    (h : init_cert_store env cert_store_dir check_crl s = (KEETO_OK, s1, calls)) :
    (∀ s0 : store_state, s0.cert_store = none → free_cert_store s0 = (s0, [])) ∧
    free_cert_store s1 = ({ s1 with released := true }, [library_call.X509_STORE_free]) ∧
    (free_cert_store s1).1.cert_store = s1.cert_store ∧
    (free_cert_store s1).1.cert_store ≠ none ∧
    (∀ (env2 : store_env) (d : List Char) (f : Bool),
      init_cert_store env2 d f (free_cert_store s1).1 =
        (KEETO_OK, (free_cert_store s1).1, [])) ∧
    (∀ (venv : verify_env) (x509 : X509) (ret : Option Bool),
      validate_x509 venv x509 ret (free_cert_store s1).1 ≠
        outcome.fatal "cert_store == NULL") := by
  have hset := init_cert_store_ok_set env cert_store_dir check_crl s s1 calls h
  have hfree : free_cert_store s1 =
      ({ s1 with released := true }, [library_call.X509_STORE_free]) := by
    unfold free_cert_store
    rw [if_neg hset]
  refine ⟨?_, hfree, ?_, ?_, ?_, ?_⟩
  · intro s0 h0
    unfold free_cert_store
    rw [if_pos h0]
  · rw [hfree]
  · rw [hfree]
    exact hset
  · intro env2 d f
    rw [hfree]
    unfold init_cert_store
    rw [if_pos hset]
  · intro venv x509 ret
    rw [hfree]
    cases hc : s1.cert_store with
    | none => exact absurd hc hset
    | some store =>
      unfold validate_x509
      simp only [hc]
      split
      · simp
      · split
        · simp
        · split
          · simp
          · split <;> simp

/-- C22 at the sample store: never initialized, `free_cert_store` does
nothing; after a first `init_cert_store` and `free_cert_store` the pointer is
still set, a second `init_cert_store` with an OpenSSL in which every call
would fail returns `KEETO_OK` with no call made, and `validate_x509` does not
end with "cert_store == NULL". -/
theorem C22_free_keeps_handle_witness :
    free_cert_store initial_state = (initial_state, []) ∧
    (init_cert_store sample_store_env "/etc/keeto/certs".toList true initial_state).1 = KEETO_OK ∧
    (free_cert_store
      (init_cert_store sample_store_env "/etc/keeto/certs".toList true initial_state).2.1).2 =
      [library_call.X509_STORE_free] ∧
    init_cert_store failing_store_env "/tmp/other".toList false
      (free_cert_store
        (init_cert_store sample_store_env "/etc/keeto/certs".toList true initial_state).2.1).1 =
      (KEETO_OK,
        (free_cert_store
          (init_cert_store sample_store_env "/etc/keeto/certs".toList true initial_state).2.1).1,
        []) ∧
    validate_x509 sample_verify_env sample_rsa_cert none
      (free_cert_store
        (init_cert_store sample_store_env "/etc/keeto/certs".toList true initial_state).2.1).1 ≠
      outcome.fatal "cert_store == NULL" :=
  have h := C22_free_keeps_handle sample_store_env "/etc/keeto/certs".toList true initial_state
    (init_cert_store sample_store_env "/etc/keeto/certs".toList true initial_state).2.1
    (init_cert_store sample_store_env "/etc/keeto/certs".toList true initial_state).2.2
    (by decide)
  ⟨h.1 initial_state rfl, by decide, by decide,
    h.2.2.2.2.1 failing_store_env "/tmp/other".toList false,
    h.2.2.2.2.2 sample_verify_env sample_rsa_cert none⟩

end Keeto
